import Mathlib

/-! The package go-xerrs: structured application errors

A shallow embedding of the Go package `xerrs` (files `constants.go`, `errors.go`,
`detection.go`, `chaining.go`) and theorems about its classification and wrapping.

Conventions of the embedding

* A Go `string` is a Lean `String`, read as its sequence of Unicode code points
  (valid UTF-8 text; on such text a byte substring is a code-point substring).
* A Go `int` is an `Int`; no arithmetic is done on status codes.
* A `*AppError` is an `Option AppError` (`none` is the nil pointer); an `error`
  interface value is an `Option GoError` (`none` is the nil interface).
* A nil-pointer dereference is the fault `Fault.nilDereference`; functions that can
  reach one return `Except Fault _`.
* Stack snapshots captured by the error library carry no data here.
-/

namespace Xerrs

/-! ## Strings (package `strings`) -/

/-- White space as `unicode.IsSpace` defines it: the Latin-1 spaces
`\t \n \v \f \r`, space, U+0085, U+00A0, and the code points of category Z. -/
def isSpace (c : Char) : Bool :=
  let n := c.toNat
  (9 ≤ n && n ≤ 13) || n == 32 || n == 0x85 || n == 0xA0 || n == 0x1680 ||
    (0x2000 ≤ n && n ≤ 0x200A) || n == 0x2028 || n == 0x2029 || n == 0x202F ||
    n == 0x205F || n == 0x3000

/-- Drop the trailing white space of a rune sequence. -/
def trimRight : List Char → List Char
  | [] => []
  | c :: cs =>
    match trimRight cs with
    | [] => if isSpace c then [] else [c]
    | r => c :: r

/-- The function `strings.TrimSpace`: remove leading and trailing white space. -/
def TrimSpace (s : String) : String :=
  ⟨trimRight (s.data.dropWhile isSpace)⟩

/-- Lower-case mapping of one rune, `unicode.ToLower`: the ASCII letters `A`-`Z` go
to `a`-`z`, the other ASCII runes stay; outside ASCII the mapping is that of the
Unicode case tables, taken as the parameter `u`. -/
def toLowerRune (u : Char → Char) (c : Char) : Char :=
  if c.toNat < 128 then
    if 65 ≤ c.toNat ∧ c.toNat ≤ 90 then Char.ofNat (c.toNat + 32) else c
  else u c

/-- The function `strings.ToLower`, rune by rune. -/
def ToLower (u : Char → Char) (s : String) : String :=
  ⟨s.data.map (toLowerRune u)⟩

/-- Whether the rune sequence `p` starts the rune sequence `s`. -/
def hasPrefix : List Char → List Char → Bool
  | _, [] => true
  | [], _ :: _ => false
  | a :: s, b :: p => a == b && hasPrefix s p

/-- Whether `p` occurs in `s` at some position. -/
def containsRunes : List Char → List Char → Bool
  | [], p => hasPrefix [] p
  | a :: s, p => hasPrefix (a :: s) p || containsRunes s p

/-- The function `strings.Contains`. -/
def Contains (s substr : String) : Bool :=
  containsRunes s.data substr.data

/-! ## Constants (`constants.go`) -/

abbrev CodeValidationError : String := "VALIDATION_ERROR"
abbrev CodeInvalidInput : String := "INVALID_INPUT"
abbrev CodeRequiredField : String := "REQUIRED_FIELD"
abbrev CodeInvalidFormat : String := "INVALID_FORMAT"
abbrev CodeInvalidRange : String := "INVALID_RANGE"
abbrev CodeInvalidCredentials : String := "INVALID_CREDENTIALS"
abbrev CodeTokenExpired : String := "TOKEN_EXPIRED"
abbrev CodeTokenInvalid : String := "TOKEN_INVALID"
abbrev CodeLoginRequired : String := "LOGIN_REQUIRED"
abbrev CodeAuthRequired : String := "AUTH_REQUIRED"
abbrev CodeAccessDenied : String := "ACCESS_DENIED"
abbrev CodeInsufficientPermissions : String := "INSUFFICIENT_PERMISSIONS"
abbrev CodeResourceForbidden : String := "RESOURCE_FORBIDDEN"
abbrev CodeInsufficientRole : String := "INSUFFICIENT_ROLE"
abbrev CodeResourceNotFound : String := "RESOURCE_NOT_FOUND"
abbrev CodeResourceExists : String := "RESOURCE_EXISTS"
abbrev CodeRateLimitExceeded : String := "RATE_LIMIT_EXCEEDED"
abbrev CodeInternalError : String := "INTERNAL_ERROR"
abbrev CodeDatabaseError : String := "DATABASE_ERROR"
abbrev CodeDatabaseConnection : String := "DATABASE_CONNECTION"
abbrev CodeDatabaseConstraint : String := "DATABASE_CONSTRAINT"
abbrev CodeInternalTimeout : String := "INTERNAL_TIMEOUT"
abbrev CodeConfigurationError : String := "CONFIGURATION_ERROR"
abbrev CodeOperationCanceled : String := "OPERATION_CANCELED"
abbrev CodeExternalError : String := "EXTERNAL_ERROR"
abbrev CodeExternalTimeout : String := "EXTERNAL_TIMEOUT"
abbrev CodeExternalUnavailable : String := "EXTERNAL_UNAVAILABLE"
abbrev CodeServiceUnavailable : String := "SERVICE_UNAVAILABLE"

/-- The category of an application error: `type ErrorType string`. -/
abbrev ErrorType : Type := String

abbrev ErrorTypeValidation : ErrorType := "VALIDATION"
abbrev ErrorTypeAuthentication : ErrorType := "AUTHENTICATION"
abbrev ErrorTypeAuthorization : ErrorType := "AUTHORIZATION"
abbrev ErrorTypeNotFound : ErrorType := "NOT_FOUND"
abbrev ErrorTypeConflict : ErrorType := "CONFLICT"
abbrev ErrorTypeRateLimit : ErrorType := "RATE_LIMIT"
abbrev ErrorTypeInternal : ErrorType := "INTERNAL"
abbrev ErrorTypeExternal : ErrorType := "EXTERNAL"
abbrev ErrorTypeUnavailable : ErrorType := "UNAVAILABLE"

abbrev StatusInternalServerError : Int := 500

abbrev MsgUnknownError : String := "Unknown error occurred"

/-- The method `ErrorType.DefaultHTTPStatus`: the `switch` over the nine categories,
with the `net/http` status constants written as numbers. -/
def DefaultHTTPStatus (et : ErrorType) : Int :=
  if et = ErrorTypeValidation then 400
  else if et = ErrorTypeAuthentication then 401
  else if et = ErrorTypeAuthorization then 403
  else if et = ErrorTypeNotFound then 404
  else if et = ErrorTypeConflict then 409
  else if et = ErrorTypeRateLimit then 429
  else if et = ErrorTypeInternal then 500
  else if et = ErrorTypeExternal then 502
  else if et = ErrorTypeUnavailable then 503
  else 500

/-! ## The pattern table (`detection.go`) -/

/-- One group of the table: `type errorPattern struct`. -/
structure errorPattern where
  patterns : List String
  errorType : ErrorType
  code : String

/-- The table `errorPatterns`, in source order. -/
def errorPatterns : List errorPattern :=
  [ ⟨["json", "unmarshal", "parse", "invalid character", "looking for beginning",
      "unexpected end of JSON input"], ErrorTypeValidation, CodeInvalidFormat⟩,
    ⟨["validation failed", "invalid format", "malformed"], ErrorTypeValidation,
      CodeInvalidFormat⟩,
    ⟨["required", "missing"], ErrorTypeValidation, CodeRequiredField⟩,
    ⟨["out of range", "too large", "too small"], ErrorTypeValidation, CodeInvalidRange⟩,
    ⟨["duplicate key", "unique constraint", "already exists"], ErrorTypeConflict,
      CodeResourceExists⟩,
    ⟨["foreign key constraint", "violates foreign key"], ErrorTypeValidation,
      CodeInvalidInput⟩,
    ⟨["not null constraint", "violates not-null"], ErrorTypeValidation,
      CodeRequiredField⟩,
    ⟨["check constraint"], ErrorTypeValidation, CodeInvalidRange⟩,
    ⟨["unauthorized", "invalid credentials", "authentication failed"],
      ErrorTypeAuthentication, CodeInvalidCredentials⟩,
    ⟨["token expired", "jwt expired"], ErrorTypeAuthentication, CodeTokenExpired⟩,
    ⟨["invalid token", "malformed token"], ErrorTypeAuthentication, CodeTokenInvalid⟩,
    ⟨["forbidden", "access denied", "permission denied"], ErrorTypeAuthorization,
      CodeAccessDenied⟩,
    ⟨["rate limit", "too many requests", "quota exceeded"], ErrorTypeRateLimit,
      CodeRateLimitExceeded⟩,
    ⟨["connection refused", "connection reset", "no such host",
      "network is unreachable"], ErrorTypeExternal, CodeExternalError⟩,
    ⟨["timeout", "deadline exceeded"], ErrorTypeExternal, CodeExternalTimeout⟩,
    ⟨["service unavailable", "bad gateway", "gateway timeout"], ErrorTypeUnavailable,
      CodeExternalUnavailable⟩,
    ⟨["file not found", "no such file"], ErrorTypeNotFound, CodeResourceNotFound⟩,
    ⟨["configuration", "config", "environment"], ErrorTypeInternal,
      CodeConfigurationError⟩ ]

/-- The function `matchesAnyPattern`: the loop over the patterns of one group,
returning at the first one that `msg` contains. -/
def matchesAnyPattern (msg : String) : List String → Bool
  | [] => false
  | pattern :: rest => if Contains msg pattern then true else matchesAnyPattern msg rest

/-- The loop of `detectFromErrorMessage` over the groups that are left, returning at
the first group that matches and the default after the last. -/
def detectInGroups (lowerMsg : String) : List errorPattern → ErrorType × String
  | [] => (ErrorTypeInternal, CodeInternalError)
  | pattern :: rest =>
    if matchesAnyPattern lowerMsg pattern.patterns then (pattern.errorType, pattern.code)
    else detectInGroups lowerMsg rest

/-- The function `detectFromErrorMessage`. -/
def detectFromErrorMessage (u : Char → Char) (errMsg : String) : ErrorType × String :=
  let lowerMsg := ToLower u errMsg
  detectInGroups lowerMsg errorPatterns

/-! ## Failure values

The `error` values the package receives and builds. The error library
(`github.com/cockroachdb/errors`), the standard `errors.Join` and `fmt.Errorf`, and
the sentinels of `context`, `gorm` and `database/sql` are collaborators of the
package; they are modelled by what the package relies on: how a value renders, what
it unwraps to, and which sentinel `errors.Is` identifies it with. -/

/-- The eleven sentinel failures tested by `detectErrorTypeAndCode`. -/
inductive Sentinel where
  | DeadlineExceeded
  | Canceled
  | ErrRecordNotFound
  | ErrInvalidTransaction
  | ErrNotImplemented
  | ErrMissingWhereClause
  | ErrUnsupportedRelation
  | ErrPrimaryKeyRequired
  | ErrNoRows
  | ErrTxDone
  | ErrConnDone
  deriving DecidableEq, Repr

/-- A nil-pointer dereference, the one run-time fault of the package. -/
inductive Fault where
  | nilDereference
  deriving DecidableEq, Repr

/-- A non-nil `error` value.

* `leaf msg`: a failure with no cause that `errors.Is` identifies with no sentinel,
  whatever its text: the leaf of the error library (`errors.NewWithDepth`), a value of
  a type of the caller, a standard-library error whose text is no sentinel's.
* `plain msg`: the value `errors.New(msg)` of the standard library. Ten of the
  sentinels have its concrete type, and `errors.Is` identifies it with the one whose
  text is `msg`, if there is one.
* `sentinel s`: the sentinel `s` itself.
* `withStack cause`: the stack-capturing wrapper of the error library.
* `withPrefix pre cause`: the message wrapper of the error library.
* `wrapped msg cause`: a wrapper with a message of its own (`fmt.Errorf` with `%w`).
* `join errs`: the result of `errors.Join`.
* `appNil`: a nil `*AppError` stored in an `error` interface.
* `app ..`: a non-nil `*AppError`, with the fields of the struct. -/
inductive GoError where
  | leaf (msg : String)
  | plain (msg : String)
  | sentinel (s : Sentinel)
  | withStack (cause : GoError)
  | withPrefix (pre : String) (cause : GoError)
  | wrapped (msg : String) (cause : GoError)
  | join (errs : List GoError)
  | appNil
  | app (Type_ : ErrorType) (Code Message Details : String) (HTTPStatus : Int)
      (cause : Option GoError)

/-- The struct `AppError`. -/
structure AppError where
  Type_ : ErrorType
  Code : String
  Message : String
  Details : String := ""
  HTTPStatus : Int := 0
  cause : Option GoError := none

/-- A non-nil `*AppError` seen as an `error`. -/
def AppError.toError (a : AppError) : GoError :=
  .app a.Type_ a.Code a.Message a.Details a.HTTPStatus a.cause

/-- A `*AppError` converted to the `error` interface: a nil pointer gives a non-nil
interface value holding it. -/
def asError : Option AppError → GoError
  | none => .appNil
  | some a => a.toError

/-- The text of a sentinel, as its `Error()` gives it. -/
def Sentinel.text : Sentinel → String
  | .DeadlineExceeded => "context deadline exceeded"
  | .Canceled => "context canceled"
  | .ErrRecordNotFound => "record not found"
  | .ErrInvalidTransaction => "invalid transaction"
  | .ErrNotImplemented => "not implemented"
  | .ErrMissingWhereClause => "WHERE conditions required"
  | .ErrUnsupportedRelation => "unsupported relations"
  | .ErrPrimaryKeyRequired => "primary key required"
  | .ErrNoRows => "sql: no rows in result set"
  | .ErrTxDone => "sql: transaction has already been committed or rolled back"
  | .ErrConnDone => "sql: connection is already closed"

/-- The method `(*AppError).Error` on a non-nil receiver. -/
def renderApp (Type_ : ErrorType) (Code Message Details : String) : String :=
  let details := TrimSpace Details
  if details ≠ "" then
    "[" ++ Type_ ++ "] " ++ Code ++ ": " ++ Message ++ " - " ++ details
  else
    "[" ++ Type_ ++ "] " ++ Code ++ ": " ++ Message

/-- Whether a value is a nil `*AppError` stored in an `error` interface. -/
def isNilPointer : GoError → Bool
  | .appNil => true
  | _ => false

mutual
/-- The method `Error()` of an `error` value. On a nil `*AppError` the method reads a
field of the receiver and faults. The message wrapper with a non-empty message prints
its cause with `fmt`, which writes `<nil>` for a nil `*AppError` instead of calling
the method. -/
def GoError.Error : GoError → Except Fault String
  | .leaf msg => .ok msg
  | .plain msg => .ok msg
  | .sentinel s => .ok s.text
  | .withStack cause => cause.Error
  | .withPrefix pre cause =>
    match cause.Error with
    | .error f => if pre ≠ "" ∧ isNilPointer cause then .ok (pre ++ ": <nil>") else .error f
    | .ok m => if pre = "" then .ok m else .ok (pre ++ ": " ++ m)
  | .wrapped msg _ => .ok msg
  | .join errs => GoError.joinText errs
  | .appNil => .error .nilDereference
  | .app t c m d _ _ => .ok (renderApp t c m d)
/-- The texts of the members of a joined error, separated by newlines. -/
def GoError.joinText : List GoError → Except Fault String
  | [] => .ok ""
  | e :: rest =>
    match e.Error with
    | .error f => .error f
    | .ok m =>
      match rest with
      | [] => .ok m
      | _ :: _ =>
        match GoError.joinText rest with
        | .error f => .error f
        | .ok ms => .ok (m ++ "\n" ++ ms)
end

/-- The function `errors.UnwrapOnce` of the error library: the `Cause()` method when
the value has one, else `Unwrap()`. For a `*AppError` that is its method `Cause`,
which answers nil on a nil receiver. -/
def UnwrapOnce : GoError → Option GoError
  | .withStack cause => some cause
  | .withPrefix _ cause => some cause
  | .wrapped _ cause => some cause
  | .app _ _ _ _ _ cause => cause
  | _ => none

mutual
/-- The values a chain traversal of the error library visits from `e`, in the order
of the visit: `e`, then the members of a joined error, then what `e` unwraps to. -/
def links : GoError → List GoError
  | .leaf msg => [.leaf msg]
  | .plain msg => [.plain msg]
  | .sentinel s => [.sentinel s]
  | .withStack cause => .withStack cause :: links cause
  | .withPrefix pre cause => .withPrefix pre cause :: links cause
  | .wrapped msg cause => .wrapped msg cause :: links cause
  | .join errs => .join errs :: linksOfList errs
  | .appNil => [.appNil]
  | .app t c m d h none => [.app t c m d h none]
  | .app t c m d h (some cause) => .app t c m d h (some cause) :: links cause
/-- The values visited from the members of a joined error. -/
def linksOfList : List GoError → List GoError
  | [] => []
  | e :: rest => links e ++ linksOfList rest
end

/-- The comparison by mark of the error library (`equalMarks`), for a standard-library
`errors.New(msg)` and a sentinel: the same concrete type and the same text. Ten of the
sentinels are values of the standard `errors.New`; `context.DeadlineExceeded` has a
type of its own, which no `errors.New` value shares. -/
def equalMarks (msg : String) (reference : Sentinel) : Bool :=
  decide (reference ≠ .DeadlineExceeded) && decide (msg = reference.text)

mutual
/-- The loop of `errors.Is(err, reference)` for a sentinel `reference`, on a non-nil
`err`: each link of the chain is compared with the sentinel, by identity and by mark,
the members of a joined error first. Only a value with no cause can have the mark of a
sentinel, since the mark lists the types of the whole chain below the value. -/
def chainIs : GoError → Sentinel → Bool
  | .leaf _, _ => false
  | .plain msg, reference => equalMarks msg reference
  | .sentinel s, reference => decide (s = reference)
  | .withStack cause, reference => chainIs cause reference
  | .withPrefix _ cause, reference => chainIs cause reference
  | .wrapped _ cause, reference => chainIs cause reference
  | .join errs, reference => chainIsAny errs reference
  | .appNil, _ => false
  | .app _ _ _ _ _ none, _ => false
  | .app _ _ _ _ _ (some cause), reference => chainIs cause reference
/-- The loop over the members of a joined error. -/
def chainIsAny : List GoError → Sentinel → Bool
  | [], _ => false
  | e :: rest, reference => chainIs e reference || chainIsAny rest reference
end

mutual
/-- The loop of `errors.As(err, &appErr)` with `appErr` a `*AppError`, on a non-nil
`err`: the first link whose type is `*AppError` is stored in the target, be it a nil
pointer. `none` is the answer `false`; `some p` is the answer `true` with `p` stored. -/
def chainAs : GoError → Option (Option AppError)
  | .leaf _ => none
  | .plain _ => none
  | .sentinel _ => none
  | .withStack cause => chainAs cause
  | .withPrefix _ cause => chainAs cause
  | .wrapped _ cause => chainAs cause
  | .join errs => chainAsFirst errs
  | .appNil => some none
  | .app t c m d h cause => some (some ⟨t, c, m, d, h, cause⟩)
/-- The loop over the members of a joined error. -/
def chainAsFirst : List GoError → Option (Option AppError)
  | [] => none
  | e :: rest =>
    match chainAs e with
    | some p => some p
    | none => chainAsFirst rest
end

/-- The function `errors.Is` with a sentinel as reference. -/
def errors.Is (err : Option GoError) (reference : Sentinel) : Bool :=
  match err with
  | none => false
  | some e => chainIs e reference

/-- The function `errors.As` with a `*AppError` target. -/
def errors.As (err : Option GoError) : Option (Option AppError) :=
  match err with
  | none => none
  | some e => chainAs e

/-- The function `errors.UnwrapAll` on a non-nil value: unwrap until nothing is left
to unwrap. -/
def unwrapAll : GoError → GoError
  | .withStack cause => unwrapAll cause
  | .withPrefix _ cause => unwrapAll cause
  | .wrapped _ cause => unwrapAll cause
  | .app _ _ _ _ _ (some cause) => unwrapAll cause
  | e => e

/-- The function `errors.Unwrap` of the error library. -/
def errors.Unwrap (err : Option GoError) : Option GoError :=
  match err with
  | none => none
  | some e => UnwrapOnce e

/-- The function `errors.Cause` of the error library, which is its `UnwrapAll`. -/
def errors.Cause (err : Option GoError) : Option GoError :=
  match err with
  | none => none
  | some e => some (unwrapAll e)

/-- The function `errors.NewWithDepth`: a leaf with the message under a stack
wrapper. -/
def errors.NewWithDepth (msg : String) : Option GoError :=
  some (.withStack (.leaf msg))

/-- The function `errors.WrapWithDepth`: nil for a nil `err`; else `err` under a
message wrapper, when the message is not empty, under a stack wrapper. -/
def errors.WrapWithDepth (err : Option GoError) (msg : String) : Option GoError :=
  match err with
  | none => none
  | some e => if msg ≠ "" then some (.withStack (.withPrefix msg e)) else some (.withStack e)

/-! ## The package (`errors.go`, `detection.go`) -/

/-- The function `AsAppError`: the pointer found by `errors.As` and whether one was
found. -/
def AsAppError (err : Option GoError) : Option AppError × Bool :=
  match err with
  | none => (none, false)
  | some _ =>
    match errors.As err with
    | some appErr => (appErr, true)
    | none => (none, false)

/-- The function `IsAppError`. -/
def IsAppError (err : Option GoError) : Bool :=
  (AsAppError err).2

/-- The function `detectErrorTypeAndCode`. Reading `appErr.Type` faults on a nil
pointer, and `err.Error()` faults on a nil interface. -/
def detectErrorTypeAndCode (u : Char → Char) (err : Option GoError) :
    Except Fault (ErrorType × String) :=
  match AsAppError err with
  | (appErr, true) =>
    match appErr with
    | none => .error .nilDereference
    | some a => .ok (a.Type_, a.Code)
  | (_, false) =>
    if errors.Is err .DeadlineExceeded then .ok (ErrorTypeInternal, CodeInternalTimeout)
    else if errors.Is err .Canceled then .ok (ErrorTypeInternal, CodeOperationCanceled)
    else if errors.Is err .ErrRecordNotFound then .ok (ErrorTypeNotFound, CodeResourceNotFound)
    else if errors.Is err .ErrInvalidTransaction then .ok (ErrorTypeInternal, CodeDatabaseError)
    else if errors.Is err .ErrNotImplemented then .ok (ErrorTypeInternal, CodeDatabaseError)
    else if errors.Is err .ErrMissingWhereClause then .ok (ErrorTypeValidation, CodeInvalidInput)
    else if errors.Is err .ErrUnsupportedRelation then .ok (ErrorTypeInternal, CodeDatabaseError)
    else if errors.Is err .ErrPrimaryKeyRequired then .ok (ErrorTypeValidation, CodeRequiredField)
    else if errors.Is err .ErrNoRows then .ok (ErrorTypeNotFound, CodeResourceNotFound)
    else if errors.Is err .ErrTxDone then .ok (ErrorTypeInternal, CodeDatabaseError)
    else if errors.Is err .ErrConnDone then .ok (ErrorTypeInternal, CodeDatabaseConnection)
    else
      match err with
      | none => .error .nilDereference
      | some e =>
        match e.Error with
        | .error f => .error f
        | .ok msg => .ok (detectFromErrorMessage u msg)

/-- The function `NewAppError`. -/
def NewAppError (errorType : ErrorType) (code message : String) : AppError :=
  let code := TrimSpace code
  let message := TrimSpace message
  let errorType := if errorType = "" then ErrorTypeInternal else errorType
  let code := if code = "" then CodeInternalError else code
  let message := if message = "" then MsgUnknownError else message
  { Type_ := errorType
    Code := code
    Message := message
    HTTPStatus := DefaultHTTPStatus errorType
    cause := errors.NewWithDepth message }

/-- The function `New`. -/
def New (message : String) : AppError :=
  let message := TrimSpace message
  let message := if message = "" then MsgUnknownError else message
  { Type_ := ErrorTypeInternal
    Code := CodeInternalError
    Message := message
    HTTPStatus := StatusInternalServerError
    cause := errors.NewWithDepth message }

/-- The function `Wrap`. The fields of `appErr` are read without a nil check, and the
classifier can fault; the result is the new `AppError` or the fault. -/
def Wrap (u : Char → Char) (err : Option GoError) (message : String) :
    Except Fault AppError :=
  let message := TrimSpace message
  let message := if message = "" then MsgUnknownError else message
  match err with
  | none =>
    .ok { Type_ := ErrorTypeInternal
          Code := CodeInternalError
          Message := message
          HTTPStatus := StatusInternalServerError
          cause := errors.NewWithDepth message }
  | some _ =>
    match AsAppError err with
    | (appErr, true) =>
      match appErr with
      | none => .error .nilDereference
      | some a =>
        .ok { Type_ := a.Type_
              Code := a.Code
              Message := message
              Details := a.Details
              HTTPStatus := a.HTTPStatus
              cause := errors.WrapWithDepth a.cause message }
    | (_, false) =>
      match detectErrorTypeAndCode u err with
      | .error f => .error f
      | .ok (errorType, code) =>
        .ok { Type_ := errorType
              Code := code
              Message := message
              HTTPStatus := DefaultHTTPStatus errorType
              cause := errors.WrapWithDepth err message }

/-- The method `(*AppError).UnwrapAll`. -/
def AppError.UnwrapAll (e : Option AppError) : Option GoError :=
  match e with
  | none => none
  | some a => errors.Cause a.cause

/-- The method `(*AppError).GetHTTPStatus`. -/
def AppError.GetHTTPStatus (e : Option AppError) : Int :=
  match e with
  | none => StatusInternalServerError
  | some a => if a.HTTPStatus ≠ 0 then a.HTTPStatus else DefaultHTTPStatus a.Type_

/-- The method `(*AppError).WithType`. -/
def AppError.WithType (e : Option AppError) (errorType : ErrorType) : Option AppError :=
  match e with
  | none => none
  | some a => some { a with Type_ := errorType }

/-- The method `(*AppError).WithCode`. -/
def AppError.WithCode (e : Option AppError) (code : String) : Option AppError :=
  match e with
  | none => none
  | some a =>
    let code := TrimSpace code
    if code ≠ "" then some { a with Code := code } else some a

/-- The method `(*AppError).WithMessage`. -/
def AppError.WithMessage (e : Option AppError) (message : String) : Option AppError :=
  match e with
  | none => none
  | some a =>
    let message := TrimSpace message
    if message ≠ "" then some { a with Message := message } else some a

/-- The method `(*AppError).WithDetails`. -/
def AppError.WithDetails (e : Option AppError) (details : String) : Option AppError :=
  match e with
  | none => none
  | some a => some { a with Details := TrimSpace details }

/-- The method `(*AppError).WithHTTPStatus`. -/
def AppError.WithHTTPStatus (e : Option AppError) (status : Int) : Option AppError :=
  match e with
  | none => none
  | some a => if 100 ≤ status ∧ status ≤ 599 then some { a with HTTPStatus := status } else some a

/-- The method `(*AppError).WithCause`. -/
def AppError.WithCause (e : Option AppError) (cause : Option GoError) : Option AppError :=
  match e with
  | none => none
  | some a =>
    match cause with
    | none => some a
    | some _ => some { a with cause := errors.WrapWithDepth cause a.Message }

/-- The method `(*AppError).WithCodeAndMessage`. -/
def AppError.WithCodeAndMessage (e : Option AppError) (code message : String) :
    Option AppError :=
  match e with
  | none => none
  | some a =>
    let code := TrimSpace code
    let a := if code ≠ "" then { a with Code := code } else a
    let message := TrimSpace message
    let a := if message ≠ "" then { a with Message := message } else a
    some a

/-! ### The shortcuts (`chaining.go`) -/

/-- The method `(*AppError).setTypeAndStatus`. -/
def AppError.setTypeAndStatus (e : Option AppError) (errorType : ErrorType) : Option AppError :=
  match e with
  | none => none
  | some a => some { a with Type_ := errorType, HTTPStatus := DefaultHTTPStatus errorType }

/-- The method `(*AppError).AsAuthentication`. -/
def AppError.AsAuthentication (e : Option AppError) : Option AppError :=
  AppError.setTypeAndStatus e ErrorTypeAuthentication

/-- The method `(*AppError).AsValidationWithCode`. -/
def AppError.AsValidationWithCode (e : Option AppError) (code : String) : Option AppError :=
  AppError.WithCode (AppError.setTypeAndStatus e ErrorTypeValidation) code

/-- The method `(*AppError).AsAuthenticationWithCode`. -/
def AppError.AsAuthenticationWithCode (e : Option AppError) (code : String) : Option AppError :=
  AppError.WithCode (AppError.setTypeAndStatus e ErrorTypeAuthentication) code

/-- The method `(*AppError).AsAuthorizationWithCode`. -/
def AppError.AsAuthorizationWithCode (e : Option AppError) (code : String) : Option AppError :=
  AppError.WithCode (AppError.setTypeAndStatus e ErrorTypeAuthorization) code

/-- The method `(*AppError).AsNotFoundWithCode`. -/
def AppError.AsNotFoundWithCode (e : Option AppError) (code : String) : Option AppError :=
  AppError.WithCode (AppError.setTypeAndStatus e ErrorTypeNotFound) code

/-- The method `(*AppError).AsConflictWithCode`. -/
def AppError.AsConflictWithCode (e : Option AppError) (code : String) : Option AppError :=
  AppError.WithCode (AppError.setTypeAndStatus e ErrorTypeConflict) code

/-- The method `(*AppError).AsInternalWithCode`. -/
def AppError.AsInternalWithCode (e : Option AppError) (code : String) : Option AppError :=
  AppError.WithCode (AppError.setTypeAndStatus e ErrorTypeInternal) code

/-- The method `(*AppError).AsUnavailableWithCode`. -/
def AppError.AsUnavailableWithCode (e : Option AppError) (code : String) : Option AppError :=
  AppError.WithCode (AppError.setTypeAndStatus e ErrorTypeUnavailable) code

/-- The method `(*AppError).AsExternalWithCode`. -/
def AppError.AsExternalWithCode (e : Option AppError) (code : String) : Option AppError :=
  AppError.WithCode (AppError.setTypeAndStatus e ErrorTypeExternal) code

/-- The method `(*AppError).AsRateLimitWithCode`. -/
def AppError.AsRateLimitWithCode (e : Option AppError) (code : String) : Option AppError :=
  AppError.WithCode (AppError.setTypeAndStatus e ErrorTypeRateLimit) code

/-- The method `(*AppError).AsValidationError`. -/
def AppError.AsValidationError (e : Option AppError) : Option AppError :=
  AppError.AsValidationWithCode e CodeValidationError

/-- The method `(*AppError).AsInvalidInput`. -/
def AppError.AsInvalidInput (e : Option AppError) : Option AppError :=
  AppError.AsValidationWithCode e CodeInvalidInput

/-- The method `(*AppError).AsRequiredField`. -/
def AppError.AsRequiredField (e : Option AppError) : Option AppError :=
  AppError.AsValidationWithCode e CodeRequiredField

/-- The method `(*AppError).AsInvalidFormat`. -/
def AppError.AsInvalidFormat (e : Option AppError) : Option AppError :=
  AppError.AsValidationWithCode e CodeInvalidFormat

/-- The method `(*AppError).AsInvalidRange`. -/
def AppError.AsInvalidRange (e : Option AppError) : Option AppError :=
  AppError.AsValidationWithCode e CodeInvalidRange

/-- The method `(*AppError).AsInvalidCredentials`. -/
def AppError.AsInvalidCredentials (e : Option AppError) : Option AppError :=
  AppError.AsAuthenticationWithCode e CodeInvalidCredentials

/-- The method `(*AppError).AsTokenExpired`. -/
def AppError.AsTokenExpired (e : Option AppError) : Option AppError :=
  AppError.AsAuthenticationWithCode e CodeTokenExpired

/-- The method `(*AppError).AsTokenInvalid`. -/
def AppError.AsTokenInvalid (e : Option AppError) : Option AppError :=
  AppError.AsAuthenticationWithCode e CodeTokenInvalid

/-- The method `(*AppError).AsLoginRequired`. -/
def AppError.AsLoginRequired (e : Option AppError) : Option AppError :=
  AppError.AsAuthenticationWithCode e CodeLoginRequired

/-- The method `(*AppError).AsAccessDenied`. -/
def AppError.AsAccessDenied (e : Option AppError) : Option AppError :=
  AppError.AsAuthorizationWithCode e CodeAccessDenied

/-- The method `(*AppError).AsInsufficientPermissions`. -/
def AppError.AsInsufficientPermissions (e : Option AppError) : Option AppError :=
  AppError.AsAuthorizationWithCode e CodeInsufficientPermissions

/-- The method `(*AppError).AsResourceForbidden`. -/
def AppError.AsResourceForbidden (e : Option AppError) : Option AppError :=
  AppError.AsAuthorizationWithCode e CodeResourceForbidden

/-- The method `(*AppError).AsResourceNotFound`. -/
def AppError.AsResourceNotFound (e : Option AppError) : Option AppError :=
  AppError.AsNotFoundWithCode e CodeResourceNotFound

/-- The method `(*AppError).AsResourceExists`. -/
def AppError.AsResourceExists (e : Option AppError) : Option AppError :=
  AppError.AsConflictWithCode e CodeResourceExists

/-- The method `(*AppError).AsDatabaseError`. -/
def AppError.AsDatabaseError (e : Option AppError) : Option AppError :=
  AppError.AsInternalWithCode e CodeDatabaseError

/-- The method `(*AppError).AsDatabaseConnection`. -/
def AppError.AsDatabaseConnection (e : Option AppError) : Option AppError :=
  AppError.AsInternalWithCode e CodeDatabaseConnection

/-- The method `(*AppError).AsDatabaseTimeout`. -/
def AppError.AsDatabaseTimeout (e : Option AppError) : Option AppError :=
  AppError.AsInternalWithCode e CodeInternalTimeout

/-- The method `(*AppError).AsDatabaseConstraint`. -/
def AppError.AsDatabaseConstraint (e : Option AppError) : Option AppError :=
  AppError.AsInternalWithCode e CodeDatabaseConstraint

/-- The method `(*AppError).AsServiceUnavailable`. -/
def AppError.AsServiceUnavailable (e : Option AppError) : Option AppError :=
  AppError.AsUnavailableWithCode e CodeServiceUnavailable

/-- The method `(*AppError).AsServiceTimeout`. -/
def AppError.AsServiceTimeout (e : Option AppError) : Option AppError :=
  AppError.AsExternalWithCode e CodeExternalTimeout

/-- The method `(*AppError).AsExternalServiceUnavailable`. -/
def AppError.AsExternalServiceUnavailable (e : Option AppError) : Option AppError :=
  AppError.AsExternalWithCode e CodeExternalUnavailable

/-- The method `(*AppError).AsTooManyRequests`. -/
def AppError.AsTooManyRequests (e : Option AppError) : Option AppError :=
  AppError.AsRateLimitWithCode e CodeRateLimitExceeded

/-- The method `(*AppError).AsConfiguration`. -/
def AppError.AsConfiguration (e : Option AppError) : Option AppError :=
  AppError.AsInternalWithCode e CodeConfigurationError

/-- The method `(*AppError).AsTimeout`. -/
def AppError.AsTimeout (e : Option AppError) : Option AppError :=
  AppError.AsInternalWithCode e CodeInternalTimeout

/-! ### Read operations (`errors.go`, `detection.go`) -/

/-- The method `(*AppError).Error`. It reads `e.Details` without a nil test. -/
def AppError.Error (e : Option AppError) : Except Fault String :=
  match e with
  | none => .error .nilDereference
  | some a => .ok (renderApp a.Type_ a.Code a.Message a.Details)

/-- The method `(*AppError).String`; the name `String` is the type of strings here. -/
def AppError.String_ (e : Option AppError) : Except Fault String :=
  AppError.Error e

/-- The method `(*AppError).Unwrap`. It reads `e.cause` without a nil test. -/
def AppError.Unwrap (e : Option AppError) : Except Fault (Option GoError) :=
  match e with
  | none => .error .nilDereference
  | some a => .ok (errors.Unwrap a.cause)

/-- The method `(*AppError).Cause`. -/
def AppError.Cause (e : Option AppError) : Option GoError :=
  match e with
  | none => none
  | some a =>
    match a.cause with
    | none => none
    | some c => some c

/-- The method `(*AppError).IsType`. -/
def AppError.IsType (e : Option AppError) (errorType : ErrorType) : Bool :=
  match e with
  | none => false
  | some a => decide (a.Type_ = errorType)

/-- The method `(*AppError).HasCode`. -/
def AppError.HasCode (e : Option AppError) (code : String) : Bool :=
  match e with
  | none => false
  | some a => decide (a.Code = code)

/-- The method `(*AppError).GetStackTrace`. The verbose rendering `%+v` of a cause,
which prints the captured stacks, is the parameter `verbose`. -/
def AppError.GetStackTrace (verbose : GoError → String) (e : Option AppError) : String :=
  match e with
  | none => "no stack trace available"
  | some a =>
    match a.cause with
    | none => "no stack trace available"
    | some c => verbose c

/-- The function `strings.Split(s, "\n")` on a rune sequence. -/
def splitNewline : List Char → List (List Char)
  | [] => [[]]
  | c :: cs =>
    if c = '\n' then [] :: splitNewline cs
    else
      match splitNewline cs with
      | [] => [[c]]
      | l :: ls => (c :: l) :: ls

/-- The function `strings.ReplaceAll(s, old, "")` for a one-rune `old`. -/
def removeRune (s : String) (old : Char) : String :=
  ⟨s.data.filter (fun c => c ≠ old)⟩

/-- The loop of `GetStackTraceLines` over the lines that are left. -/
def cleanLines : List (List Char) → List String
  | [] => []
  | line :: rest =>
    let cleaned := TrimSpace ⟨line⟩
    let cleaned := removeRune cleaned '\t'
    let cleaned := removeRune cleaned '\r'
    if cleaned ≠ "" then cleaned :: cleanLines rest else cleanLines rest

/-- The method `(*AppError).GetStackTraceLines`. -/
def AppError.GetStackTraceLines (verbose : GoError → String) (e : Option AppError) :
    List String :=
  match e with
  | none => ["no stack trace available"]
  | some a =>
    match a.cause with
    | none => ["no stack trace available"]
    | some c => cleanLines (splitNewline (verbose c).data)

/-- The function `IsRecordNotFound`. -/
def IsRecordNotFound (err : Option GoError) : Bool :=
  errors.Is err .ErrRecordNotFound || errors.Is err .ErrNoRows

/-! ## Vocabulary of the statements -/

/-- Whether a value has the type `*AppError`, the nil pointer included. -/
def isAppValue : GoError → Bool
  | .appNil => true
  | .app _ _ _ _ _ _ => true
  | _ => false

/-- Whether `errors.Is` identifies the value itself with the sentinel: the sentinel,
or a standard-library `errors.New` value with the mark of the sentinel. -/
def identifies : GoError → Sentinel → Bool
  | .sentinel s, reference => decide (s = reference)
  | .plain msg, reference => equalMarks msg reference
  | _, _ => false

/-- The chain of `f` holds a value that `errors.Is` identifies with the sentinel. -/
def identifiedIn (f : GoError) (reference : Sentinel) : Prop :=
  ∃ e ∈ links f, identifies e reference = true

/-- The pair returned by the `case` of `detectErrorTypeAndCode` that tests the
sentinel. -/
def sentinelPair : Sentinel → ErrorType × String
  | .DeadlineExceeded => (ErrorTypeInternal, CodeInternalTimeout)
  | .Canceled => (ErrorTypeInternal, CodeOperationCanceled)
  | .ErrRecordNotFound => (ErrorTypeNotFound, CodeResourceNotFound)
  | .ErrInvalidTransaction => (ErrorTypeInternal, CodeDatabaseError)
  | .ErrNotImplemented => (ErrorTypeInternal, CodeDatabaseError)
  | .ErrMissingWhereClause => (ErrorTypeValidation, CodeInvalidInput)
  | .ErrUnsupportedRelation => (ErrorTypeInternal, CodeDatabaseError)
  | .ErrPrimaryKeyRequired => (ErrorTypeValidation, CodeRequiredField)
  | .ErrNoRows => (ErrorTypeNotFound, CodeResourceNotFound)
  | .ErrTxDone => (ErrorTypeInternal, CodeDatabaseError)
  | .ErrConnDone => (ErrorTypeInternal, CodeDatabaseConnection)

/-- The order in which `detectErrorTypeAndCode` tests the sentinels. -/
def sentinelOrder : List Sentinel :=
  [.DeadlineExceeded, .Canceled, .ErrRecordNotFound, .ErrInvalidTransaction,
    .ErrNotImplemented, .ErrMissingWhereClause, .ErrUnsupportedRelation,
    .ErrPrimaryKeyRequired, .ErrNoRows, .ErrTxDone, .ErrConnDone]

/-- The nine categories declared in `constants.go`. -/
def definedCategories : List ErrorType :=
  [ErrorTypeValidation, ErrorTypeAuthentication, ErrorTypeAuthorization, ErrorTypeNotFound,
    ErrorTypeConflict, ErrorTypeRateLimit, ErrorTypeInternal, ErrorTypeExternal,
    ErrorTypeUnavailable]

/-- One call of a fluent mutator, with its arguments. -/
inductive MutatorCall where
  | WithType (errorType : ErrorType)
  | WithCode (code : String)
  | WithMessage (message : String)
  | WithDetails (details : String)
  | WithHTTPStatus (status : Int)
  | WithCause (cause : Option GoError)
  | WithCodeAndMessage (code message : String)
  | setTypeAndStatus (errorType : ErrorType)
  | AsAuthentication
  | AsValidationWithCode (code : String)
  | AsAuthenticationWithCode (code : String)
  | AsAuthorizationWithCode (code : String)
  | AsNotFoundWithCode (code : String)
  | AsConflictWithCode (code : String)
  | AsInternalWithCode (code : String)
  | AsUnavailableWithCode (code : String)
  | AsExternalWithCode (code : String)
  | AsRateLimitWithCode (code : String)
  | AsValidationError
  | AsInvalidInput
  | AsRequiredField
  | AsInvalidFormat
  | AsInvalidRange
  | AsInvalidCredentials
  | AsTokenExpired
  | AsTokenInvalid
  | AsLoginRequired
  | AsAccessDenied
  | AsInsufficientPermissions
  | AsResourceForbidden
  | AsResourceNotFound
  | AsResourceExists
  | AsDatabaseError
  | AsDatabaseConnection
  | AsDatabaseTimeout
  | AsDatabaseConstraint
  | AsServiceUnavailable
  | AsServiceTimeout
  | AsExternalServiceUnavailable
  | AsTooManyRequests
  | AsConfiguration
  | AsTimeout

/-- The call made on a receiver. -/
def MutatorCall.apply (e : Option AppError) : MutatorCall → Option AppError
  | .WithType errorType => AppError.WithType e errorType
  | .WithCode code => AppError.WithCode e code
  | .WithMessage message => AppError.WithMessage e message
  | .WithDetails details => AppError.WithDetails e details
  | .WithHTTPStatus status => AppError.WithHTTPStatus e status
  | .WithCause cause => AppError.WithCause e cause
  | .WithCodeAndMessage code message => AppError.WithCodeAndMessage e code message
  | .setTypeAndStatus errorType => AppError.setTypeAndStatus e errorType
  | .AsAuthentication => AppError.AsAuthentication e
  | .AsValidationWithCode code => AppError.AsValidationWithCode e code
  | .AsAuthenticationWithCode code => AppError.AsAuthenticationWithCode e code
  | .AsAuthorizationWithCode code => AppError.AsAuthorizationWithCode e code
  | .AsNotFoundWithCode code => AppError.AsNotFoundWithCode e code
  | .AsConflictWithCode code => AppError.AsConflictWithCode e code
  | .AsInternalWithCode code => AppError.AsInternalWithCode e code
  | .AsUnavailableWithCode code => AppError.AsUnavailableWithCode e code
  | .AsExternalWithCode code => AppError.AsExternalWithCode e code
  | .AsRateLimitWithCode code => AppError.AsRateLimitWithCode e code
  | .AsValidationError => AppError.AsValidationError e
  | .AsInvalidInput => AppError.AsInvalidInput e
  | .AsRequiredField => AppError.AsRequiredField e
  | .AsInvalidFormat => AppError.AsInvalidFormat e
  | .AsInvalidRange => AppError.AsInvalidRange e
  | .AsInvalidCredentials => AppError.AsInvalidCredentials e
  | .AsTokenExpired => AppError.AsTokenExpired e
  | .AsTokenInvalid => AppError.AsTokenInvalid e
  | .AsLoginRequired => AppError.AsLoginRequired e
  | .AsAccessDenied => AppError.AsAccessDenied e
  | .AsInsufficientPermissions => AppError.AsInsufficientPermissions e
  | .AsResourceForbidden => AppError.AsResourceForbidden e
  | .AsResourceNotFound => AppError.AsResourceNotFound e
  | .AsResourceExists => AppError.AsResourceExists e
  | .AsDatabaseError => AppError.AsDatabaseError e
  | .AsDatabaseConnection => AppError.AsDatabaseConnection e
  | .AsDatabaseTimeout => AppError.AsDatabaseTimeout e
  | .AsDatabaseConstraint => AppError.AsDatabaseConstraint e
  | .AsServiceUnavailable => AppError.AsServiceUnavailable e
  | .AsServiceTimeout => AppError.AsServiceTimeout e
  | .AsExternalServiceUnavailable => AppError.AsExternalServiceUnavailable e
  | .AsTooManyRequests => AppError.AsTooManyRequests e
  | .AsConfiguration => AppError.AsConfiguration e
  | .AsTimeout => AppError.AsTimeout e

/-- The `*AppError` held by a value of that type: the inverse of `asError`. -/
def toAppPointer : GoError → Option AppError
  | .app t c m d h cause => some ⟨t, c, m, d, h, cause⟩
  | _ => none

/-- A pattern of the group occurs as a substring of the message. -/
def groupMatches (msg : String) (g : errorPattern) : Prop :=
  ∃ p ∈ g.patterns, p.data <:+: msg.data

/-- The group at index `i` of `errorPatterns` decides the lower-cased message: it is
the first group with a pattern in it. -/
def decidedAt (lowerMsg : String) (i : Nat) : Prop :=
  ∃ g, errorPatterns[i]? = some g ∧ groupMatches lowerMsg g ∧
    ∀ (j : Nat) (g' : errorPattern), j < i → errorPatterns[j]? = some g' →
      ¬ groupMatches lowerMsg g'

/-- The category a shortcut of `chaining.go` converts to; `none` for the setters of
`errors.go`. -/
def shortcutCategory : MutatorCall → Option ErrorType
  | .setTypeAndStatus errorType => some errorType
  | .AsAuthentication => some ErrorTypeAuthentication
  | .AsValidationWithCode _ => some ErrorTypeValidation
  | .AsAuthenticationWithCode _ => some ErrorTypeAuthentication
  | .AsAuthorizationWithCode _ => some ErrorTypeAuthorization
  | .AsNotFoundWithCode _ => some ErrorTypeNotFound
  | .AsConflictWithCode _ => some ErrorTypeConflict
  | .AsInternalWithCode _ => some ErrorTypeInternal
  | .AsUnavailableWithCode _ => some ErrorTypeUnavailable
  | .AsExternalWithCode _ => some ErrorTypeExternal
  | .AsRateLimitWithCode _ => some ErrorTypeRateLimit
  | .AsValidationError => some ErrorTypeValidation
  | .AsInvalidInput => some ErrorTypeValidation
  | .AsRequiredField => some ErrorTypeValidation
  | .AsInvalidFormat => some ErrorTypeValidation
  | .AsInvalidRange => some ErrorTypeValidation
  | .AsInvalidCredentials => some ErrorTypeAuthentication
  | .AsTokenExpired => some ErrorTypeAuthentication
  | .AsTokenInvalid => some ErrorTypeAuthentication
  | .AsLoginRequired => some ErrorTypeAuthentication
  | .AsAccessDenied => some ErrorTypeAuthorization
  | .AsInsufficientPermissions => some ErrorTypeAuthorization
  | .AsResourceForbidden => some ErrorTypeAuthorization
  | .AsResourceNotFound => some ErrorTypeNotFound
  | .AsResourceExists => some ErrorTypeConflict
  | .AsDatabaseError => some ErrorTypeInternal
  | .AsDatabaseConnection => some ErrorTypeInternal
  | .AsDatabaseTimeout => some ErrorTypeInternal
  | .AsDatabaseConstraint => some ErrorTypeInternal
  | .AsServiceUnavailable => some ErrorTypeUnavailable
  | .AsServiceTimeout => some ErrorTypeExternal
  | .AsExternalServiceUnavailable => some ErrorTypeExternal
  | .AsTooManyRequests => some ErrorTypeRateLimit
  | .AsConfiguration => some ErrorTypeInternal
  | .AsTimeout => some ErrorTypeInternal
  | _ => none

/-- The values the package builds: the results of `New`, `NewAppError` and `Wrap`,
and what mutator calls and further wraps make of them. -/
inductive Built (u : Char → Char) : AppError → Prop where
  | byNew (m : String) : Built u (New m)
  | byNewAppError (t : ErrorType) (c m : String) : Built u (NewAppError t c m)
  | byWrapNil (m : String) (a : AppError) : Wrap u none m = .ok a → Built u a
  | byWrapPlain (f : GoError) (m : String) (a : AppError) :
      IsAppError (some f) = false → Wrap u (some f) m = .ok a → Built u a
  | byCall (a b : AppError) (call : MutatorCall) :
      Built u a → call.apply (some a) = some b → Built u b
  | byRewrap (f : GoError) (a b : AppError) (m : String) :
      Built u a → AsAppError (some f) = (some a, true) → Wrap u (some f) m = .ok b →
      Built u b

/-! ## Chain traversal -/

mutual
theorem chainIs_iff_identified (f : GoError) (s : Sentinel) :
    chainIs f s = true ↔ ∃ e ∈ links f, identifies e s = true := by
  match f with
  | .leaf _ => simp [chainIs, links, identifies]
  | .plain _ => simp [chainIs, links, identifies]
  | .sentinel t => simp [chainIs, links, identifies]
  | .withStack c => simp [chainIs, links, identifies, chainIs_iff_identified c s]
  | .withPrefix _ c => simp [chainIs, links, identifies, chainIs_iff_identified c s]
  | .wrapped _ c => simp [chainIs, links, identifies, chainIs_iff_identified c s]
  | .join es => simp [chainIs, links, identifies, chainIsAny_iff_identified es s]
  | .appNil => simp [chainIs, links, identifies]
  | .app _ _ _ _ _ none => simp [chainIs, links, identifies]
  | .app _ _ _ _ _ (some c) => simp [chainIs, links, identifies, chainIs_iff_identified c s]
theorem chainIsAny_iff_identified (es : List GoError) (s : Sentinel) :
    chainIsAny es s = true ↔ ∃ e ∈ linksOfList es, identifies e s = true := by
  match es with
  | [] => simp [chainIsAny, linksOfList]
  | e :: rest =>
    simp [chainIsAny, linksOfList, chainIs_iff_identified e s,
      chainIsAny_iff_identified rest s, or_and_right, exists_or]
end

theorem chainIs_iff_identifiedIn (f : GoError) (s : Sentinel) :
    chainIs f s = true ↔ identifiedIn f s :=
  chainIs_iff_identified f s

theorem identifiedIn_of_mem (f : GoError) (s : Sentinel) (h : GoError.sentinel s ∈ links f) :
    identifiedIn f s :=
  ⟨_, h, by simp [identifies]⟩

theorem identifies_iff (e : GoError) (s : Sentinel) :
    identifies e s = true ↔
      e = .sentinel s ∨ (s ≠ .DeadlineExceeded ∧ e = .plain s.text) := by
  cases e <;> simp [identifies, equalMarks]

/-- The values `errors.Is` identifies with a sentinel in a chain: the sentinel, and for
the ten sentinels of the standard `errors.New` a value of it with the same text. -/
theorem identifiedIn_iff (f : GoError) (s : Sentinel) :
    identifiedIn f s ↔
      GoError.sentinel s ∈ links f ∨ (s ≠ .DeadlineExceeded ∧ GoError.plain s.text ∈ links f) := by
  constructor
  · rintro ⟨e, he, hi⟩
    rcases (identifies_iff e s).mp hi with h | ⟨hne, h⟩
    · exact Or.inl (h ▸ he)
    · exact Or.inr ⟨hne, h ▸ he⟩
  · rintro (h | ⟨hne, h⟩)
    · exact ⟨_, h, (identifies_iff _ s).mpr (Or.inl rfl)⟩
    · exact ⟨_, h, (identifies_iff _ s).mpr (Or.inr ⟨hne, rfl⟩)⟩

mutual
theorem chainAs_eq_none_iff (f : GoError) :
    chainAs f = none ↔ ∀ e ∈ links f, isAppValue e = false := by
  match f with
  | .leaf _ => simp [chainAs, links, isAppValue]
  | .plain _ => simp [chainAs, links, isAppValue]
  | .sentinel t => simp [chainAs, links, isAppValue]
  | .withStack c => simp [chainAs, links, isAppValue, chainAs_eq_none_iff c]
  | .withPrefix _ c => simp [chainAs, links, isAppValue, chainAs_eq_none_iff c]
  | .wrapped _ c => simp [chainAs, links, isAppValue, chainAs_eq_none_iff c]
  | .join es => simp [chainAs, links, isAppValue, chainAsFirst_eq_none_iff es]
  | .appNil => simp [chainAs, links, isAppValue]
  | .app _ _ _ _ _ none => simp [chainAs, links, isAppValue]
  | .app _ _ _ _ _ (some c) => simp [chainAs, links, isAppValue]
theorem chainAsFirst_eq_none_iff (es : List GoError) :
    chainAsFirst es = none ↔ ∀ e ∈ linksOfList es, isAppValue e = false := by
  match es with
  | [] => simp [chainAsFirst, linksOfList]
  | e :: rest =>
    have h1 := chainAs_eq_none_iff e
    have h2 := chainAsFirst_eq_none_iff rest
    simp only [chainAsFirst, linksOfList, List.mem_append]
    cases h : chainAs e with
    | some p =>
      simp only [h] at h1
      constructor
      · intro h0
        cases h0
      · intro hall
        exact h1.mpr (fun x hx => hall x (Or.inl hx))
    | none =>
      simp only [h, true_iff] at h1
      simp only [h2]
      constructor
      · intro hr e he
        rcases he with he | he
        · exact h1 e he
        · exact hr e he
      · intro hall e he
        exact hall e (Or.inr he)
end

mutual
theorem Error_ok_of_chainAs_none (f : GoError) (h : chainAs f = none) :
    ∃ msg, f.Error = .ok msg := by
  match f with
  | .leaf m => exact ⟨m, by simp [GoError.Error]⟩
  | .plain m => exact ⟨m, by simp [GoError.Error]⟩
  | .sentinel t => exact ⟨t.text, by simp [GoError.Error]⟩
  | .withStack c =>
    obtain ⟨m, hm⟩ := Error_ok_of_chainAs_none c (by simpa [chainAs] using h)
    exact ⟨m, by simp [GoError.Error, hm]⟩
  | .withPrefix p c =>
    obtain ⟨m, hm⟩ := Error_ok_of_chainAs_none c (by simpa [chainAs] using h)
    by_cases hp : p = ""
    · exact ⟨m, by simp [GoError.Error, hm, hp]⟩
    · exact ⟨p ++ ": " ++ m, by simp [GoError.Error, hm, hp]⟩
  | .wrapped m c => exact ⟨m, by simp [GoError.Error]⟩
  | .join es =>
    obtain ⟨m, hm⟩ := joinText_ok_of_chainAsFirst_none es (by simpa [chainAs] using h)
    exact ⟨m, by simp [GoError.Error, hm]⟩
  | .appNil => simp [chainAs] at h
  | .app _ _ _ _ _ _ => simp [chainAs] at h
theorem joinText_ok_of_chainAsFirst_none (es : List GoError) (h : chainAsFirst es = none) :
    ∃ msg, GoError.joinText es = .ok msg := by
  match es with
  | [] => exact ⟨"", by simp [GoError.joinText]⟩
  | e :: rest =>
    have he : chainAs e = none := by
      cases hc : chainAs e with
      | none => rfl
      | some p => simp [chainAsFirst, hc] at h
    have hr : chainAsFirst rest = none := by simpa [chainAsFirst, he] using h
    obtain ⟨m, hm⟩ := Error_ok_of_chainAs_none e he
    obtain ⟨ms, hms⟩ := joinText_ok_of_chainAsFirst_none rest hr
    cases rest with
    | nil => exact ⟨m, by simp [GoError.joinText, hm]⟩
    | cons r rs =>
      refine ⟨m ++ "\n" ++ ms, ?_⟩
      rw [GoError.joinText, hm]
      simp only [hms]
end

/-- The value `unwrapAll` follows `UnwrapOnce` until it answers nil. -/
theorem unwrapAll_eq (e : GoError) :
    unwrapAll e = match UnwrapOnce e with
      | none => e
      | some cause => unwrapAll cause := by
  match e with
  | .leaf _ => rfl
  | .plain _ => rfl
  | .sentinel _ => rfl
  | .withStack _ => simp [unwrapAll, UnwrapOnce]
  | .withPrefix _ _ => simp [unwrapAll, UnwrapOnce]
  | .wrapped _ _ => simp [unwrapAll, UnwrapOnce]
  | .join _ => rfl
  | .appNil => rfl
  | .app _ _ _ _ _ none => rfl
  | .app _ _ _ _ _ (some _) => simp [unwrapAll, UnwrapOnce]

/-! ## Substring matching -/

theorem hasPrefix_iff (s p : List Char) : hasPrefix s p = true ↔ p <+: s := by
  induction s generalizing p with
  | nil =>
    cases p with
    | nil => simp [hasPrefix]
    | cons b p => simp [hasPrefix]
  | cons a s ih =>
    cases p with
    | nil => simp [hasPrefix]
    | cons b p =>
      simp only [hasPrefix, Bool.and_eq_true, beq_iff_eq, ih, List.cons_prefix_cons]
      constructor
      · rintro ⟨h1, h2⟩; exact ⟨h1.symm, h2⟩
      · rintro ⟨h1, h2⟩; exact ⟨h1.symm, h2⟩

theorem containsRunes_iff (s p : List Char) : containsRunes s p = true ↔ p <:+: s := by
  induction s with
  | nil =>
    simp only [containsRunes, hasPrefix_iff]
    constructor
    · intro h; exact h.isInfix
    · intro h
      have := List.eq_nil_of_infix_nil h
      subst this
      exact List.prefix_refl _
  | cons a s ih =>
    simp only [containsRunes, Bool.or_eq_true, hasPrefix_iff, ih]
    rw [List.infix_cons_iff]

theorem matchesAnyPattern_iff (msg : String) (ps : List String) :
    matchesAnyPattern msg ps = true ↔ ∃ p ∈ ps, p.data <:+: msg.data := by
  induction ps with
  | nil => simp [matchesAnyPattern]
  | cons p rest ih =>
    by_cases h : Contains msg p = true
    · simp only [matchesAnyPattern, h, if_true, true_iff]
      exact ⟨p, List.mem_cons_self _ _, (containsRunes_iff _ _).mp h⟩
    · simp only [matchesAnyPattern, h, if_false, ih, List.mem_cons, Bool.false_eq_true]
      constructor
      · rintro ⟨q, hq, hi⟩; exact ⟨q, Or.inr hq, hi⟩
      · rintro ⟨q, hq | hq, hi⟩
        · subst hq; exact absurd ((containsRunes_iff _ _).mpr hi) h
        · exact ⟨q, hq, hi⟩

theorem matchesAnyPattern_eq_any (msg : String) (ps : List String) :
    matchesAnyPattern msg ps = ps.any (fun p => decide (p.data <:+: msg.data)) := by
  rw [Bool.eq_iff_iff, matchesAnyPattern_iff]
  simp

theorem detectInGroups_eq_find (lowerMsg : String) (gs : List errorPattern) :
    detectInGroups lowerMsg gs =
      match gs.find? (fun g => g.patterns.any (fun p => decide (p.data <:+: lowerMsg.data))) with
      | some g => (g.errorType, g.code)
      | none => (ErrorTypeInternal, CodeInternalError) := by
  induction gs with
  | nil => simp [detectInGroups]
  | cons g rest ih =>
    simp only [detectInGroups, List.find?_cons, matchesAnyPattern_eq_any]
    cases h : g.patterns.any (fun p => decide (p.data <:+: lowerMsg.data)) with
    | true => simp
    | false => simp [ih]

theorem detectInGroups_first (L : String) (gs : List errorPattern) (i : Nat)
    (g : errorPattern) (hg : gs[i]? = some g) (hm : groupMatches L g)
    (hfirst : ∀ j g', j < i → gs[j]? = some g' → ¬ groupMatches L g') :
    detectInGroups L gs = (g.errorType, g.code) := by
  induction gs generalizing i with
  | nil => simp at hg
  | cons g0 rest ih =>
    cases i with
    | zero =>
      simp only [List.getElem?_cons_zero, Option.some.injEq] at hg
      subst hg
      simp [detectInGroups, (matchesAnyPattern_iff _ _).mpr hm]
    | succ k =>
      have h0 : ¬ groupMatches L g0 := hfirst 0 g0 (Nat.succ_pos k) (by simp)
      have hno : matchesAnyPattern L g0.patterns = false := by
        rw [Bool.eq_false_iff]
        intro h
        exact h0 ((matchesAnyPattern_iff _ _).mp h)
      simp only [detectInGroups, hno, Bool.false_eq_true, if_false]
      apply ih k (by simpa using hg)
      intro j g' hj hg'
      exact hfirst (j + 1) g' (Nat.succ_lt_succ hj) (by simpa using hg')

theorem detectInGroups_default (L : String) (gs : List errorPattern)
    (h : ∀ g ∈ gs, ¬ groupMatches L g) :
    detectInGroups L gs = (ErrorTypeInternal, CodeInternalError) := by
  induction gs with
  | nil => simp [detectInGroups]
  | cons g0 rest ih =>
    have hno : matchesAnyPattern L g0.patterns = false := by
      rw [Bool.eq_false_iff]
      intro hm
      exact h g0 (List.mem_cons_self _ _) ((matchesAnyPattern_iff _ _).mp hm)
    simp only [detectInGroups, hno, Bool.false_eq_true, if_false]
    exact ih (fun g hg => h g (List.mem_cons_of_mem _ hg))

theorem detectInGroups_nonempty (L : String) (gs : List errorPattern)
    (h : ∀ g ∈ gs, g.errorType ≠ "" ∧ g.code ≠ "") :
    (detectInGroups L gs).1 ≠ "" ∧ (detectInGroups L gs).2 ≠ "" := by
  induction gs with
  | nil =>
    simp only [detectInGroups]
    exact ⟨by decide, by decide⟩
  | cons g0 rest ih =>
    by_cases hm : matchesAnyPattern L g0.patterns = true
    · simp only [detectInGroups, hm, if_true]
      exact h g0 (List.mem_cons_self _ _)
    · simp only [detectInGroups, hm, if_false]
      exact ih (fun g hg => h g (List.mem_cons_of_mem _ hg))

theorem errorPatterns_nonempty :
    ∀ g ∈ errorPatterns, g.errorType ≠ "" ∧ g.code ≠ "" := by
  intro g hg
  simp only [errorPatterns, List.mem_cons, List.mem_singleton, List.not_mem_nil, or_false] at hg
  rcases hg with h | h | h | h | h | h | h | h | h | h | h | h | h | h | h | h | h | h <;>
    subst h <;> exact ⟨by decide, by decide⟩

/-! ## Tier 2: the pattern table -/

/-- C4: `detectFromErrorMessage(s)` returns the pair of the first group of
`errorPatterns`, in table order, one of whose patterns occurs in the lower-cased `s`,
and `(INTERNAL, INTERNAL_ERROR)` when no group has one; so two messages with the same
lower-cased text get the same pair. The three messages of the tests are evaluated. -/
theorem detectFromErrorMessage_first_group (u : Char → Char) (s : String) :
    (∀ (i : Nat) (g : errorPattern), errorPatterns[i]? = some g →
        groupMatches (ToLower u s) g →
        (∀ (j : Nat) (g' : errorPattern), j < i → errorPatterns[j]? = some g' → ¬ groupMatches (ToLower u s) g') →
        detectFromErrorMessage u s = (g.errorType, g.code)) ∧
      ((∀ g ∈ errorPatterns, ¬ groupMatches (ToLower u s) g) →
        detectFromErrorMessage u s = ("INTERNAL", "INTERNAL_ERROR")) ∧
      (∀ s', ToLower u s' = ToLower u s →
        detectFromErrorMessage u s' = detectFromErrorMessage u s) ∧
      detectFromErrorMessage u "duplicate key value violates unique constraint" =
        ("CONFLICT", "RESOURCE_EXISTS") ∧
      detectFromErrorMessage u "invalid character in JSON" =
        ("VALIDATION", "INVALID_FORMAT") ∧
      detectFromErrorMessage u "unknown error" = ("INTERNAL", "INTERNAL_ERROR") := by
  refine ⟨?_, ?_, ?_, rfl, rfl, rfl⟩
  · intro i g hg hm hfirst
    exact detectInGroups_first _ _ i g hg hm hfirst
  · intro h
    exact detectInGroups_default _ _ h
  · intro s' hs
    simp only [detectFromErrorMessage, hs]

/-- C4, at the message "Invalid JSON": the first group matches through its pattern
"json", and the message "invalid json", which has the same lower-cased text, gets the
same pair. -/
theorem detectFromErrorMessage_first_group_witness :
    detectFromErrorMessage (fun c => c) "Invalid JSON" = ("VALIDATION", "INVALID_FORMAT") ∧
      detectFromErrorMessage (fun c => c) "invalid json" =
        detectFromErrorMessage (fun c => c) "Invalid JSON" :=
  ⟨(detectFromErrorMessage_first_group (fun c => c) "Invalid JSON").1 0
      ⟨["json", "unmarshal", "parse", "invalid character", "looking for beginning",
        "unexpected end of JSON input"], ErrorTypeValidation, CodeInvalidFormat⟩ rfl
      ⟨"json", by simp, by decide⟩ (fun j g' hj => absurd hj (Nat.not_lt_zero j)),
    (detectFromErrorMessage_first_group (fun c => c) "Invalid JSON").2.2.1 "invalid json" rfl⟩

/-! ## Construction -/

theorem DefaultHTTPStatus_ne_zero (t : ErrorType) : DefaultHTTPStatus t ≠ 0 := by
  unfold DefaultHTTPStatus
  repeat' split
  all_goals decide

/-- C9: `NewAppError(t, c, m)` has `Type = t`, or `INTERNAL` for an empty `t`; `Code`
the trimmed `c`, or `"INTERNAL_ERROR"` when that is empty; `Message` the trimmed `m`,
or `"Unknown error occurred"` when that is empty; empty `Details`; and none of `Type`,
`Code`, `Message` is empty. -/
theorem NewAppError_normalizes (t : ErrorType) (c m : String) :
    (NewAppError t c m).Type_ = (if t = "" then "INTERNAL" else t) ∧
      (NewAppError t c m).Code =
        (if TrimSpace c = "" then "INTERNAL_ERROR" else TrimSpace c) ∧
      (NewAppError t c m).Message =
        (if TrimSpace m = "" then "Unknown error occurred" else TrimSpace m) ∧
      (NewAppError t c m).Details = "" ∧
      (NewAppError t c m).Type_ ≠ "" ∧
      (NewAppError t c m).Code ≠ "" ∧
      (NewAppError t c m).Message ≠ "" := by
  refine ⟨rfl, rfl, rfl, rfl, ?_, ?_, ?_⟩
  · show (if t = "" then ErrorTypeInternal else t) ≠ ""
    split
    · decide
    · assumption
  · show (if TrimSpace c = "" then CodeInternalError else TrimSpace c) ≠ ""
    split
    · decide
    · assumption
  · show (if TrimSpace m = "" then MsgUnknownError else TrimSpace m) ≠ ""
    split
    · decide
    · assumption

/-- C10: the `HTTPStatus` field of `NewAppError(C, c, m)` is the default status of the
resulting `Type`, and `NewAppError(C, "", "").GetHTTPStatus()` is the default status
of `C`, of `INTERNAL` when `C` is empty: 400, 401, 403, 404, 409, 429, 500, 502, 503
for the nine categories and 500 for the empty one. -/
theorem NewAppError_default_status (C : ErrorType) (c m : String) :
    (NewAppError C c m).HTTPStatus = DefaultHTTPStatus (NewAppError C c m).Type_ ∧
      AppError.GetHTTPStatus (some (NewAppError C "" "")) =
        DefaultHTTPStatus (if C = "" then ErrorTypeInternal else C) ∧
      AppError.GetHTTPStatus (some (NewAppError ErrorTypeValidation "" "")) = 400 ∧
      AppError.GetHTTPStatus (some (NewAppError ErrorTypeAuthentication "" "")) = 401 ∧
      AppError.GetHTTPStatus (some (NewAppError ErrorTypeAuthorization "" "")) = 403 ∧
      AppError.GetHTTPStatus (some (NewAppError ErrorTypeNotFound "" "")) = 404 ∧
      AppError.GetHTTPStatus (some (NewAppError ErrorTypeConflict "" "")) = 409 ∧
      AppError.GetHTTPStatus (some (NewAppError ErrorTypeRateLimit "" "")) = 429 ∧
      AppError.GetHTTPStatus (some (NewAppError ErrorTypeInternal "" "")) = 500 ∧
      AppError.GetHTTPStatus (some (NewAppError ErrorTypeExternal "" "")) = 502 ∧
      AppError.GetHTTPStatus (some (NewAppError ErrorTypeUnavailable "" "")) = 503 ∧
      AppError.GetHTTPStatus (some (NewAppError "" "" "")) = 500 := by
  refine ⟨rfl, ?_, by decide, by decide, by decide, by decide, by decide, by decide,
    by decide, by decide, by decide, by decide⟩
  show (if (NewAppError C "" "").HTTPStatus ≠ 0 then (NewAppError C "" "").HTTPStatus
    else DefaultHTTPStatus (NewAppError C "" "").Type_) = _
  split <;> rfl

/-! ## Wrapping -/

/-- C7: `Wrap(nil, m)` is the value `New(m)` builds: `INTERNAL`, `"INTERNAL_ERROR"`,
status 500, empty `Details`, `Message` the trimmed `m` or `"Unknown error occurred"`;
its root cause is a leaf with that message, which unwraps to nothing. -/
theorem Wrap_nil_eq_New (u : Char → Char) (m : String) :
    Wrap u none m = .ok (New m) ∧
      (New m).Type_ = "INTERNAL" ∧
      (New m).Code = "INTERNAL_ERROR" ∧
      (New m).HTTPStatus = 500 ∧
      (New m).Details = "" ∧
      (New m).Message =
        (if TrimSpace m = "" then "Unknown error occurred" else TrimSpace m) ∧
      AppError.UnwrapAll (some (New m)) = some (.leaf (New m).Message) ∧
      UnwrapOnce (.leaf (New m).Message) = none :=
  ⟨rfl, rfl, rfl, rfl, rfl, rfl, rfl, rfl⟩

/-- C1: for every `AppError` `a` and message `m2`, `Wrap(a, m2)` returns a value with
the `Type`, `Code`, `Details` and `HTTPStatus` of `a`, with `Message` the trimmed `m2`
or `"Unknown error occurred"`, and with the cause of `a` under one more link; the
result does not depend on the pattern table or on the text of `a`. -/
theorem Wrap_appError_preserves (u : Char → Char) (a : AppError) (m2 : String) :
    Wrap u (some a.toError) m2 =
      .ok { Type_ := a.Type_
            Code := a.Code
            Message := if TrimSpace m2 = "" then "Unknown error occurred" else TrimSpace m2
            Details := a.Details
            HTTPStatus := a.HTTPStatus
            cause := errors.WrapWithDepth a.cause
              (if TrimSpace m2 = "" then "Unknown error occurred" else TrimSpace m2) } :=
  rfl

/-- C8: a nil `*AppError` passed as the failure makes `Wrap` fault: `AsAppError`
answers the nil pointer with `true`, and `Wrap` reads its fields. -/
theorem Wrap_nil_pointer_faults (u : Char → Char) (m : String) :
    AsAppError (some (asError none)) = (none, true) ∧
      Wrap u (some (asError none)) m = .error Fault.nilDereference :=
  ⟨rfl, rfl⟩

/-! ## Tier 1: the sentinels -/

theorem AsAppError_of_chainAs_none (f : GoError) (h : chainAs f = none) :
    AsAppError (some f) = (none, false) := by
  simp [AsAppError, errors.As, h]

theorem IsAppError_eq_false_iff (f : GoError) :
    IsAppError (some f) = false ↔ chainAs f = none := by
  cases h : chainAs f with
  | none => simp [IsAppError, AsAppError, errors.As, h]
  | some p => simp [IsAppError, AsAppError, errors.As, h]

theorem detect_of_chainAs_none (u : Char → Char) (f : GoError) (h : chainAs f = none) :
    detectErrorTypeAndCode u (some f) =
      match sentinelOrder.find? (chainIs f) with
      | some s => .ok (sentinelPair s)
      | none =>
        match f.Error with
        | .error e => .error e
        | .ok msg => .ok (detectFromErrorMessage u msg) := by
  have hA := AsAppError_of_chainAs_none f h
  unfold detectErrorTypeAndCode
  rw [hA]
  simp only [errors.Is, sentinelOrder, List.find?_cons, List.find?_nil]
  cases chainIs f .DeadlineExceeded
  swap
  · rfl
  cases chainIs f .Canceled
  swap
  · rfl
  cases chainIs f .ErrRecordNotFound
  swap
  · rfl
  cases chainIs f .ErrInvalidTransaction
  swap
  · rfl
  cases chainIs f .ErrNotImplemented
  swap
  · rfl
  cases chainIs f .ErrMissingWhereClause
  swap
  · rfl
  cases chainIs f .ErrUnsupportedRelation
  swap
  · rfl
  cases chainIs f .ErrPrimaryKeyRequired
  swap
  · rfl
  cases chainIs f .ErrNoRows
  swap
  · rfl
  cases chainIs f .ErrTxDone
  swap
  · rfl
  cases chainIs f .ErrConnDone
  swap
  · rfl
  rfl

theorem mem_sentinelOrder (s : Sentinel) : s ∈ sentinelOrder := by
  cases s <;> simp [sentinelOrder]

theorem sentinelPair_nonempty (s : Sentinel) :
    (sentinelPair s).1 ≠ "" ∧ (sentinelPair s).2 ≠ "" := by
  cases s <;> exact ⟨by decide, by decide⟩

theorem find_sentinel_some (f : GoError) (s : Sentinel)
    (h : sentinelOrder.find? (chainIs f) = some s) : identifiedIn f s :=
  (chainIs_iff_identifiedIn f s).mp (List.find?_some h)

theorem find_sentinel_none (f : GoError) (h : sentinelOrder.find? (chainIs f) = none)
    (s : Sentinel) : ¬ identifiedIn f s := by
  intro hs
  have h1 := (chainIs_iff_identifiedIn f s).mpr hs
  have h2 := List.find?_eq_none.mp h s (mem_sentinelOrder s)
  exact h2 h1

theorem detect_ok_of_chainAs_none (u : Char → Char) (f : GoError) (h : chainAs f = none) :
    ∃ t c, detectErrorTypeAndCode u (some f) = .ok (t, c) := by
  rw [detect_of_chainAs_none u f h]
  cases sentinelOrder.find? (chainIs f) with
  | some s => exact ⟨_, _, rfl⟩
  | none =>
    obtain ⟨msg, hmsg⟩ := Error_ok_of_chainAs_none f h
    simp only [hmsg]
    exact ⟨_, _, rfl⟩

theorem normalized_message_ne_empty (m : String) :
    (if TrimSpace m = "" then MsgUnknownError else TrimSpace m) ≠ "" := by
  split
  · decide
  · assumption

/-- C2: for a failure `f` that neither is nor wraps an `AppError`, the classifier
returns a pair `(t, c)` and `Wrap(f, m)` returns the value with `Type = t`,
`Code = c`, the default status of `t`, empty `Details`, `Message` the trimmed `m` or
`"Unknown error occurred"`, and `f` under one message link as cause. -/
theorem Wrap_classifies (u : Char → Char) (f : GoError) (m : String)
    (h : ∀ e ∈ links f, isAppValue e = false) :
    ∃ t c, detectErrorTypeAndCode u (some f) = .ok (t, c) ∧
      Wrap u (some f) m =
        .ok { Type_ := t
              Code := c
              Message := if TrimSpace m = "" then "Unknown error occurred" else TrimSpace m
              Details := ""
              HTTPStatus := DefaultHTTPStatus t
              cause := some (.withStack (.withPrefix
                (if TrimSpace m = "" then "Unknown error occurred" else TrimSpace m) f)) } := by
  have hA : chainAs f = none := (chainAs_eq_none_iff f).mpr h
  obtain ⟨t, c, hd⟩ := detect_ok_of_chainAs_none u f hA
  refine ⟨t, c, hd, ?_⟩
  have hm := normalized_message_ne_empty m
  simp only [Wrap, AsAppError_of_chainAs_none f hA, hd, errors.WrapWithDepth]
  rw [if_pos hm]

/-- C2, at the failure of `TestWrap`: `Wrap(errors.New("original error"),
"wrapped error")` is `(INTERNAL, INTERNAL_ERROR, "wrapped error", 500)`. -/
theorem Wrap_classifies_witness :
    (∀ e ∈ links (.leaf "original error"), isAppValue e = false) ∧
      (∃ t c, detectErrorTypeAndCode (fun c => c) (some (.leaf "original error")) = .ok (t, c) ∧
        Wrap (fun c => c) (some (.leaf "original error")) "wrapped error" =
          .ok { Type_ := t
                Code := c
                Message := if TrimSpace "wrapped error" = "" then "Unknown error occurred"
                  else TrimSpace "wrapped error"
                Details := ""
                HTTPStatus := DefaultHTTPStatus t
                cause := some (.withStack (.withPrefix
                  (if TrimSpace "wrapped error" = "" then "Unknown error occurred"
                    else TrimSpace "wrapped error") (.leaf "original error"))) }) ∧
      Wrap (fun c => c) (some (.leaf "original error")) "wrapped error" =
        .ok { Type_ := "INTERNAL"
              Code := "INTERNAL_ERROR"
              Message := "wrapped error"
              Details := ""
              HTTPStatus := 500
              cause := some (.withStack (.withPrefix "wrapped error"
                (.leaf "original error"))) } :=
  ⟨by simp [links, isAppValue],
    Wrap_classifies (fun c => c) (.leaf "original error") "wrapped error"
      (by simp [links, isAppValue]),
    rfl⟩

/-- C3: for a failure `f` that is not an `AppError` (`IsAppError(f)` is false) and
whose chain contains a sentinel, the classifier returns the fixed pair of a sentinel
that `errors.Is` identifies in the chain, not the Tier-2 result; it is a sentinel of
the chain when `errors.Is` identifies no other; and every such failure in whose chain
`errors.Is` identifies the same sentinels gets the same pair, whatever its text. -/
theorem detect_sentinel_priority (u : Char → Char) (f : GoError)
    (hApp : IsAppError (some f) = false) (hS : ∃ s, GoError.sentinel s ∈ links f) :
    (∃ s, identifiedIn f s ∧ detectErrorTypeAndCode u (some f) = .ok (sentinelPair s)) ∧
      ((∀ s, identifiedIn f s → GoError.sentinel s ∈ links f) →
        ∃ s, GoError.sentinel s ∈ links f ∧
          detectErrorTypeAndCode u (some f) = .ok (sentinelPair s)) ∧
      (∀ f', IsAppError (some f') = false →
        (∀ s, identifiedIn f' s ↔ identifiedIn f s) →
        detectErrorTypeAndCode u (some f') = detectErrorTypeAndCode u (some f)) := by
  have hA := (IsAppError_eq_false_iff f).mp hApp
  obtain ⟨s0, hs0⟩ := hS
  have hfind : ∃ s, sentinelOrder.find? (chainIs f) = some s := by
    cases hfd : sentinelOrder.find? (chainIs f) with
    | some s => exact ⟨s, rfl⟩
    | none => exact absurd (identifiedIn_of_mem f s0 hs0) (find_sentinel_none f hfd s0)
  obtain ⟨s, hs⟩ := hfind
  have hd : detectErrorTypeAndCode u (some f) = .ok (sentinelPair s) := by
    rw [detect_of_chainAs_none u f hA, hs]
  refine ⟨⟨s, find_sentinel_some f s hs, hd⟩, ?_, ?_⟩
  · intro honly
    exact ⟨s, honly s (find_sentinel_some f s hs), hd⟩
  · intro f' hApp' hsame
    have hA' := (IsAppError_eq_false_iff f').mp hApp'
    have hfun : chainIs f' = chainIs f := by
      funext x
      rw [Bool.eq_iff_iff, chainIs_iff_identifiedIn, chainIs_iff_identifiedIn]
      exact hsame x
    rw [detect_of_chainAs_none u f' hA', detect_of_chainAs_none u f hA, hfun, hs]

/-- C3, at a failure that wraps `gorm.ErrRecordNotFound` with a text containing
"timeout": the pair is `(NOT_FOUND, RESOURCE_NOT_FOUND)`, while the text alone is
classified `(EXTERNAL, EXTERNAL_TIMEOUT)`. -/
theorem detect_sentinel_priority_witness :
    IsAppError (some (.wrapped "query timeout: record not found"
        (.sentinel .ErrRecordNotFound))) = false ∧
      (∃ s, GoError.sentinel s ∈ links (.wrapped "query timeout: record not found"
        (.sentinel .ErrRecordNotFound))) ∧
      (∃ s, GoError.sentinel s ∈ links (.wrapped "query timeout: record not found"
          (.sentinel .ErrRecordNotFound)) ∧
        detectErrorTypeAndCode (fun c => c) (some (.wrapped "query timeout: record not found"
          (.sentinel .ErrRecordNotFound))) = .ok (sentinelPair s)) ∧
      detectErrorTypeAndCode (fun c => c) (some (.wrapped "query timeout: record not found"
        (.sentinel .ErrRecordNotFound))) = .ok ("NOT_FOUND", "RESOURCE_NOT_FOUND") ∧
      detectFromErrorMessage (fun c => c) "query timeout: record not found" =
        ("EXTERNAL", "EXTERNAL_TIMEOUT") :=
  ⟨rfl, ⟨.ErrRecordNotFound, by simp [links]⟩,
    (detect_sentinel_priority (fun c => c)
      (.wrapped "query timeout: record not found" (.sentinel .ErrRecordNotFound)) rfl
      ⟨.ErrRecordNotFound, by simp [links]⟩).2.1
      (by
        intro s h
        simp [identifiedIn_iff, links] at h
        simp [links, h]),
    rfl, rfl⟩


/-- C6, as the code has it: a failure that is not an `AppError` and in whose chain
`errors.Is` identifies exactly one sentinel `s`, by a link that is `s` itself or a
standard-library `errors.New` value with the type and text of `s`, is classified by
the Tier-1 table: deadline-exceeded `(INTERNAL, INTERNAL_TIMEOUT)`, canceled
`(INTERNAL, OPERATION_CANCELED)`, record-not-found and no-rows
`(NOT_FOUND, RESOURCE_NOT_FOUND)`, invalid-transaction, not-implemented,
unsupported-relation and tx-done `(INTERNAL, DATABASE_ERROR)`, missing-where-clause
`(VALIDATION, INVALID_INPUT)`, primary-key-required `(VALIDATION, REQUIRED_FIELD)`,
conn-done `(INTERNAL, DATABASE_CONNECTION)`. -/
theorem detect_sentinel_table (u : Char → Char) (f : GoError) (s : Sentinel)
    (hApp : IsAppError (some f) = false) (hs : identifiedIn f s)
    (huniq : ∀ s', identifiedIn f s' → s' = s) :
    detectErrorTypeAndCode u (some f) =
      .ok (match s with
        | .DeadlineExceeded => ("INTERNAL", "INTERNAL_TIMEOUT")
        | .Canceled => ("INTERNAL", "OPERATION_CANCELED")
        | .ErrRecordNotFound => ("NOT_FOUND", "RESOURCE_NOT_FOUND")
        | .ErrNoRows => ("NOT_FOUND", "RESOURCE_NOT_FOUND")
        | .ErrInvalidTransaction => ("INTERNAL", "DATABASE_ERROR")
        | .ErrNotImplemented => ("INTERNAL", "DATABASE_ERROR")
        | .ErrUnsupportedRelation => ("INTERNAL", "DATABASE_ERROR")
        | .ErrTxDone => ("INTERNAL", "DATABASE_ERROR")
        | .ErrMissingWhereClause => ("VALIDATION", "INVALID_INPUT")
        | .ErrPrimaryKeyRequired => ("VALIDATION", "REQUIRED_FIELD")
        | .ErrConnDone => ("INTERNAL", "DATABASE_CONNECTION")) := by
  have hA := (IsAppError_eq_false_iff f).mp hApp
  have hfun : chainIs f = fun s' => decide (s' = s) := by
    funext x
    rw [Bool.eq_iff_iff, chainIs_iff_identifiedIn, decide_eq_true_eq]
    constructor
    · exact huniq x
    · intro hx
      rw [hx]
      exact hs
  rw [detect_of_chainAs_none u f hA, hfun]
  cases s <;> rfl

/-- C6, at the deadline-exceeded sentinel under two wrappers: the pair is
`(INTERNAL, INTERNAL_TIMEOUT)`, although the text of the sentinel contains
"deadline exceeded", which the table classifies `(EXTERNAL, EXTERNAL_TIMEOUT)`; and at
`errors.New("record not found")` under a wrapper: the pair is that of
`gorm.ErrRecordNotFound`. -/
theorem detect_sentinel_table_witness :
    detectErrorTypeAndCode (fun c => c)
        (some (.withStack (.withPrefix "load user" (.sentinel .DeadlineExceeded)))) =
        .ok ("INTERNAL", "INTERNAL_TIMEOUT") ∧
      detectErrorTypeAndCode (fun c => c) (some (.sentinel .DeadlineExceeded)) =
        .ok ("INTERNAL", "INTERNAL_TIMEOUT") ∧
      detectErrorTypeAndCode (fun c => c)
        (some (.wrapped "find user: record not found" (.plain "record not found"))) =
        .ok ("NOT_FOUND", "RESOURCE_NOT_FOUND") ∧
      detectFromErrorMessage (fun c => c) Sentinel.DeadlineExceeded.text =
        ("EXTERNAL", "EXTERNAL_TIMEOUT") :=
  ⟨detect_sentinel_table (fun c => c)
      (.withStack (.withPrefix "load user" (.sentinel .DeadlineExceeded))) .DeadlineExceeded
      rfl ((identifiedIn_iff _ _).mpr (Or.inl (by simp [links])))
      (by
        intro s h
        simp [identifiedIn_iff, links] at h
        exact h),
    rfl,
    detect_sentinel_table (fun c => c)
      (.wrapped "find user: record not found" (.plain "record not found")) .ErrRecordNotFound
      rfl ((identifiedIn_iff _ _).mpr (Or.inr ⟨by decide, by simp [links, Sentinel.text]⟩))
      (by
        intro s h
        simp [identifiedIn_iff, links] at h
        cases s <;> simp [Sentinel.text] at h ⊢),
    rfl⟩

/-- C6 as stated fails: the failure
`errors.Join(gorm.ErrRecordNotFound, errors.New("context canceled"))` is not an
`AppError` and the one sentinel of its chain is `gorm.ErrRecordNotFound`, yet it is
classified `(INTERNAL, OPERATION_CANCELED)` and not `(NOT_FOUND, RESOURCE_NOT_FOUND)`:
`errors.Is` identifies the second member with `context.Canceled`, which is tested
first. -/
theorem detect_sentinel_table_counterexample :
    IsAppError
        (some (.join [.sentinel .ErrRecordNotFound, .plain "context canceled"])) = false ∧
      (∀ s, GoError.sentinel s ∈
          links (.join [.sentinel .ErrRecordNotFound, .plain "context canceled"]) ↔
        s = .ErrRecordNotFound) ∧
      detectErrorTypeAndCode (fun c => c)
        (some (.join [.sentinel .ErrRecordNotFound, .plain "context canceled"])) =
        .ok ("INTERNAL", "OPERATION_CANCELED") ∧
      detectErrorTypeAndCode (fun c => c)
        (some (.join [.sentinel .ErrRecordNotFound, .plain "context canceled"])) ≠
        .ok ("NOT_FOUND", "RESOURCE_NOT_FOUND") := by
  refine ⟨rfl, ?_, rfl, ?_⟩
  · intro s
    simp [links, linksOfList]
  · intro h
    have h2 : detectErrorTypeAndCode (fun c => c)
        (some (.join [.sentinel .ErrRecordNotFound, .plain "context canceled"])) =
        .ok ("INTERNAL", "OPERATION_CANCELED") := rfl
    rw [h2] at h
    simp at h

/-! ## Totality -/

/-- C5, as the code has it: for a failure `f` for which `AsAppError` yields neither a
nil pointer nor an `AppError` with an empty `Type` or `Code`, the classifier returns
a pair with non-empty category and code; the pair is `(INTERNAL, INTERNAL_ERROR)`
when `f` is not an `AppError`, `errors.Is` identifies no sentinel in its chain (no link
is a sentinel or a standard-library `errors.New` value with the type and text of one)
and no pattern of the table occurs in its lower-cased text. -/
theorem detect_total_nonempty (u : Char → Char) (f : GoError)
    (hptr : AsAppError (some f) ≠ (none, true))
    (hne : ∀ a, AsAppError (some f) = (some a, true) → a.Type_ ≠ "" ∧ a.Code ≠ "") :
    ∃ t c, detectErrorTypeAndCode u (some f) = .ok (t, c) ∧ t ≠ "" ∧ c ≠ "" ∧
      (IsAppError (some f) = false → (∀ s, ¬ identifiedIn f s) →
        (∀ msg, f.Error = .ok msg →
          ∀ g ∈ errorPatterns, ¬ groupMatches (ToLower u msg) g) →
        (t, c) = ("INTERNAL", "INTERNAL_ERROR")) := by
  cases hc : chainAs f with
  | none =>
    rw [detect_of_chainAs_none u f hc]
    cases hfd : sentinelOrder.find? (chainIs f) with
    | some s =>
      refine ⟨(sentinelPair s).1, (sentinelPair s).2, rfl, (sentinelPair_nonempty s).1,
        (sentinelPair_nonempty s).2, ?_⟩
      intro _ hno _
      exact absurd (find_sentinel_some f s hfd) (hno s)
    | none =>
      obtain ⟨msg, hmsg⟩ := Error_ok_of_chainAs_none f hc
      simp only [hmsg]
      have hn := detectInGroups_nonempty (ToLower u msg) errorPatterns errorPatterns_nonempty
      refine ⟨(detectFromErrorMessage u msg).1, (detectFromErrorMessage u msg).2, rfl,
        hn.1, hn.2, ?_⟩
      intro _ _ hpat
      exact detectInGroups_default _ _ (hpat msg rfl)
  | some p =>
    cases p with
    | none =>
      exact absurd (by simp [AsAppError, errors.As, hc]) hptr
    | some a =>
      have hAs : AsAppError (some f) = (some a, true) := by
        simp [AsAppError, errors.As, hc]
      have hd : detectErrorTypeAndCode u (some f) = .ok (a.Type_, a.Code) := by
        simp only [detectErrorTypeAndCode, hAs]
      refine ⟨a.Type_, a.Code, hd, (hne a hAs).1, (hne a hAs).2, ?_⟩
      intro hApp
      simp [IsAppError, hAs] at hApp

/-- C5, at the failure `errors.New("unknown error")` of the default case of
`TestDetectErrorTypeAndCode`. -/
theorem detect_total_nonempty_witness :
    AsAppError (some (.plain "unknown error")) ≠ (none, true) ∧
      (∀ a, AsAppError (some (.plain "unknown error")) = (some a, true) →
        a.Type_ ≠ "" ∧ a.Code ≠ "") ∧
      (∃ t c, detectErrorTypeAndCode (fun c => c) (some (.plain "unknown error")) = .ok (t, c) ∧
        t ≠ "" ∧ c ≠ "" ∧
        (IsAppError (some (.plain "unknown error")) = false →
          (∀ s, ¬ identifiedIn (.plain "unknown error") s) →
          (∀ msg, (GoError.plain "unknown error").Error = .ok msg →
            ∀ g ∈ errorPatterns, ¬ groupMatches (ToLower (fun c => c) msg) g) →
          (t, c) = ("INTERNAL", "INTERNAL_ERROR"))) ∧
      (∀ s, ¬ identifiedIn (.plain "unknown error") s) ∧
      detectErrorTypeAndCode (fun c => c) (some (.plain "unknown error")) =
        .ok ("INTERNAL", "INTERNAL_ERROR") :=
  ⟨by simp [AsAppError, errors.As, chainAs],
    by simp [AsAppError, errors.As, chainAs],
    detect_total_nonempty (fun c => c) (.plain "unknown error")
      (by simp [AsAppError, errors.As, chainAs]) (by simp [AsAppError, errors.As, chainAs]),
    by
      intro s h
      simp [identifiedIn_iff, links] at h
      cases s <;> simp [Sentinel.text] at h,
    rfl⟩

/-- C5 as stated fails: the `AppError` that `New("x").WithType("")` gives, and the
struct literal `&AppError{Code: CodeInvalidInput}`, are passed through the classifier
with their empty category; and `errors.New("context canceled")`, which is not an
`AppError`, has no sentinel in its chain and a text in which no pattern of the table
occurs, is classified `(INTERNAL, OPERATION_CANCELED)`. -/
theorem detect_empty_category_counterexample :
    detectErrorTypeAndCode (fun c => c)
        (some (asError (AppError.WithType (some (New "x")) ""))) =
        .ok ("", "INTERNAL_ERROR") ∧
      detectErrorTypeAndCode (fun c => c)
        (some (AppError.toError { Type_ := "", Code := CodeInvalidInput, Message := "" })) =
        .ok ("", "INVALID_INPUT") ∧
      IsAppError (some (.plain "context canceled")) = false ∧
      (∀ s, GoError.sentinel s ∉ links (.plain "context canceled")) ∧
      detectFromErrorMessage (fun c => c) "context canceled" = ("INTERNAL", "INTERNAL_ERROR") ∧
      detectErrorTypeAndCode (fun c => c) (some (.plain "context canceled")) =
        .ok ("INTERNAL", "OPERATION_CANCELED") :=
  ⟨rfl, rfl, rfl, by simp [links], rfl, rfl⟩

/-- Apart from a nil `*AppError` found by `AsAppError`, `Wrap` returns a value for
every failure, the nil one included. -/
theorem Wrap_ok_of_no_nil_pointer (u : Char → Char) (err : Option GoError) (m : String)
    (hptr : AsAppError err ≠ (none, true)) : ∃ a, Wrap u err m = .ok a := by
  cases err with
  | none => exact ⟨_, rfl⟩
  | some f =>
    cases hc : chainAs f with
    | none =>
      obtain ⟨t, c, hd⟩ := detect_ok_of_chainAs_none u f hc
      simp only [Wrap, AsAppError_of_chainAs_none f hc, hd]
      exact ⟨_, rfl⟩
    | some p =>
      cases p with
      | none => exact absurd (by simp [AsAppError, errors.As, hc]) hptr
      | some a =>
        have hAs : AsAppError (some f) = (some a, true) := by
          simp [AsAppError, errors.As, hc]
        simp only [Wrap, hAs]
        exact ⟨_, rfl⟩


/-! ## Categories and status -/

theorem DefaultHTTPStatus_of_not_defined (t : ErrorType) (h : t ∉ definedCategories) :
    DefaultHTTPStatus t = 500 := by
  simp only [definedCategories, List.mem_cons, List.mem_singleton, List.not_mem_nil,
    or_false, not_or] at h
  obtain ⟨h1, h2, h3, h4, h5, h6, h7, h8, h9⟩ := h
  simp only [DefaultHTTPStatus, h1, h2, h3, h4, h5, h6, h7, h8, h9, if_false]

/-- C11, as the code has it: `NewAppError(t, c, m)` turns the empty category into
`INTERNAL` and keeps a non-empty category that is not one of the nine as it is given;
in both cases the status is 500, the default status of `INTERNAL`. -/
theorem NewAppError_unknown_category (t : ErrorType) (c m : String)
    (h : t = "" ∨ t ∉ definedCategories) :
    (NewAppError t c m).Type_ = (if t = "" then "INTERNAL" else t) ∧
      (NewAppError t c m).HTTPStatus = 500 ∧
      AppError.GetHTTPStatus (some (NewAppError t c m)) = 500 := by
  have hs : (NewAppError t c m).HTTPStatus = 500 := by
    show DefaultHTTPStatus (if t = "" then ErrorTypeInternal else t) = 500
    by_cases ht : t = ""
    · rw [if_pos ht]
      rfl
    · rw [if_neg ht]
      rcases h with h | h
      · exact absurd h ht
      · exact DefaultHTTPStatus_of_not_defined t h
  refine ⟨rfl, hs, ?_⟩
  show (if (NewAppError t c m).HTTPStatus ≠ 0 then (NewAppError t c m).HTTPStatus
    else DefaultHTTPStatus (NewAppError t c m).Type_) = 500
  rw [hs]
  rfl

/-- C11, at the empty category and at the category of the test "Unknown Error Type". -/
theorem NewAppError_unknown_category_witness :
    ((NewAppError "" "c" "m").Type_ = (if ("" : String) = "" then "INTERNAL" else "") ∧
        (NewAppError "" "c" "m").HTTPStatus = 500 ∧
        AppError.GetHTTPStatus (some (NewAppError "" "c" "m")) = 500) ∧
      ((NewAppError "UNKNOWN" "c" "m").Type_ =
          (if ("UNKNOWN" : String) = "" then "INTERNAL" else "UNKNOWN") ∧
        (NewAppError "UNKNOWN" "c" "m").HTTPStatus = 500 ∧
        AppError.GetHTTPStatus (some (NewAppError "UNKNOWN" "c" "m")) = 500) :=
  ⟨NewAppError_unknown_category "" "c" "m" (Or.inl rfl),
    NewAppError_unknown_category "UNKNOWN" "c" "m" (Or.inr (by decide))⟩

/-- C11 as stated fails: the category "UNKNOWN" is not one of the nine, and
`NewAppError("UNKNOWN", "c", "m")` keeps it as its `Type`. -/
theorem NewAppError_unknown_category_counterexample :
    "UNKNOWN" ∉ definedCategories ∧
      (NewAppError "UNKNOWN" "c" "m").Type_ = "UNKNOWN" ∧
      (NewAppError "UNKNOWN" "c" "m").Type_ ≠ "INTERNAL" :=
  ⟨by decide, rfl, by decide⟩

/-- C12: `New(m)` has `Type = INTERNAL`, `Code = "INTERNAL_ERROR"`, status 500, empty
`Details`, and a non-empty `Message`: the trimmed `m`, or `"Unknown error occurred"`
when the trimmed `m` is empty. -/
theorem New_fields (m : String) :
    (New m).Type_ = "INTERNAL" ∧
      (New m).Code = "INTERNAL_ERROR" ∧
      (New m).HTTPStatus = 500 ∧
      (New m).Details = "" ∧
      (New m).Message =
        (if TrimSpace m = "" then "Unknown error occurred" else TrimSpace m) ∧
      (New m).Message ≠ "" ∧
      (New "An internal error occurred").Message = "An internal error occurred" ∧
      (New "").Message = "Unknown error occurred" ∧
      (New "  ").Message = "Unknown error occurred" ∧
      (New " \t\n ").Message = "Unknown error occurred" :=
  ⟨rfl, rfl, rfl, rfl, rfl, normalized_message_ne_empty m, by decide, by decide,
    by decide, by decide⟩

/-- C13: `GetHTTPStatus` returns the `HTTPStatus` field when it is not zero, the
default status of the `Type` when it is zero, and 500 on a nil receiver. -/
theorem GetHTTPStatus_resolution (e : AppError) :
    (e.HTTPStatus ≠ 0 → AppError.GetHTTPStatus (some e) = e.HTTPStatus) ∧
      (e.HTTPStatus = 0 → AppError.GetHTTPStatus (some e) = DefaultHTTPStatus e.Type_) ∧
      AppError.GetHTTPStatus none = 500 := by
  refine ⟨?_, ?_, rfl⟩
  · intro h
    simp only [AppError.GetHTTPStatus, h, ne_eq, not_false_eq_true, if_true]
  · intro h
    simp only [AppError.GetHTTPStatus, h, ne_eq, not_true_eq_false, if_false]

/-- C13, at the values of `TestGetHTTPStatus` and at a struct literal with no status. -/
theorem GetHTTPStatus_resolution_witness :
    AppError.GetHTTPStatus (some (New "An error occurred")) = 500 ∧
      AppError.GetHTTPStatus (AppError.WithHTTPStatus (some (New "An error occurred")) 418) =
        418 ∧
      AppError.GetHTTPStatus
        (some { Type_ := ErrorTypeNotFound, Code := CodeResourceNotFound, Message := "m" }) =
        404 :=
  ⟨(GetHTTPStatus_resolution (New "An error occurred")).1 (by decide),
    by decide,
    (GetHTTPStatus_resolution
      { Type_ := ErrorTypeNotFound, Code := CodeResourceNotFound, Message := "m" }).2.1 rfl⟩

/-- C14: for a status `s` in `[100, 599]`, `e.WithHTTPStatus(s)` is `e` with
`HTTPStatus = s`, and its effective status is `s`; for `s` outside the range it is
`e` itself. -/
theorem WithHTTPStatus_range (e : AppError) (s : Int) :
    (100 ≤ s ∧ s ≤ 599 →
        AppError.WithHTTPStatus (some e) s = some { e with HTTPStatus := s } ∧
        AppError.GetHTTPStatus (AppError.WithHTTPStatus (some e) s) = s) ∧
      (s < 100 ∨ 599 < s →
        AppError.WithHTTPStatus (some e) s = some e ∧
        AppError.GetHTTPStatus (AppError.WithHTTPStatus (some e) s) =
          AppError.GetHTTPStatus (some e)) := by
  constructor
  · intro h
    have hs : s ≠ 0 := by omega
    simp only [AppError.WithHTTPStatus, h, and_self, if_true, AppError.GetHTTPStatus, hs,
      ne_eq, not_false_eq_true]
  · intro h
    have hn : ¬ (100 ≤ s ∧ s ≤ 599) := by omega
    simp only [AppError.WithHTTPStatus, hn, if_false, and_self]

/-- C14, at the status 418 of `TestWithHTTPStatus` and at the statuses 0, -1, 99 and
600, which are ignored. -/
theorem WithHTTPStatus_range_witness :
    (AppError.WithHTTPStatus (some (New "An error occurred")) 418 =
        some { New "An error occurred" with HTTPStatus := 418 } ∧
      AppError.GetHTTPStatus (AppError.WithHTTPStatus (some (New "An error occurred")) 418) =
        418) ∧
      AppError.WithHTTPStatus (some (New "x")) 0 = some (New "x") ∧
      AppError.WithHTTPStatus (some (New "x")) (-1) = some (New "x") ∧
      AppError.WithHTTPStatus (some (New "x")) 99 = some (New "x") ∧
      AppError.WithHTTPStatus (some (New "x")) 600 = some (New "x") :=
  ⟨(WithHTTPStatus_range (New "An error occurred") 418).1 (by decide),
    ((WithHTTPStatus_range (New "x") 0).2 (by decide)).1,
    ((WithHTTPStatus_range (New "x") (-1)).2 (by decide)).1,
    ((WithHTTPStatus_range (New "x") 99).2 (by decide)).1,
    ((WithHTTPStatus_range (New "x") 600).2 (by decide)).1⟩

/-- C15: after `WithHTTPStatus(s)` with `s` in `[100, 599]`, `WithType(C)` leaves the
effective status at `s`; `WithType` changes the `Type` field only. -/
theorem WithType_keeps_status (e : AppError) (s : Int) (C : ErrorType)
    (hs : 100 ≤ s ∧ s ≤ 599) :
    AppError.GetHTTPStatus (AppError.WithType (AppError.WithHTTPStatus (some e) s) C) = s ∧
      AppError.WithType (some e) C = some { e with Type_ := C } := by
  have h0 : s ≠ 0 := by omega
  refine ⟨?_, rfl⟩
  simp only [AppError.WithHTTPStatus, hs, and_self, if_true, AppError.WithType,
    AppError.GetHTTPStatus, h0, ne_eq, not_false_eq_true]

/-- C15, at `New(m).WithHTTPStatus(422).WithType(VALIDATION)`: the effective status is
422. -/
theorem WithType_keeps_status_witness :
    AppError.GetHTTPStatus
        (AppError.WithType (AppError.WithHTTPStatus (some (New "m")) 422)
          ErrorTypeValidation) = 422 ∧
      AppError.WithType (some (New "m")) ErrorTypeValidation =
        some { New "m" with Type_ := ErrorTypeValidation } :=
  WithType_keeps_status (New "m") 422 ErrorTypeValidation (by decide)

/-- C16, as the code has it: `New` and `NewAppError` write the status at construction
and `WithType` does not touch it, so after `WithType(C)` the effective status is
still the one of the construction, 500 for `New` and the default of the normalised
category for `NewAppError`; the default of `C` is returned when the field is zero. -/
theorem WithType_after_construction (t C : ErrorType) (c m : String) (e : AppError) :
    AppError.GetHTTPStatus (AppError.WithType (some (New m)) C) = 500 ∧
      AppError.GetHTTPStatus (AppError.WithType (some (NewAppError t c m)) C) =
        DefaultHTTPStatus (if t = "" then ErrorTypeInternal else t) ∧
      AppError.GetHTTPStatus (AppError.WithType (some { e with HTTPStatus := 0 }) C) =
        DefaultHTTPStatus C := by
  refine ⟨rfl, ?_, rfl⟩
  have h0 := DefaultHTTPStatus_ne_zero (if t = "" then ErrorTypeInternal else t)
  show (if DefaultHTTPStatus (if t = "" then ErrorTypeInternal else t) ≠ 0
    then DefaultHTTPStatus (if t = "" then ErrorTypeInternal else t)
    else DefaultHTTPStatus C) = _
  rw [if_pos h0]

/-- C16 as stated fails: `New("x").WithType(VALIDATION)` has the effective status
500, and the default status of `VALIDATION` is 400. -/
theorem WithType_after_construction_counterexample :
    AppError.GetHTTPStatus (AppError.WithType (some (New "x")) ErrorTypeValidation) = 500 ∧
      DefaultHTTPStatus ErrorTypeValidation = 400 ∧
      AppError.GetHTTPStatus (AppError.WithType (some (New "x")) ErrorTypeValidation) ≠
        DefaultHTTPStatus ErrorTypeValidation :=
  ⟨by decide, by decide, by decide⟩

/-- C17: `DefaultHTTPStatus` gives 400, 401, 403, 404, 409, 429 for the six
client-side categories, 500, 502, 503 for the three server-side ones, and 500 for
every other category string, the empty one included; so the client-side categories
are in the 4xx range and the server-side ones in the 5xx range. -/
theorem DefaultHTTPStatus_table (t : ErrorType) :
    DefaultHTTPStatus "VALIDATION" = 400 ∧
      DefaultHTTPStatus "AUTHENTICATION" = 401 ∧
      DefaultHTTPStatus "AUTHORIZATION" = 403 ∧
      DefaultHTTPStatus "NOT_FOUND" = 404 ∧
      DefaultHTTPStatus "CONFLICT" = 409 ∧
      DefaultHTTPStatus "RATE_LIMIT" = 429 ∧
      DefaultHTTPStatus "INTERNAL" = 500 ∧
      DefaultHTTPStatus "EXTERNAL" = 502 ∧
      DefaultHTTPStatus "UNAVAILABLE" = 503 ∧
      DefaultHTTPStatus "" = 500 ∧
      (t ∉ definedCategories → DefaultHTTPStatus t = 500) ∧
      (t ∈ [ErrorTypeValidation, ErrorTypeAuthentication, ErrorTypeAuthorization,
          ErrorTypeNotFound, ErrorTypeConflict, ErrorTypeRateLimit] →
        400 ≤ DefaultHTTPStatus t ∧ DefaultHTTPStatus t ≤ 499) ∧
      (t ∈ [ErrorTypeInternal, ErrorTypeExternal, ErrorTypeUnavailable] →
        500 ≤ DefaultHTTPStatus t ∧ DefaultHTTPStatus t ≤ 599) := by
  refine ⟨by decide, by decide, by decide, by decide, by decide, by decide, by decide,
    by decide, by decide, by decide, DefaultHTTPStatus_of_not_defined t, ?_, ?_⟩
  · intro h
    simp only [List.mem_cons, List.mem_singleton, List.not_mem_nil, or_false] at h
    rcases h with h | h | h | h | h | h <;> subst h <;> exact ⟨by decide, by decide⟩
  · intro h
    simp only [List.mem_cons, List.mem_singleton, List.not_mem_nil, or_false] at h
    rcases h with h | h | h <;> subst h <;> exact ⟨by decide, by decide⟩

/-- C17, at the category "UNKNOWN" of `TestDefaultHTTPStatus`, at `NOT_FOUND` and at
`EXTERNAL`. -/
theorem DefaultHTTPStatus_table_witness :
    DefaultHTTPStatus "UNKNOWN" = 500 ∧
      (400 ≤ DefaultHTTPStatus ErrorTypeNotFound ∧ DefaultHTTPStatus ErrorTypeNotFound ≤ 499) ∧
      (500 ≤ DefaultHTTPStatus ErrorTypeExternal ∧ DefaultHTTPStatus ErrorTypeExternal ≤ 599) :=
  ⟨(DefaultHTTPStatus_table "UNKNOWN").2.2.2.2.2.2.2.2.2.2.1 (by decide),
    (DefaultHTTPStatus_table ErrorTypeNotFound).2.2.2.2.2.2.2.2.2.2.2.1 (by decide),
    (DefaultHTTPStatus_table ErrorTypeExternal).2.2.2.2.2.2.2.2.2.2.2.2 (by decide)⟩

/-! ## The fluent setters -/

/-- C18: `WithCode(x)` sets `Code` to the trimmed `x` when that is not empty and
returns `e` unchanged otherwise; `WithMessage(x)` does the same for `Message`;
`WithDetails(x)` sets `Details` to the trimmed `x` in every case. No other field
changes. -/
theorem setters_trim_input (e : AppError) (x : String) :
    AppError.WithCode (some e) x =
        some (if TrimSpace x = "" then e else { e with Code := TrimSpace x }) ∧
      AppError.WithMessage (some e) x =
        some (if TrimSpace x = "" then e else { e with Message := TrimSpace x }) ∧
      AppError.WithDetails (some e) x = some { e with Details := TrimSpace x } ∧
      (TrimSpace x = "" → AppError.WithCode (some e) x = some e ∧
        AppError.WithMessage (some e) x = some e ∧
        AppError.WithDetails (some e) x = some { e with Details := "" }) := by
  refine ⟨?_, ?_, rfl, ?_⟩
  · by_cases h : TrimSpace x = "" <;> simp [AppError.WithCode, h]
  · by_cases h : TrimSpace x = "" <;> simp [AppError.WithMessage, h]
  · intro h
    simp [AppError.WithCode, AppError.WithMessage, AppError.WithDetails, h]

/-- C18, at the values of `TestWithCode`, `TestWithMessage` and `TestWithDetails`, and
at a blank argument. -/
theorem setters_trim_input_witness :
    AppError.WithCode (some (New "An error occurred")) "NEW_CODE" =
        some { New "An error occurred" with Code := "NEW_CODE" } ∧
      AppError.WithMessage (some (New "An error occurred")) " Updated message " =
        some { New "An error occurred" with Message := "Updated message" } ∧
      AppError.WithDetails (some (New "An error occurred")) "Additional details" =
        some { New "An error occurred" with Details := "Additional details" } ∧
      (AppError.WithCode (some (New "An error occurred")) " \t" =
          some (New "An error occurred") ∧
        AppError.WithMessage (some (New "An error occurred")) " \t" =
          some (New "An error occurred") ∧
        AppError.WithDetails (some (New "An error occurred")) " \t" =
          some { New "An error occurred" with Details := "" }) :=
  ⟨by rfl, by rfl, by rfl,
    (setters_trim_input (New "An error occurred") " \t").2.2.2 (by decide)⟩

/-- C19 fails on the code: `WithType` stores the category it is given without a test,
so `New("x").WithType("")` has an empty `Type`, while `New("x")` has none of `Type`,
`Code`, `Message` empty. -/
theorem WithType_empty_category :
    (New "x").Type_ ≠ "" ∧ (New "x").Code ≠ "" ∧ (New "x").Message ≠ "" ∧
      AppError.WithType (some (New "x")) "" = some { New "x" with Type_ := "" } ∧
      MutatorCall.apply (some (New "x")) (.WithType "") = some { New "x" with Type_ := "" } :=
  ⟨by decide, by decide, by decide, rfl, rfl⟩

theorem TrimSpace_if_ne_empty (x y : String) (hy : y ≠ "") :
    (if TrimSpace x ≠ "" then TrimSpace x else y) ≠ "" := by
  split
  · assumption
  · exact hy

/-- Apart from `WithType` and `setTypeAndStatus` with an empty category, every
mutator call keeps `Type`, `Code` and `Message` non-empty. -/
theorem mutators_preserve_nonempty (e : AppError) (call : MutatorCall)
    (hT : e.Type_ ≠ "") (hC : e.Code ≠ "") (hM : e.Message ≠ "")
    (hcall : call ≠ .WithType "" ∧ call ≠ .setTypeAndStatus "") :
    ∃ r, call.apply (some e) = some r ∧ r.Type_ ≠ "" ∧ r.Code ≠ "" ∧ r.Message ≠ "" := by
  have hcode : ∀ (a : AppError) (code : String), a.Type_ ≠ "" → a.Code ≠ "" →
      a.Message ≠ "" → ∃ r, AppError.WithCode (some a) code = some r ∧
        r.Type_ ≠ "" ∧ r.Code ≠ "" ∧ r.Message ≠ "" := by
    intro a code h1 h2 h3
    by_cases h : TrimSpace code = ""
    · exact ⟨a, by simp [AppError.WithCode, h], h1, h2, h3⟩
    · exact ⟨{ a with Code := TrimSpace code }, by simp [AppError.WithCode, h], h1, h, h3⟩
  have hset : ∀ (t : ErrorType), t ≠ "" → ∀ code : String,
      ∃ r, AppError.WithCode (AppError.setTypeAndStatus (some e) t) code = some r ∧
        r.Type_ ≠ "" ∧ r.Code ≠ "" ∧ r.Message ≠ "" := by
    intro t ht code
    exact hcode _ code ht hC hM
  cases call with
  | WithType t =>
    refine ⟨{ e with Type_ := t }, rfl, ?_, hC, hM⟩
    intro ht
    exact hcall.1 (by rw [show t = "" from ht])
  | WithCode code => exact hcode e code hT hC hM
  | WithMessage message =>
    by_cases h : TrimSpace message = ""
    · exact ⟨e, by simp [MutatorCall.apply, AppError.WithMessage, h], hT, hC, hM⟩
    · exact ⟨{ e with Message := TrimSpace message },
        by simp [MutatorCall.apply, AppError.WithMessage, h], hT, hC, h⟩
  | WithDetails details => exact ⟨_, rfl, hT, hC, hM⟩
  | WithHTTPStatus status =>
    by_cases h : 100 ≤ status ∧ status ≤ 599
    · exact ⟨{ e with HTTPStatus := status },
        by simp [MutatorCall.apply, AppError.WithHTTPStatus, h], hT, hC, hM⟩
    · exact ⟨e, by simp only [MutatorCall.apply, AppError.WithHTTPStatus, h, if_false],
        hT, hC, hM⟩
  | WithCause cause =>
    cases cause with
    | none => exact ⟨e, rfl, hT, hC, hM⟩
    | some f => exact ⟨_, rfl, hT, hC, hM⟩
  | WithCodeAndMessage code message =>
    by_cases h1 : TrimSpace code = "" <;> by_cases h2 : TrimSpace message = ""
    · exact ⟨e, by simp [MutatorCall.apply, AppError.WithCodeAndMessage, h1, h2],
        hT, hC, hM⟩
    · exact ⟨{ e with Message := TrimSpace message },
        by simp [MutatorCall.apply, AppError.WithCodeAndMessage, h1, h2], hT, hC, h2⟩
    · exact ⟨{ e with Code := TrimSpace code },
        by simp [MutatorCall.apply, AppError.WithCodeAndMessage, h1, h2], hT, h1, hM⟩
    · exact ⟨{ e with Code := TrimSpace code, Message := TrimSpace message },
        by simp [MutatorCall.apply, AppError.WithCodeAndMessage, h1, h2], hT, h1, h2⟩
  | setTypeAndStatus t =>
    refine ⟨_, rfl, ?_, hC, hM⟩
    intro ht
    exact hcall.2 (by rw [show t = "" from ht])
  | AsAuthentication =>
    exact ⟨_, rfl, (by decide : ErrorTypeAuthentication ≠ ""), hC, hM⟩
  | AsValidationWithCode code => exact hset ErrorTypeValidation (by decide) code
  | AsAuthenticationWithCode code => exact hset ErrorTypeAuthentication (by decide) code
  | AsAuthorizationWithCode code => exact hset ErrorTypeAuthorization (by decide) code
  | AsNotFoundWithCode code => exact hset ErrorTypeNotFound (by decide) code
  | AsConflictWithCode code => exact hset ErrorTypeConflict (by decide) code
  | AsInternalWithCode code => exact hset ErrorTypeInternal (by decide) code
  | AsUnavailableWithCode code => exact hset ErrorTypeUnavailable (by decide) code
  | AsExternalWithCode code => exact hset ErrorTypeExternal (by decide) code
  | AsRateLimitWithCode code => exact hset ErrorTypeRateLimit (by decide) code
  | AsValidationError => exact hset ErrorTypeValidation (by decide) CodeValidationError
  | AsInvalidInput => exact hset ErrorTypeValidation (by decide) CodeInvalidInput
  | AsRequiredField => exact hset ErrorTypeValidation (by decide) CodeRequiredField
  | AsInvalidFormat => exact hset ErrorTypeValidation (by decide) CodeInvalidFormat
  | AsInvalidRange => exact hset ErrorTypeValidation (by decide) CodeInvalidRange
  | AsInvalidCredentials => exact hset ErrorTypeAuthentication (by decide) CodeInvalidCredentials
  | AsTokenExpired => exact hset ErrorTypeAuthentication (by decide) CodeTokenExpired
  | AsTokenInvalid => exact hset ErrorTypeAuthentication (by decide) CodeTokenInvalid
  | AsLoginRequired => exact hset ErrorTypeAuthentication (by decide) CodeLoginRequired
  | AsAccessDenied => exact hset ErrorTypeAuthorization (by decide) CodeAccessDenied
  | AsInsufficientPermissions => exact hset ErrorTypeAuthorization (by decide) CodeInsufficientPermissions
  | AsResourceForbidden => exact hset ErrorTypeAuthorization (by decide) CodeResourceForbidden
  | AsResourceNotFound => exact hset ErrorTypeNotFound (by decide) CodeResourceNotFound
  | AsResourceExists => exact hset ErrorTypeConflict (by decide) CodeResourceExists
  | AsDatabaseError => exact hset ErrorTypeInternal (by decide) CodeDatabaseError
  | AsDatabaseConnection => exact hset ErrorTypeInternal (by decide) CodeDatabaseConnection
  | AsDatabaseTimeout => exact hset ErrorTypeInternal (by decide) CodeInternalTimeout
  | AsDatabaseConstraint => exact hset ErrorTypeInternal (by decide) CodeDatabaseConstraint
  | AsServiceUnavailable => exact hset ErrorTypeUnavailable (by decide) CodeServiceUnavailable
  | AsServiceTimeout => exact hset ErrorTypeExternal (by decide) CodeExternalTimeout
  | AsExternalServiceUnavailable => exact hset ErrorTypeExternal (by decide) CodeExternalUnavailable
  | AsTooManyRequests => exact hset ErrorTypeRateLimit (by decide) CodeRateLimitExceeded
  | AsConfiguration => exact hset ErrorTypeInternal (by decide) CodeConfigurationError
  | AsTimeout => exact hset ErrorTypeInternal (by decide) CodeInternalTimeout

/-- C20: on a nil receiver every fluent mutator, `setTypeAndStatus` and every
shortcut of `chaining.go` returns nil, whatever the arguments. -/
theorem mutators_nil_receiver (call : MutatorCall) :
    call.apply none = none ∧
      AppError.WithType none "VALIDATION" = none ∧
      AppError.WithCode none "X" = none ∧
      AppError.WithMessage none "m" = none ∧
      AppError.WithDetails none "d" = none ∧
      AppError.WithHTTPStatus none 404 = none ∧
      AppError.WithCause none (some (.leaf "root cause")) = none ∧
      AppError.WithCodeAndMessage none "X" "m" = none ∧
      AppError.setTypeAndStatus none ErrorTypeValidation = none ∧
      AppError.AsValidationWithCode none "VALIDATION_CODE" = none ∧
      AppError.AsResourceNotFound none = none := by
  refine ⟨?_, rfl, rfl, rfl, rfl, rfl, rfl, rfl, rfl, rfl, rfl⟩
  cases call <;> rfl



/-! ## Read operations -/

/-- C21 fails on the code for a nil receiver: `Error`, `String` and `Unwrap` read a
field of the receiver without a nil test and fault, while `UnwrapAll`, `Cause`,
`GetHTTPStatus`, `IsType`, `HasCode`, `GetStackTrace` and `GetStackTraceLines` answer
their placeholder. -/
theorem read_operations_nil_receiver (verbose : GoError → String) (t : ErrorType)
    (c : String) :
    AppError.Error none = .error Fault.nilDereference ∧
      AppError.String_ none = .error Fault.nilDereference ∧
      AppError.Unwrap none = .error Fault.nilDereference ∧
      AppError.UnwrapAll none = none ∧
      AppError.Cause none = none ∧
      AppError.GetHTTPStatus none = 500 ∧
      AppError.IsType none t = false ∧
      AppError.HasCode none c = false ∧
      AppError.GetStackTrace verbose none = "no stack trace available" ∧
      AppError.GetStackTraceLines verbose none = ["no stack trace available"] :=
  ⟨rfl, rfl, rfl, rfl, rfl, rfl, rfl, rfl, rfl, rfl⟩

/-- On a present `AppError` with no cause every read operation returns a value. -/
theorem read_operations_no_cause (verbose : GoError → String) (e : AppError)
    (h : e.cause = none) :
    (∃ s, AppError.Error (some e) = .ok s ∧ AppError.String_ (some e) = .ok s) ∧
      AppError.Unwrap (some e) = .ok none ∧
      AppError.UnwrapAll (some e) = none ∧
      AppError.Cause (some e) = none ∧
      AppError.GetStackTrace verbose (some e) = "no stack trace available" ∧
      AppError.GetStackTraceLines verbose (some e) = ["no stack trace available"] := by
  refine ⟨⟨_, rfl, rfl⟩, ?_, ?_, ?_, ?_, ?_⟩ <;>
    simp [AppError.Unwrap, AppError.UnwrapAll, AppError.Cause, AppError.GetStackTrace,
      AppError.GetStackTraceLines, errors.Unwrap, errors.Cause, h]

/-- C25: on a non-nil receiver `Error()` is `[Type] Code: Message` when the trimmed
`Details` is empty and that text followed by ` - ` and the trimmed `Details`
otherwise; `String()` is `Error()`, and so is the text of the value seen as an
`error`. -/
theorem Error_canonical (e : AppError) :
    AppError.Error (some e) =
        .ok (if TrimSpace e.Details = "" then
            "[" ++ e.Type_ ++ "] " ++ e.Code ++ ": " ++ e.Message
          else
            "[" ++ e.Type_ ++ "] " ++ e.Code ++ ": " ++ e.Message ++ " - " ++
              TrimSpace e.Details) ∧
      AppError.String_ (some e) = AppError.Error (some e) ∧
      e.toError.Error = AppError.Error (some e) ∧
      AppError.Error (some (NewAppError ErrorTypeValidation "VALIDATION_ERROR"
        "Validation failed")) = .ok "[VALIDATION] VALIDATION_ERROR: Validation failed" ∧
      AppError.Error (AppError.WithDetails (some (New "validation failed"))
          " field 'email' must be a valid email address ") =
        .ok ("[INTERNAL] INTERNAL_ERROR: validation failed - " ++
          "field 'email' must be a valid email address") ∧
      AppError.Error (AppError.WithDetails (some (New "x")) "  ") =
        .ok "[INTERNAL] INTERNAL_ERROR: x" := by
  refine ⟨?_, rfl, rfl, rfl, rfl, rfl⟩
  by_cases h : TrimSpace e.Details = "" <;> simp [AppError.Error, renderApp, h]

/-! ## Sentinel lookup and conversion -/

/-- C29, as the code has it: `IsRecordNotFound(err)` is true exactly when the chain of
`err`, the members of a joined error included, holds `gorm.ErrRecordNotFound`,
`sql.ErrNoRows`, or a standard-library `errors.New` value with exactly the text of one
of the two, which `errors.Is` identifies with it. It is false for nil, for the other
sentinels, for a failure of another type whatever its text, and for a standard-library
error with any other text, such as "record not found in database". -/
theorem IsRecordNotFound_iff (f : GoError) (m : String) :
    (IsRecordNotFound (some f) = true ↔
        GoError.sentinel .ErrRecordNotFound ∈ links f ∨ GoError.sentinel .ErrNoRows ∈ links f ∨
          GoError.plain "record not found" ∈ links f ∨
          GoError.plain "sql: no rows in result set" ∈ links f) ∧
      IsRecordNotFound (some (.plain m)) =
        decide (m = "record not found" ∨ m = "sql: no rows in result set") ∧
      IsRecordNotFound none = false ∧
      IsRecordNotFound (some (.leaf m)) = false ∧
      IsRecordNotFound (some (.sentinel .ErrRecordNotFound)) = true ∧
      IsRecordNotFound (some (.sentinel .ErrNoRows)) = true ∧
      IsRecordNotFound (some (.join [.sentinel .ErrRecordNotFound,
        .plain "additional context"])) = true ∧
      IsRecordNotFound (some (.join [.sentinel .ErrNoRows, .plain "additional context"])) =
        true ∧
      IsRecordNotFound (some (.join [.plain "additional context",
        .wrapped "lookup" (.sentinel .ErrNoRows)])) = true ∧
      IsRecordNotFound (some (.sentinel .ErrInvalidTransaction)) = false ∧
      IsRecordNotFound (some (.sentinel .ErrTxDone)) = false ∧
      IsRecordNotFound (some (.sentinel .DeadlineExceeded)) = false ∧
      IsRecordNotFound (some (.plain "some generic error")) = false ∧
      IsRecordNotFound (some (.plain "record not found in database")) = false := by
  refine ⟨?_, ?_, rfl, rfl, rfl, rfl, rfl, rfl, rfl, rfl, rfl, rfl, rfl, rfl⟩
  · simp only [IsRecordNotFound, errors.Is, Bool.or_eq_true, chainIs_iff_identifiedIn,
      identifiedIn_iff, Sentinel.text]
    have h1 : Sentinel.ErrRecordNotFound ≠ .DeadlineExceeded := by decide
    have h2 : Sentinel.ErrNoRows ≠ .DeadlineExceeded := by decide
    simp only [ne_eq, h1, h2, not_false_eq_true, true_and]
    tauto
  · simp [IsRecordNotFound, errors.Is, chainIs, equalMarks, Sentinel.text]

/-- C29 as stated fails: `IsRecordNotFound(errors.New("record not found"))` is true,
for a plain failure whose chain holds neither sentinel; so it is for the text of
`sql.ErrNoRows`, and for such a failure under a wrapper. -/
theorem IsRecordNotFound_plain_counterexample :
    IsRecordNotFound (some (.plain "record not found")) = true ∧
      links (.plain "record not found") = [.plain "record not found"] ∧
      IsRecordNotFound (some (.plain "sql: no rows in result set")) = true ∧
      IsRecordNotFound (some (.wrapped "find user 42: record not found"
        (.plain "record not found"))) = true :=
  ⟨rfl, rfl, rfl, rfl⟩

mutual
theorem chainAs_eq_find (f : GoError) :
    chainAs f = ((links f).find? isAppValue).map toAppPointer := by
  match f with
  | .leaf _ => simp [chainAs, links, isAppValue]
  | .plain _ => simp [chainAs, links, isAppValue]
  | .sentinel _ => simp [chainAs, links, isAppValue]
  | .withStack c => simp [chainAs, links, isAppValue, chainAs_eq_find c]
  | .withPrefix _ c => simp [chainAs, links, isAppValue, chainAs_eq_find c]
  | .wrapped _ c => simp [chainAs, links, isAppValue, chainAs_eq_find c]
  | .join es => simp [chainAs, links, isAppValue, chainAsFirst_eq_find es]
  | .appNil => simp [chainAs, links, isAppValue, toAppPointer]
  | .app _ _ _ _ _ none => simp [chainAs, links, isAppValue, toAppPointer]
  | .app _ _ _ _ _ (some c) => simp [chainAs, links, isAppValue, toAppPointer]
theorem chainAsFirst_eq_find (es : List GoError) :
    chainAsFirst es = ((linksOfList es).find? isAppValue).map toAppPointer := by
  match es with
  | [] => simp [chainAsFirst, linksOfList]
  | e :: rest =>
    rw [chainAsFirst, linksOfList, List.find?_append, chainAs_eq_find e,
      chainAsFirst_eq_find rest]
    cases (links e).find? isAppValue <;> simp
end

/-- C30: `AsAppError` answers `(nil, false)` for nil and for a failure with no
`*AppError` in its chain, `(a, true)` for an `AppError` `a`, and for any failure the
first `*AppError` of its chain, the outermost one; `IsAppError` is the second
component, true for `New(m)` and false for a plain failure. -/
theorem AsAppError_outermost (f : GoError) (a : AppError) (m : String) :
    AsAppError none = (none, false) ∧
      AsAppError (some f) =
        (match (links f).find? isAppValue with
          | none => (none, false)
          | some e => (toAppPointer e, true)) ∧
      ((∀ e ∈ links f, isAppValue e = false) → AsAppError (some f) = (none, false)) ∧
      AsAppError (some a.toError) = (some a, true) ∧
      AsAppError (some (.withStack (.wrapped m a.toError))) = (some a, true) ∧
      IsAppError (some f) = (AsAppError (some f)).2 ∧
      IsAppError none = false ∧
      IsAppError (some (New m).toError) = true ∧
      IsAppError (some (.leaf m)) = false := by
  refine ⟨rfl, ?_, ?_, rfl, rfl, rfl, rfl, rfl, rfl⟩
  · simp only [AsAppError, errors.As, chainAs_eq_find f]
    cases (links f).find? isAppValue <;> rfl
  · intro h
    exact AsAppError_of_chainAs_none f ((chainAs_eq_none_iff f).mpr h)

/-- C30, at the `AppError` `New("app error")` under a wrapper with a text of its own,
and at a plain failure. -/
theorem AsAppError_outermost_witness :
    AsAppError (some (.wrapped "ctx: app error" (New "app error").toError)) =
        (some (New "app error"), true) ∧
      AsAppError (some (.withStack (.leaf "standard error"))) = (none, false) :=
  ⟨rfl,
    (AsAppError_outermost (.withStack (.leaf "standard error")) (New "x") "m").2.2.1
      (by simp [links, isAppValue])⟩

/-! ## The shortcuts -/

theorem setTypeAndStatus_WithCode (e : AppError) (X : ErrorType) (c : String) :
    AppError.WithCode (AppError.setTypeAndStatus (some e) X) c =
      some { e with Type_ := X, HTTPStatus := DefaultHTTPStatus X,
                    Code := if TrimSpace c = "" then e.Code else TrimSpace c } := by
  by_cases h : TrimSpace c = "" <;> simp [AppError.WithCode, AppError.setTypeAndStatus, h]

/-- C26: each shortcut of `chaining.go` returns the receiver with its fixed category,
the default status of that category and its fixed code, every other field unchanged;
`As<X>WithCode(c)` stores the trimmed `c` as code and keeps the old code when `c` is
blank; `AsAuthentication` and `setTypeAndStatus` change category and status only. -/
theorem shortcuts_table (e : AppError) (c : String) (X : ErrorType) :
    AppError.AsValidationError (some e) =
        some { e with Type_ := "VALIDATION", Code := "VALIDATION_ERROR", HTTPStatus := 400 } ∧
      AppError.AsInvalidInput (some e) =
        some { e with Type_ := "VALIDATION", Code := "INVALID_INPUT", HTTPStatus := 400 } ∧
      AppError.AsRequiredField (some e) =
        some { e with Type_ := "VALIDATION", Code := "REQUIRED_FIELD", HTTPStatus := 400 } ∧
      AppError.AsInvalidFormat (some e) =
        some { e with Type_ := "VALIDATION", Code := "INVALID_FORMAT", HTTPStatus := 400 } ∧
      AppError.AsInvalidRange (some e) =
        some { e with Type_ := "VALIDATION", Code := "INVALID_RANGE", HTTPStatus := 400 } ∧
      AppError.AsInvalidCredentials (some e) =
        some { e with Type_ := "AUTHENTICATION", Code := "INVALID_CREDENTIALS", HTTPStatus := 401 } ∧
      AppError.AsTokenExpired (some e) =
        some { e with Type_ := "AUTHENTICATION", Code := "TOKEN_EXPIRED", HTTPStatus := 401 } ∧
      AppError.AsTokenInvalid (some e) =
        some { e with Type_ := "AUTHENTICATION", Code := "TOKEN_INVALID", HTTPStatus := 401 } ∧
      AppError.AsLoginRequired (some e) =
        some { e with Type_ := "AUTHENTICATION", Code := "LOGIN_REQUIRED", HTTPStatus := 401 } ∧
      AppError.AsAccessDenied (some e) =
        some { e with Type_ := "AUTHORIZATION", Code := "ACCESS_DENIED", HTTPStatus := 403 } ∧
      AppError.AsInsufficientPermissions (some e) =
        some { e with Type_ := "AUTHORIZATION", Code := "INSUFFICIENT_PERMISSIONS", HTTPStatus := 403 } ∧
      AppError.AsResourceForbidden (some e) =
        some { e with Type_ := "AUTHORIZATION", Code := "RESOURCE_FORBIDDEN", HTTPStatus := 403 } ∧
      AppError.AsResourceNotFound (some e) =
        some { e with Type_ := "NOT_FOUND", Code := "RESOURCE_NOT_FOUND", HTTPStatus := 404 } ∧
      AppError.AsResourceExists (some e) =
        some { e with Type_ := "CONFLICT", Code := "RESOURCE_EXISTS", HTTPStatus := 409 } ∧
      AppError.AsDatabaseError (some e) =
        some { e with Type_ := "INTERNAL", Code := "DATABASE_ERROR", HTTPStatus := 500 } ∧
      AppError.AsDatabaseConnection (some e) =
        some { e with Type_ := "INTERNAL", Code := "DATABASE_CONNECTION", HTTPStatus := 500 } ∧
      AppError.AsDatabaseTimeout (some e) =
        some { e with Type_ := "INTERNAL", Code := "INTERNAL_TIMEOUT", HTTPStatus := 500 } ∧
      AppError.AsDatabaseConstraint (some e) =
        some { e with Type_ := "INTERNAL", Code := "DATABASE_CONSTRAINT", HTTPStatus := 500 } ∧
      AppError.AsServiceUnavailable (some e) =
        some { e with Type_ := "UNAVAILABLE", Code := "SERVICE_UNAVAILABLE", HTTPStatus := 503 } ∧
      AppError.AsServiceTimeout (some e) =
        some { e with Type_ := "EXTERNAL", Code := "EXTERNAL_TIMEOUT", HTTPStatus := 502 } ∧
      AppError.AsExternalServiceUnavailable (some e) =
        some { e with Type_ := "EXTERNAL", Code := "EXTERNAL_UNAVAILABLE", HTTPStatus := 502 } ∧
      AppError.AsTooManyRequests (some e) =
        some { e with Type_ := "RATE_LIMIT", Code := "RATE_LIMIT_EXCEEDED", HTTPStatus := 429 } ∧
      AppError.AsConfiguration (some e) =
        some { e with Type_ := "INTERNAL", Code := "CONFIGURATION_ERROR", HTTPStatus := 500 } ∧
      AppError.AsTimeout (some e) =
        some { e with Type_ := "INTERNAL", Code := "INTERNAL_TIMEOUT", HTTPStatus := 500 } ∧
      AppError.AsValidationWithCode (some e) c =
        some { e with Type_ := "VALIDATION", HTTPStatus := 400,
                      Code := if TrimSpace c = "" then e.Code else TrimSpace c } ∧
      AppError.AsAuthenticationWithCode (some e) c =
        some { e with Type_ := "AUTHENTICATION", HTTPStatus := 401,
                      Code := if TrimSpace c = "" then e.Code else TrimSpace c } ∧
      AppError.AsAuthorizationWithCode (some e) c =
        some { e with Type_ := "AUTHORIZATION", HTTPStatus := 403,
                      Code := if TrimSpace c = "" then e.Code else TrimSpace c } ∧
      AppError.AsNotFoundWithCode (some e) c =
        some { e with Type_ := "NOT_FOUND", HTTPStatus := 404,
                      Code := if TrimSpace c = "" then e.Code else TrimSpace c } ∧
      AppError.AsConflictWithCode (some e) c =
        some { e with Type_ := "CONFLICT", HTTPStatus := 409,
                      Code := if TrimSpace c = "" then e.Code else TrimSpace c } ∧
      AppError.AsInternalWithCode (some e) c =
        some { e with Type_ := "INTERNAL", HTTPStatus := 500,
                      Code := if TrimSpace c = "" then e.Code else TrimSpace c } ∧
      AppError.AsUnavailableWithCode (some e) c =
        some { e with Type_ := "UNAVAILABLE", HTTPStatus := 503,
                      Code := if TrimSpace c = "" then e.Code else TrimSpace c } ∧
      AppError.AsExternalWithCode (some e) c =
        some { e with Type_ := "EXTERNAL", HTTPStatus := 502,
                      Code := if TrimSpace c = "" then e.Code else TrimSpace c } ∧
      AppError.AsRateLimitWithCode (some e) c =
        some { e with Type_ := "RATE_LIMIT", HTTPStatus := 429,
                      Code := if TrimSpace c = "" then e.Code else TrimSpace c } ∧
      AppError.AsAuthentication (some e) =
        some { e with Type_ := "AUTHENTICATION", HTTPStatus := 401 } ∧
      AppError.setTypeAndStatus (some e) X =
        some { e with Type_ := X, HTTPStatus := DefaultHTTPStatus X } := by
  refine ⟨rfl, rfl, rfl, rfl, rfl, rfl, rfl, rfl, rfl, rfl, rfl, rfl, rfl, rfl, rfl, rfl, rfl, rfl, rfl, rfl, rfl, rfl, rfl, rfl, ?_, ?_, ?_, ?_, ?_, ?_, ?_, ?_, ?_, rfl, rfl⟩
  all_goals exact setTypeAndStatus_WithCode e _ c

/-! ## The cause chain -/

theorem unwrapAll_of_root (o : GoError) (h : UnwrapOnce o = none) : unwrapAll o = o := by
  rw [unwrapAll_eq, h]

theorem mem_links_self (f : GoError) : f ∈ links f := by
  match f with
  | .leaf _ => simp [links]
  | .plain _ => simp [links]
  | .sentinel _ => simp [links]
  | .withStack _ => simp [links]
  | .withPrefix _ _ => simp [links]
  | .wrapped _ _ => simp [links]
  | .join _ => simp [links]
  | .appNil => simp [links]
  | .app _ _ _ _ _ none => simp [links]
  | .app _ _ _ _ _ (some _) => simp [links]

/-- The value `Wrap` builds from a failure with no `*AppError` in its chain. -/
theorem Wrap_of_chainAs_none (u : Char → Char) (f : GoError) (m : String)
    (hA : chainAs f = none) :
    ∃ t c, Wrap u (some f) m =
        .ok { Type_ := t
              Code := c
              Message := if TrimSpace m = "" then MsgUnknownError else TrimSpace m
              Details := ""
              HTTPStatus := DefaultHTTPStatus t
              cause := some (.withStack (.withPrefix
                (if TrimSpace m = "" then MsgUnknownError else TrimSpace m) f)) } := by
  obtain ⟨t, c, hd⟩ := detect_ok_of_chainAs_none u f hA
  refine ⟨t, c, ?_⟩
  have hm := normalized_message_ne_empty m
  simp only [Wrap, AsAppError_of_chainAs_none f hA, hd, errors.WrapWithDepth]
  rw [if_pos hm]

/-- The value `Wrap` builds from a failure whose first `*AppError` is `a`. -/
theorem Wrap_of_chainAs_some (u : Char → Char) (f : GoError) (a : AppError) (m : String)
    (hA : chainAs f = some (some a)) :
    Wrap u (some f) m =
      .ok { Type_ := a.Type_
            Code := a.Code
            Message := if TrimSpace m = "" then MsgUnknownError else TrimSpace m
            Details := a.Details
            HTTPStatus := a.HTTPStatus
            cause := errors.WrapWithDepth a.cause
              (if TrimSpace m = "" then MsgUnknownError else TrimSpace m) } := by
  have hAs : AsAppError (some f) = (some a, true) := by
    simp [AsAppError, errors.As, hA]
  simp only [Wrap, hAs]

/-- C22: for a failure `o` that unwraps to nothing and is not an `AppError`,
`Wrap(o, m1).UnwrapAll()` is `o`, `Wrap(Wrap(o, m1), m2).UnwrapAll()` is `o`, and
`e.WithCause(o).UnwrapAll()` is `o` for every `AppError` `e`; `UnwrapAll` on a nil
receiver is nil. -/
theorem UnwrapAll_root (u : Char → Char) (o : GoError) (m1 m2 : String) (e : AppError)
    (hroot : UnwrapOnce o = none) (hApp : IsAppError (some o) = false) :
    ∃ a b, Wrap u (some o) m1 = .ok a ∧ AppError.UnwrapAll (some a) = some o ∧
      Wrap u (some a.toError) m2 = .ok b ∧ AppError.UnwrapAll (some b) = some o ∧
      AppError.UnwrapAll (AppError.WithCause (some e) (some o)) = some o ∧
      AppError.UnwrapAll none = none := by
  have hA := (IsAppError_eq_false_iff o).mp hApp
  have hr := unwrapAll_of_root o hroot
  obtain ⟨t, c, hw⟩ := Wrap_of_chainAs_none u o m1 hA
  have hm2 := normalized_message_ne_empty m2
  refine ⟨_, _, hw, ?_, rfl, ?_, ?_, rfl⟩
  · simp only [AppError.UnwrapAll, errors.Cause, unwrapAll, hr]
  · simp only [AppError.UnwrapAll, errors.Cause, errors.WrapWithDepth, if_pos hm2, unwrapAll,
      hr]
  · by_cases he : e.Message = ""
    · simp [AppError.UnwrapAll, AppError.WithCause, errors.Cause, errors.WrapWithDepth, he,
        unwrapAll, hr]
    · simp [AppError.UnwrapAll, AppError.WithCause, errors.Cause, errors.WrapWithDepth, he,
        unwrapAll, hr]

/-- C22, at the failure `errors.New("root cause")` of `TestUnwrapAll`. -/
theorem UnwrapAll_root_witness :
    ∃ a b, Wrap (fun c => c) (some (.leaf "root cause")) "layer one" = .ok a ∧
      AppError.UnwrapAll (some a) = some (.leaf "root cause") ∧
      Wrap (fun c => c) (some a.toError) "layer two" = .ok b ∧
      AppError.UnwrapAll (some b) = some (.leaf "root cause") ∧
      AppError.UnwrapAll (AppError.WithCause (some (New "An error occurred"))
        (some (.leaf "root cause"))) = some (.leaf "root cause") ∧
      AppError.UnwrapAll none = none :=
  UnwrapAll_root (fun c => c) (.leaf "root cause") "layer one" "layer two"
    (New "An error occurred") rfl rfl

/-- C23, as the code has it: with `a = Wrap(o, "A")` and `b = Wrap(a, "B")` for a
failure `o` that is not an `AppError`, `b.Unwrap()` is the cause of `b` without its
stack wrapper: the message link "B" over the cause of `a`. It renders with the
annotation "B", it is not `o`, and it unwraps to the cause of `a`; `b.UnwrapAll()` is
the root of the chain of `o`, which is `o` when `o` unwraps to nothing. -/
theorem Unwrap_second_wrap (u : Char → Char) (o : GoError)
    (hApp : IsAppError (some o) = false) :
    ∃ a b, Wrap u (some o) "A" = .ok a ∧ Wrap u (some a.toError) "B" = .ok b ∧
      a.cause = some (.withStack (.withPrefix "A" o)) ∧
      AppError.Unwrap (some b) =
        .ok (some (.withPrefix "B" (.withStack (.withPrefix "A" o)))) ∧
      (∀ t, o.Error = .ok t →
        (GoError.withPrefix "B" (.withStack (.withPrefix "A" o))).Error =
          .ok ("B" ++ ": " ++ ("A" ++ ": " ++ t))) ∧
      GoError.withPrefix "B" (.withStack (.withPrefix "A" o)) ≠ o ∧
      errors.Unwrap (some (.withPrefix "B" (.withStack (.withPrefix "A" o)))) = a.cause ∧
      AppError.UnwrapAll (some b) = some (unwrapAll o) ∧
      (UnwrapOnce o = none → AppError.UnwrapAll (some b) = some o) := by
  have hA := (IsAppError_eq_false_iff o).mp hApp
  obtain ⟨t, c, hw⟩ := Wrap_of_chainAs_none u o "A" hA
  refine ⟨_, _, hw, rfl, rfl, rfl, ?_, ?_, rfl, rfl, ?_⟩
  · intro t ht
    simp [GoError.Error, ht]
  · intro h
    have hs := congrArg sizeOf h
    simp at hs
    omega
  · intro hroot
    have hr := unwrapAll_of_root o hroot
    show some (unwrapAll o) = some o
    rw [hr]

/-- C23, at the failure `errors.New("original")`. -/
theorem Unwrap_second_wrap_witness :
    ∃ a b, Wrap (fun c => c) (some (.leaf "original")) "A" = .ok a ∧
      Wrap (fun c => c) (some a.toError) "B" = .ok b ∧
      a.cause = some (.withStack (.withPrefix "A" (.leaf "original"))) ∧
      AppError.Unwrap (some b) =
        .ok (some (.withPrefix "B" (.withStack (.withPrefix "A" (.leaf "original"))))) ∧
      (∀ t, (GoError.leaf "original").Error = .ok t →
        (GoError.withPrefix "B" (.withStack (.withPrefix "A" (.leaf "original")))).Error =
          .ok ("B" ++ ": " ++ ("A" ++ ": " ++ t))) ∧
      GoError.withPrefix "B" (.withStack (.withPrefix "A" (.leaf "original"))) ≠
        .leaf "original" ∧
      errors.Unwrap (some (.withPrefix "B" (.withStack (.withPrefix "A" (.leaf "original"))))) =
        a.cause ∧
      AppError.UnwrapAll (some b) = some (unwrapAll (.leaf "original")) ∧
      (UnwrapOnce (.leaf "original") = none →
        AppError.UnwrapAll (some b) = some (.leaf "original")) :=
  Unwrap_second_wrap (fun c => c) (.leaf "original") rfl

/-- C23 as stated fails: for `o = errors.New("original")` the value `b.Unwrap()`
renders as "B: A: original", with the annotation "B", while the cause of `a` renders
as "A: original". -/
theorem Unwrap_second_wrap_counterexample :
    ∃ a b w, Wrap (fun c => c) (some (.leaf "original")) "A" = .ok a ∧
      Wrap (fun c => c) (some a.toError) "B" = .ok b ∧
      AppError.Unwrap (some b) = .ok (some w) ∧
      w.Error = .ok "B: A: original" ∧
      (GoError.withStack (.withPrefix "A" (.leaf "original"))).Error = .ok "A: original" ∧
      a.cause = some (.withStack (.withPrefix "A" (.leaf "original"))) :=
  ⟨_, _, _, rfl, rfl, rfl, rfl, rfl, rfl⟩

theorem AsAppError_some_iff (f : GoError) (a : AppError) :
    AsAppError (some f) = (some a, true) ↔ chainAs f = some (some a) := by
  cases h : chainAs f with
  | none => simp [AsAppError, errors.As, h]
  | some p => simp [AsAppError, errors.As, h]

/-- C24, as the code has it: a failure `f` with no `*AppError` in its chain is itself
a link of the chain of `Wrap(f, m)`, and the text of `Wrap(f, m).Unwrap()` contains
the text of `f`; when `AsAppError(f)` finds the `AppError` `a`, the chain of
`Wrap(f, m)` is built from the cause of `a`: its links are the new `AppError` and,
when `a` has a cause, one stack wrapper, one message wrapper and the links of that
cause, every one of which is kept. -/
theorem Wrap_chain_includes (u : Char → Char) (f : GoError) (m : String) :
    ((∀ e ∈ links f, isAppValue e = false) →
        ∃ r w t tw, Wrap u (some f) m = .ok r ∧ f ∈ links r.toError ∧
          AppError.Unwrap (some r) = .ok (some w) ∧ f.Error = .ok t ∧ w.Error = .ok tw ∧
          t.data <:+: tw.data) ∧
      (∀ a, AsAppError (some f) = (some a, true) →
        ∃ r, Wrap u (some f) m = .ok r ∧
          links r.toError = r.toError ::
            (match a.cause with
              | none => []
              | some c =>
                .withStack (.withPrefix r.Message c) :: .withPrefix r.Message c :: links c) ∧
          ∀ c, a.cause = some c → ∀ x ∈ links c, x ∈ links r.toError) := by
  have hm := normalized_message_ne_empty m
  constructor
  · intro h
    have hA : chainAs f = none := (chainAs_eq_none_iff f).mpr h
    obtain ⟨t, c, hw⟩ := Wrap_of_chainAs_none u f m hA
    obtain ⟨txt, htxt⟩ := Error_ok_of_chainAs_none f hA
    refine ⟨_, _, txt,
      (if TrimSpace m = "" then MsgUnknownError else TrimSpace m) ++ ": " ++ txt,
      hw, ?_, rfl, htxt, ?_, ?_⟩
    · simp only [AppError.toError, links, List.mem_cons]
      exact Or.inr (Or.inr (Or.inr (mem_links_self f)))
    · simp only [GoError.Error, htxt, hm, if_false]
    · simp only [String.data_append]
      exact (List.suffix_append _ _).isInfix
  · intro a ha
    have hA := (AsAppError_some_iff f a).mp ha
    refine ⟨_, Wrap_of_chainAs_some u f a m hA, ?_, ?_⟩
    · cases hc : a.cause with
      | none => simp only [AppError.toError, hc, errors.WrapWithDepth, links]
      | some c => simp only [AppError.toError, hc, errors.WrapWithDepth, if_pos hm, links]
    · intro c hc x hx
      simp only [AppError.toError, hc, errors.WrapWithDepth, if_pos hm, links, List.mem_cons]
      exact Or.inr (Or.inr (Or.inr hx))

/-- C24, at the failure `errors.New("original error")` of `TestWrap`, and at the
`AppError` `New("first")`. -/
theorem Wrap_chain_includes_witness :
    (∃ r w t tw, Wrap (fun c => c) (some (.leaf "original error")) "wrapped error" = .ok r ∧
        GoError.leaf "original error" ∈ links r.toError ∧
        AppError.Unwrap (some r) = .ok (some w) ∧
        (GoError.leaf "original error").Error = .ok t ∧ w.Error = .ok tw ∧
        t.data <:+: tw.data) ∧
      (∃ r, Wrap (fun c => c) (some (New "first").toError) "second" = .ok r ∧
        links r.toError = r.toError ::
          (match (New "first").cause with
            | none => []
            | some c =>
              .withStack (.withPrefix r.Message c) :: .withPrefix r.Message c :: links c) ∧
        ∀ c, (New "first").cause = some c → ∀ x ∈ links c, x ∈ links r.toError) ∧
      (∃ r, Wrap (fun c => c) (some (New "first").toError) "second" = .ok r ∧
        links r.toError =
          [r.toError, .withStack (.withPrefix "second" (.withStack (.leaf "first"))),
            .withPrefix "second" (.withStack (.leaf "first")), .withStack (.leaf "first"),
            .leaf "first"]) :=
  ⟨(Wrap_chain_includes (fun c => c) (.leaf "original error") "wrapped error").1
      (by simp [links, isAppValue]),
    (Wrap_chain_includes (fun c => c) (New "first").toError "second").2 (New "first") rfl,
    ⟨_, rfl, rfl⟩⟩

/-- C24 as stated fails: the `AppError` `New("first")` is not a link of the chain of
`Wrap(New("first"), "second")`, and a wrapper around it is not a link of the chain of
its wrap. -/
theorem Wrap_chain_includes_counterexample :
    (∃ r, Wrap (fun c => c) (some (New "first").toError) "second" = .ok r ∧
        (New "first").toError ∉ links r.toError) ∧
      (∃ r, Wrap (fun c => c) (some (.wrapped "ctx" (New "first").toError)) "second" = .ok r ∧
        GoError.wrapped "ctx" (New "first").toError ∉ links r.toError) := by
  refine ⟨⟨_, rfl, ?_⟩, ⟨_, rfl, ?_⟩⟩
  · simp [links, AppError.toError, New, errors.WrapWithDepth, errors.NewWithDepth, TrimSpace,
      trimRight, isSpace]
  · simp [links, AppError.toError, New, errors.WrapWithDepth, errors.NewWithDepth, TrimSpace,
      trimRight, isSpace]

/-! ## Shadowed patterns -/

/-- C27 fails on the code: "gateway timeout" contains the pattern "timeout" of the
group before the upstream-unavailable group, so it is classified
`(EXTERNAL, EXTERNAL_TIMEOUT)`; "service unavailable" and "bad gateway" are classified
`(UNAVAILABLE, EXTERNAL_UNAVAILABLE)`. -/
theorem gateway_timeout_shadowed (u : Char → Char) :
    detectFromErrorMessage u "gateway timeout" = ("EXTERNAL", "EXTERNAL_TIMEOUT") ∧
      detectFromErrorMessage u "504 Gateway Timeout" = ("EXTERNAL", "EXTERNAL_TIMEOUT") ∧
      detectFromErrorMessage u "service unavailable" = ("UNAVAILABLE", "EXTERNAL_UNAVAILABLE") ∧
      detectFromErrorMessage u "bad gateway" = ("UNAVAILABLE", "EXTERNAL_UNAVAILABLE") ∧
      detectFromErrorMessage u "service unavailable: request timeout" =
        ("EXTERNAL", "EXTERNAL_TIMEOUT") :=
  ⟨rfl, rfl, rfl, rfl, rfl⟩

/-- C28 fails on the code: "malformed token" contains the pattern "malformed" of the
second group, so it is classified `(VALIDATION, INVALID_FORMAT)`; "token expired" and
"jwt expired" are `(AUTHENTICATION, TOKEN_EXPIRED)` and "invalid token" is
`(AUTHENTICATION, TOKEN_INVALID)`, in upper case too. -/
theorem malformed_token_shadowed (u : Char → Char) :
    detectFromErrorMessage u "malformed token" = ("VALIDATION", "INVALID_FORMAT") ∧
      detectFromErrorMessage u "MALFORMED TOKEN" = ("VALIDATION", "INVALID_FORMAT") ∧
      detectFromErrorMessage u "token expired" = ("AUTHENTICATION", "TOKEN_EXPIRED") ∧
      detectFromErrorMessage u "Token Expired" = ("AUTHENTICATION", "TOKEN_EXPIRED") ∧
      detectFromErrorMessage u "jwt expired" = ("AUTHENTICATION", "TOKEN_EXPIRED") ∧
      detectFromErrorMessage u "JWT EXPIRED" = ("AUTHENTICATION", "TOKEN_EXPIRED") ∧
      detectFromErrorMessage u "invalid token" = ("AUTHENTICATION", "TOKEN_INVALID") ∧
      detectFromErrorMessage u "INVALID TOKEN" = ("AUTHENTICATION", "TOKEN_INVALID") :=
  ⟨rfl, rfl, rfl, rfl, rfl, rfl, rfl, rfl⟩

theorem detectInGroups_append_left (L : String) (gs1 gs2 : List errorPattern)
    (h : ∃ g ∈ gs1, matchesAnyPattern L g.patterns = true) :
    detectInGroups L (gs1 ++ gs2) = detectInGroups L gs1 ∧
      ∃ g ∈ gs1, detectInGroups L gs1 = (g.errorType, g.code) := by
  induction gs1 with
  | nil =>
    obtain ⟨g, hg, _⟩ := h
    cases hg
  | cons g0 rest ih =>
    by_cases hm : matchesAnyPattern L g0.patterns = true
    · simp only [List.cons_append, detectInGroups, hm, if_true, true_and]
      exact ⟨g0, List.mem_cons_self _ _, rfl⟩
    · obtain ⟨g, hg, hgm⟩ := h
      have hrest : ∃ g ∈ rest, matchesAnyPattern L g.patterns = true := by
        rcases List.mem_cons.mp hg with hg | hg
        · subst hg
          exact absurd hgm hm
        · exact ⟨g, hg, hgm⟩
      obtain ⟨h1, g', hg', h2⟩ := ih hrest
      simp only [List.cons_append, detectInGroups, hm, if_false]
      exact ⟨h1, g', List.mem_cons_of_mem _ hg', h2⟩

/-- The pattern "gateway timeout" of the upstream-unavailable group never decides: a
message that contains it is decided by the timeout group or by a group before it. -/
theorem gateway_timeout_never_unavailable (u : Char → Char) (s : String)
    (h : "gateway timeout".data <:+: (ToLower u s).data) :
    detectFromErrorMessage u s ≠ ("UNAVAILABLE", "EXTERNAL_UNAVAILABLE") := by
  have ht : "timeout".data <:+: (ToLower u s).data :=
    List.IsInfix.trans ⟨"gateway ".data, [], rfl⟩ h
  have hsplit : errorPatterns = errorPatterns.take 15 ++ errorPatterns.drop 15 :=
    (List.take_append_drop 15 errorPatterns).symm
  have hmatch : ∃ g ∈ errorPatterns.take 15,
      matchesAnyPattern (ToLower u s) g.patterns = true :=
    ⟨⟨["timeout", "deadline exceeded"], ErrorTypeExternal, CodeExternalTimeout⟩,
      by simp [errorPatterns],
      (matchesAnyPattern_iff _ _).mpr ⟨"timeout", by simp, ht⟩⟩
  obtain ⟨h1, g, hg, h2⟩ :=
    detectInGroups_append_left (ToLower u s) (errorPatterns.take 15) (errorPatterns.drop 15)
      hmatch
  have hd : detectFromErrorMessage u s = (g.errorType, g.code) := by
    show detectInGroups (ToLower u s) errorPatterns = _
    rw [hsplit, h1, h2]
  rw [hd]
  simp only [errorPatterns, List.take, List.mem_cons, List.mem_singleton, List.not_mem_nil,
    or_false] at hg
  rcases hg with hg | hg | hg | hg | hg | hg | hg | hg | hg | hg | hg | hg | hg | hg | hg <;>
    subst hg <;> decide

/-- The pattern "malformed token" of the token group never decides: a message that
contains it is decided by one of the first two groups. -/
theorem malformed_token_never_token_invalid (u : Char → Char) (s : String)
    (h : "malformed token".data <:+: (ToLower u s).data) :
    detectFromErrorMessage u s = ("VALIDATION", "INVALID_FORMAT") := by
  have ht : "malformed".data <:+: (ToLower u s).data :=
    List.IsInfix.trans ⟨[], " token".data, rfl⟩ h
  have hsplit : errorPatterns = errorPatterns.take 2 ++ errorPatterns.drop 2 :=
    (List.take_append_drop 2 errorPatterns).symm
  have hmatch : ∃ g ∈ errorPatterns.take 2,
      matchesAnyPattern (ToLower u s) g.patterns = true :=
    ⟨⟨["validation failed", "invalid format", "malformed"], ErrorTypeValidation,
        CodeInvalidFormat⟩,
      by simp [errorPatterns],
      (matchesAnyPattern_iff _ _).mpr ⟨"malformed", by simp, ht⟩⟩
  obtain ⟨h1, g, hg, h2⟩ :=
    detectInGroups_append_left (ToLower u s) (errorPatterns.take 2) (errorPatterns.drop 2)
      hmatch
  have hd : detectFromErrorMessage u s = (g.errorType, g.code) := by
    show detectInGroups (ToLower u s) errorPatterns = _
    rw [hsplit, h1, h2]
  rw [hd]
  simp only [errorPatterns, List.take, List.mem_cons, List.mem_singleton, List.not_mem_nil,
    or_false] at hg
  rcases hg with hg | hg <;> subst hg <;> rfl

/-! ## Composition of the setters and pass-through -/

/-- C38: for a receiver that is nil or not, `WithCodeAndMessage(c, m)` gives the value
of `WithCode(c).WithMessage(m)` and of `WithMessage(m).WithCode(c)`; a blank `c` keeps
the code while `m` is applied, and a blank `m` keeps the message while `c` is
applied. -/
theorem WithCodeAndMessage_composition (e : Option AppError) (c m : String) :
    AppError.WithCodeAndMessage e c m = AppError.WithMessage (AppError.WithCode e c) m ∧
      AppError.WithCodeAndMessage e c m = AppError.WithCode (AppError.WithMessage e m) c ∧
      (TrimSpace c = "" →
        AppError.WithCodeAndMessage e c m = AppError.WithMessage e m) ∧
      (TrimSpace m = "" →
        AppError.WithCodeAndMessage e c m = AppError.WithCode e c) := by
  cases e with
  | none => exact ⟨rfl, rfl, fun _ => rfl, fun _ => rfl⟩
  | some a =>
    by_cases hc : TrimSpace c = "" <;> by_cases hm : TrimSpace m = "" <;>
      simp [AppError.WithCodeAndMessage, AppError.WithCode, AppError.WithMessage, hc, hm]

/-- C38, at the values of `TestWithCodeAndMessage` and at blank arguments. -/
theorem WithCodeAndMessage_composition_witness :
    AppError.WithCodeAndMessage (some (New "An error occurred")) "NEW_CODE" "New message" =
        some { New "An error occurred" with Code := "NEW_CODE", Message := "New message" } ∧
      AppError.WithCodeAndMessage (some (New "An error occurred")) "  " "New message" =
        AppError.WithMessage (some (New "An error occurred")) "New message" ∧
      AppError.WithCodeAndMessage (some (New "An error occurred")) "NEW_CODE" "\t" =
        AppError.WithCode (some (New "An error occurred")) "NEW_CODE" :=
  ⟨rfl,
    (WithCodeAndMessage_composition (some (New "An error occurred")) "  " "New message").2.2.1
      (by decide),
    (WithCodeAndMessage_composition (some (New "An error occurred")) "NEW_CODE" "\t").2.2.2
      (by decide)⟩

theorem toAppPointer_eq_some (e : GoError) (a : AppError) (h : toAppPointer e = some a) :
    e = a.toError := by
  cases e <;> simp [toAppPointer] at h
  subst h
  rfl

/-- The `AppError` that `AsAppError` finds is the first link of type `*AppError`. -/
theorem find_of_AsAppError (f : GoError) (a : AppError)
    (h : AsAppError (some f) = (some a, true)) :
    (links f).find? isAppValue = some a.toError := by
  have hA := (AsAppError_some_iff f a).mp h
  rw [chainAs_eq_find] at hA
  cases hf : (links f).find? isAppValue with
  | none => simp [hf] at hA
  | some e =>
    simp only [hf, Option.map_some', Option.some.injEq] at hA
    rw [toAppPointer_eq_some e a hA]

/-- C32, as the code has it: when `AsAppError(f)` finds the `AppError` `a`, which is
the first link of type `*AppError` in the chain of `f`, the outermost one, the
classifier returns `(a.Type, a.Code)`; so it does for `a` itself and for `a` under
wrappers, whatever the sentinels and the text of the chain. -/
theorem detect_passes_appError (u : Char → Char) (f : GoError) (a : AppError)
    (m : String) (h : AsAppError (some f) = (some a, true)) :
    (links f).find? isAppValue = some a.toError ∧
      detectErrorTypeAndCode u (some f) = .ok (a.Type_, a.Code) ∧
      detectErrorTypeAndCode u (some a.toError) = .ok (a.Type_, a.Code) ∧
      detectErrorTypeAndCode u (some (.wrapped m (.withStack a.toError))) =
        .ok (a.Type_, a.Code) ∧
      detectErrorTypeAndCode u (some (.join [.sentinel .ErrNoRows, .plain m, a.toError])) =
        .ok (a.Type_, a.Code) := by
  refine ⟨find_of_AsAppError f a h, ?_, rfl, rfl, rfl⟩
  simp only [detectErrorTypeAndCode, h]

/-- C32, at the `AppError` `(VALIDATION, INVALID_INPUT)`, alone and under a wrapper
whose text contains "timeout" and which joins it with the deadline-exceeded
sentinel; and at `New("outer").WithCause(inner)`, where the outermost `AppError` is
`New("outer")`. -/
theorem detect_passes_appError_witness :
    detectErrorTypeAndCode (fun c => c)
        (some (NewAppError ErrorTypeValidation CodeInvalidInput "bad input").toError) =
        .ok ("VALIDATION", "INVALID_INPUT") ∧
      detectErrorTypeAndCode (fun c => c)
        (some (.wrapped "timeout" (.join [.sentinel .DeadlineExceeded,
          (NewAppError ErrorTypeValidation CodeInvalidInput "bad input").toError]))) =
        .ok ("VALIDATION", "INVALID_INPUT") ∧
      detectErrorTypeAndCode (fun c => c)
        (some (asError (AppError.WithCause (some (New "outer"))
          (some (NewAppError ErrorTypeValidation CodeInvalidInput "inner").toError)))) =
        .ok ((New "outer").Type_, (New "outer").Code) :=
  ⟨(detect_passes_appError (fun c => c)
      (NewAppError ErrorTypeValidation CodeInvalidInput "bad input").toError
      (NewAppError ErrorTypeValidation CodeInvalidInput "bad input") "m" rfl).2.1,
    (detect_passes_appError (fun c => c)
      (.wrapped "timeout" (.join [.sentinel .DeadlineExceeded,
        (NewAppError ErrorTypeValidation CodeInvalidInput "bad input").toError]))
      (NewAppError ErrorTypeValidation CodeInvalidInput "bad input") "m" rfl).2.1,
    (detect_passes_appError (fun c => c)
      (asError (AppError.WithCause (some (New "outer"))
        (some (NewAppError ErrorTypeValidation CodeInvalidInput "inner").toError)))
      _ "m" rfl).2.1⟩

/-- C32 as stated fails: `New("outer").WithCause(inner)` wraps the `AppError` `inner`
of category `VALIDATION` and code `INVALID_INPUT`, and is classified
`(INTERNAL, INTERNAL_ERROR)`, the category and code of `New("outer")`. -/
theorem detect_inner_appError_counterexample :
    (NewAppError ErrorTypeValidation CodeInvalidInput "inner").toError ∈
        links (asError (AppError.WithCause (some (New "outer"))
          (some (NewAppError ErrorTypeValidation CodeInvalidInput "inner").toError))) ∧
      ((NewAppError ErrorTypeValidation CodeInvalidInput "inner").Type_,
        (NewAppError ErrorTypeValidation CodeInvalidInput "inner").Code) =
        ("VALIDATION", "INVALID_INPUT") ∧
      detectErrorTypeAndCode (fun c => c)
        (some (asError (AppError.WithCause (some (New "outer"))
          (some (NewAppError ErrorTypeValidation CodeInvalidInput "inner").toError)))) =
        .ok ("INTERNAL", "INTERNAL_ERROR") := by
  refine ⟨?_, rfl, rfl⟩
  have h : asError (AppError.WithCause (some (New "outer"))
      (some (NewAppError ErrorTypeValidation CodeInvalidInput "inner").toError)) =
      .app "INTERNAL" "INTERNAL_ERROR" "outer" "" 500
        (some (.withStack (.withPrefix "outer"
          (NewAppError ErrorTypeValidation CodeInvalidInput "inner").toError))) := rfl
  rw [h]
  exact List.mem_cons_of_mem _ (List.mem_cons_of_mem _ (List.mem_cons_of_mem _
    (mem_links_self _)))

/-! ## Order of the sentinels and of the status calls -/

theorem find_first_of_split {α : Type} (p : α → Bool) (pre post : List α) (x : α)
    (hpre : ∀ y ∈ pre, p y = false) (hx : p x = true) :
    (pre ++ x :: post).find? p = some x := by
  induction pre with
  | nil => simp [List.find?, hx]
  | cons y rest ih =>
    have hy : p y = false := hpre y (List.mem_cons_self _ _)
    simp only [List.cons_append, List.find?_cons, hy]
    exact ih (fun z hz => hpre z (List.mem_cons_of_mem _ hz))

/-- C33, as the code has it: for a failure that is not an `AppError`, the classifier
returns the pair of the sentinel that comes first, in the order of the `switch`, among
those `errors.Is` identifies in its chain, by the sentinel itself or by a
standard-library `errors.New` value with its type and text: deadline-exceeded,
canceled, record-not-found, invalid-transaction, not-implemented,
missing-where-clause, unsupported-relation, primary-key-required, no-rows, tx-done,
conn-done. -/
theorem detect_first_sentinel (u : Char → Char) (f : GoError) (s : Sentinel)
    (pre post : List Sentinel) (hApp : IsAppError (some f) = false)
    (horder : [Sentinel.DeadlineExceeded, .Canceled, .ErrRecordNotFound,
      .ErrInvalidTransaction, .ErrNotImplemented, .ErrMissingWhereClause,
      .ErrUnsupportedRelation, .ErrPrimaryKeyRequired, .ErrNoRows, .ErrTxDone,
      .ErrConnDone] = pre ++ s :: post)
    (hs : identifiedIn f s)
    (hpre : ∀ s' ∈ pre, ¬ identifiedIn f s') :
    detectErrorTypeAndCode u (some f) = .ok (sentinelPair s) := by
  have hA := (IsAppError_eq_false_iff f).mp hApp
  have hfind : sentinelOrder.find? (chainIs f) = some s := by
    have ho : sentinelOrder = pre ++ s :: post := horder
    rw [ho]
    apply find_first_of_split
    · intro y hy
      rw [Bool.eq_false_iff]
      intro hc
      exact hpre y hy ((chainIs_iff_identifiedIn f y).mp hc)
    · exact (chainIs_iff_identifiedIn f s).mpr hs
  rw [detect_of_chainAs_none u f hA, hfind]

/-- C33, at a failure joining `sql.ErrNoRows` and `context.Canceled`: the pair is
`(INTERNAL, OPERATION_CANCELED)`, that of the canceled sentinel, which the `switch`
tests first, and `IsRecordNotFound` is true of the same failure; and at the join of
`sql.ErrNoRows`, `sql.ErrTxDone` and `errors.New("context canceled")`. -/
theorem detect_first_sentinel_witness :
    detectErrorTypeAndCode (fun c => c)
        (some (.join [.sentinel .ErrNoRows, .sentinel .Canceled])) =
        .ok (sentinelPair .Canceled) ∧
      sentinelPair .Canceled = ("INTERNAL", "OPERATION_CANCELED") ∧
      detectErrorTypeAndCode (fun c => c)
        (some (.join [.sentinel .Canceled, .sentinel .ErrNoRows])) =
        .ok ("INTERNAL", "OPERATION_CANCELED") ∧
      IsRecordNotFound (some (.join [.sentinel .Canceled, .sentinel .ErrNoRows])) = true ∧
      detectErrorTypeAndCode (fun c => c)
        (some (.join [.sentinel .ErrNoRows, .sentinel .ErrTxDone,
          .plain "context canceled"])) = .ok (sentinelPair .Canceled) :=
  ⟨detect_first_sentinel (fun c => c) (.join [.sentinel .ErrNoRows, .sentinel .Canceled])
      .Canceled [.DeadlineExceeded]
      [.ErrRecordNotFound, .ErrInvalidTransaction, .ErrNotImplemented,
        .ErrMissingWhereClause, .ErrUnsupportedRelation, .ErrPrimaryKeyRequired, .ErrNoRows,
        .ErrTxDone, .ErrConnDone]
      rfl rfl ((identifiedIn_iff _ _).mpr (Or.inl (by simp [links, linksOfList])))
      (by simp [identifiedIn_iff, links, linksOfList]),
    rfl, rfl, rfl,
    detect_first_sentinel (fun c => c)
      (.join [.sentinel .ErrNoRows, .sentinel .ErrTxDone, .plain "context canceled"])
      .Canceled [.DeadlineExceeded]
      [.ErrRecordNotFound, .ErrInvalidTransaction, .ErrNotImplemented,
        .ErrMissingWhereClause, .ErrUnsupportedRelation, .ErrPrimaryKeyRequired, .ErrNoRows,
        .ErrTxDone, .ErrConnDone]
      rfl rfl
      ((identifiedIn_iff _ _).mpr
        (Or.inr ⟨by decide, by simp [links, linksOfList, Sentinel.text]⟩))
      (by simp [identifiedIn_iff, links, linksOfList])⟩

/-- C33 as stated fails: the sentinels in the chain of
`errors.Join(sql.ErrNoRows, sql.ErrTxDone, errors.New("context canceled"))` are
`sql.ErrNoRows` and `sql.ErrTxDone`, the first of which has the pair
`(NOT_FOUND, RESOURCE_NOT_FOUND)`, yet the failure is classified
`(INTERNAL, OPERATION_CANCELED)`. -/
theorem detect_first_sentinel_counterexample :
    IsAppError (some (.join [.sentinel .ErrNoRows, .sentinel .ErrTxDone,
        .plain "context canceled"])) = false ∧
      (∀ s, GoError.sentinel s ∈ links (.join [.sentinel .ErrNoRows, .sentinel .ErrTxDone,
          .plain "context canceled"]) ↔ s = .ErrNoRows ∨ s = .ErrTxDone) ∧
      sentinelPair .ErrNoRows = ("NOT_FOUND", "RESOURCE_NOT_FOUND") ∧
      detectErrorTypeAndCode (fun c => c) (some (.join [.sentinel .ErrNoRows,
        .sentinel .ErrTxDone, .plain "context canceled"])) =
        .ok ("INTERNAL", "OPERATION_CANCELED") := by
  refine ⟨rfl, ?_, rfl, rfl⟩
  intro s
  simp [links, linksOfList]

theorem shortcut_form (call : MutatorCall) (X : ErrorType)
    (h : shortcutCategory call = some X) :
    ∃ k, ∀ e, call.apply e = AppError.WithCode (AppError.setTypeAndStatus e X) k := by
  have hblank : ∀ e : Option AppError, AppError.WithCode e "" = e := by
    intro e
    cases e with
    | none => rfl
    | some a => rfl
  cases call <;> simp only [shortcutCategory] at h <;> cases h <;>
    first
    | exact ⟨_, fun e => rfl⟩
    | exact ⟨"", fun e => (hblank _).symm⟩

/-- C35: for a status `s` in `[100, 599]` and a shortcut of category `X`, the shortcut
after `WithHTTPStatus(s)` gives the effective status of `X`, and `WithHTTPStatus(s)`
after the shortcut gives `s`; the two orders give the same value exactly when `s` is
the default status of `X`. -/
theorem shortcut_overwrites_status (e : AppError) (s : Int) (call : MutatorCall)
    (X : ErrorType) (hX : shortcutCategory call = some X) (hs : 100 ≤ s ∧ s ≤ 599) :
    AppError.GetHTTPStatus (call.apply (AppError.WithHTTPStatus (some e) s)) =
        DefaultHTTPStatus X ∧
      AppError.GetHTTPStatus (AppError.WithHTTPStatus (call.apply (some e)) s) = s ∧
      (call.apply (AppError.WithHTTPStatus (some e) s) =
          AppError.WithHTTPStatus (call.apply (some e)) s ↔
        s = DefaultHTTPStatus X) := by
  obtain ⟨k, hk⟩ := shortcut_form call X hX
  have h0 : s ≠ 0 := by omega
  have hd := DefaultHTTPStatus_ne_zero X
  have hw : AppError.WithHTTPStatus (some e) s = some { e with HTTPStatus := s } := by
    simp only [AppError.WithHTTPStatus, hs, and_self, if_true]
  rw [hk, hk, hw, setTypeAndStatus_WithCode, setTypeAndStatus_WithCode]
  refine ⟨?_, ?_, ?_⟩
  · simp only [AppError.GetHTTPStatus, hd, ne_eq, not_false_eq_true, if_true]
  · simp only [AppError.WithHTTPStatus, hs, and_self, if_true, AppError.GetHTTPStatus, h0,
      ne_eq, not_false_eq_true]
  · simp only [AppError.WithHTTPStatus, hs, and_self, if_true, Option.some.injEq,
      AppError.mk.injEq, true_and, and_true]
    exact eq_comm

/-- C35, at Example 10 of the chaining example: `AsConflictWithCode` then
`WithHTTPStatus(409)`, and at `WithHTTPStatus(422)` then `AsResourceNotFound`. -/
theorem shortcut_overwrites_status_witness :
    AppError.GetHTTPStatus (AppError.AsResourceNotFound
        (AppError.WithHTTPStatus (some (New "user creation failed")) 422)) = 404 ∧
      AppError.GetHTTPStatus (AppError.WithHTTPStatus
        (AppError.AsResourceNotFound (some (New "user creation failed"))) 422) = 422 ∧
      AppError.GetHTTPStatus (AppError.WithHTTPStatus
        (AppError.AsConflictWithCode (some (New "user creation failed")) "USER_EXISTS")
        409) = 409 :=
  ⟨(shortcut_overwrites_status (New "user creation failed") 422 .AsResourceNotFound
      ErrorTypeNotFound rfl (by decide)).1,
    (shortcut_overwrites_status (New "user creation failed") 422 .AsResourceNotFound
      ErrorTypeNotFound rfl (by decide)).2.1,
    (shortcut_overwrites_status (New "user creation failed") 409
      (.AsConflictWithCode "USER_EXISTS") ErrorTypeConflict rfl (by decide)).2.1⟩

/-! ## The status range -/

theorem DefaultHTTPStatus_range (t : ErrorType) :
    100 ≤ DefaultHTTPStatus t ∧ DefaultHTTPStatus t ≤ 599 := by
  unfold DefaultHTTPStatus
  repeat' split
  all_goals decide

theorem call_keeps_status_range (a b : AppError) (call : MutatorCall)
    (ha : 100 ≤ a.HTTPStatus ∧ a.HTTPStatus ≤ 599) (h : call.apply (some a) = some b) :
    100 ≤ b.HTTPStatus ∧ b.HTTPStatus ≤ 599 := by
  have hshort : ∀ X, shortcutCategory call = some X →
      100 ≤ b.HTTPStatus ∧ b.HTTPStatus ≤ 599 := by
    intro X hX
    obtain ⟨k, hk⟩ := shortcut_form call X hX
    rw [hk, setTypeAndStatus_WithCode] at h
    cases h
    exact DefaultHTTPStatus_range X
  cases call with
  | WithType t =>
    cases h
    exact ha
  | WithCode c =>
    by_cases hc : TrimSpace c = "" <;>
      simp only [MutatorCall.apply, AppError.WithCode, hc, ne_eq, not_true_eq_false,
        not_false_eq_true, if_true, if_false, Option.some.injEq] at h <;>
      subst h <;> exact ha
  | WithMessage m =>
    by_cases hm : TrimSpace m = "" <;>
      simp only [MutatorCall.apply, AppError.WithMessage, hm, ne_eq, not_true_eq_false,
        not_false_eq_true, if_true, if_false, Option.some.injEq] at h <;>
      subst h <;> exact ha
  | WithDetails d =>
    cases h
    exact ha
  | WithHTTPStatus s =>
    by_cases hs : 100 ≤ s ∧ s ≤ 599 <;>
      simp only [MutatorCall.apply, AppError.WithHTTPStatus, hs, and_self, if_true, if_false,
        Option.some.injEq] at h <;>
      subst h
    · exact hs
    · exact ha
  | WithCause cause =>
    cases cause with
    | none =>
      cases h
      exact ha
    | some f =>
      cases h
      exact ha
  | WithCodeAndMessage c m =>
    by_cases hc : TrimSpace c = "" <;> by_cases hm : TrimSpace m = "" <;>
      simp only [MutatorCall.apply, AppError.WithCodeAndMessage, hc, hm, ne_eq,
        not_true_eq_false, not_false_eq_true, if_true, if_false, Option.some.injEq] at h <;>
      subst h <;> exact ha
  | _ => exact hshort _ rfl

/-- C34: every value built by `New`, `NewAppError` or `Wrap` of a nil or non-`AppError`
failure, then changed by any mutator calls and wrapped again any number of times, has
its `HTTPStatus` in `[100, 599]`; `GetHTTPStatus` returns that field, never the
fall-back for a zero field. -/
theorem Built_status_range (u : Char → Char) (a : AppError) (h : Built u a) :
    100 ≤ a.HTTPStatus ∧ a.HTTPStatus ≤ 599 ∧
      AppError.GetHTTPStatus (some a) = a.HTTPStatus ∧
      100 ≤ AppError.GetHTTPStatus (some a) ∧ AppError.GetHTTPStatus (some a) ≤ 599 := by
  have hrange : 100 ≤ a.HTTPStatus ∧ a.HTTPStatus ≤ 599 := by
    induction h with
    | byNew m =>
      show (100 : Int) ≤ 500 ∧ (500 : Int) ≤ 599
      exact ⟨by decide, by decide⟩
    | byNewAppError t c m => exact DefaultHTTPStatus_range _
    | byWrapNil m a hw =>
      cases hw
      show (100 : Int) ≤ 500 ∧ (500 : Int) ≤ 599
      exact ⟨by decide, by decide⟩
    | byWrapPlain f m a hApp hw =>
      obtain ⟨t, c, hw'⟩ := Wrap_of_chainAs_none u f m ((IsAppError_eq_false_iff f).mp hApp)
      rw [hw'] at hw
      cases hw
      exact DefaultHTTPStatus_range t
    | byCall a b call _ hcall ih => exact call_keeps_status_range a b call ih hcall
    | byRewrap f a b m _ hAs hw ih =>
      rw [Wrap_of_chainAs_some u f a m ((AsAppError_some_iff f a).mp hAs)] at hw
      cases hw
      exact ih
  have h0 : a.HTTPStatus ≠ 0 := by omega
  have hg : AppError.GetHTTPStatus (some a) = a.HTTPStatus := by
    simp only [AppError.GetHTTPStatus, h0, ne_eq, not_false_eq_true, if_true]
  rw [hg]
  exact ⟨hrange.1, hrange.2, rfl, hrange.1, hrange.2⟩

/-- C34, at `Wrap(New("x").WithHTTPStatus(9999).AsValidationError(), "again")`. -/
theorem Built_status_range_witness :
    Built (fun c => c)
        { New "x" with Type_ := "VALIDATION", Code := "VALIDATION_ERROR", HTTPStatus := 400,
                       Message := "again",
                       cause := some (.withStack (.withPrefix "again" (.withStack (.leaf "x")))) } ∧
      AppError.GetHTTPStatus (some
        { New "x" with Type_ := "VALIDATION", Code := "VALIDATION_ERROR", HTTPStatus := 400,
                       Message := "again",
                       cause := some (.withStack (.withPrefix "again" (.withStack (.leaf "x")))) }) =
        400 :=
  have hb : Built (fun c => c)
      { New "x" with Type_ := "VALIDATION", Code := "VALIDATION_ERROR", HTTPStatus := 400,
                     Message := "again",
                     cause := some (.withStack (.withPrefix "again" (.withStack (.leaf "x")))) } :=
    Built.byRewrap
      (AppError.toError { New "x" with Type_ := "VALIDATION", Code := "VALIDATION_ERROR", HTTPStatus := 400 })
      { New "x" with Type_ := "VALIDATION", Code := "VALIDATION_ERROR", HTTPStatus := 400 } _
      "again"
      (Built.byCall (New "x") _ .AsValidationError
        (Built.byCall (New "x") (New "x") (.WithHTTPStatus 9999) (Built.byNew "x") rfl) rfl)
      rfl rfl
  ⟨hb, (Built_status_range (fun c => c) _ hb).2.2.1⟩

/-! ## Added text -/

theorem ToLower_append (u : Char → Char) (a b : String) :
    ToLower u (a ++ b) = ToLower u a ++ ToLower u b := by
  apply String.ext
  simp [ToLower, String.data_append]

theorem ToLower_infix (u : Char → Char) (p s : String) (h : p.data <:+: s.data) :
    (ToLower u p).data <:+: (ToLower u s).data := by
  obtain ⟨a, b, hab⟩ := h
  refine ⟨a.map (toLowerRune u), b.map (toLowerRune u), ?_⟩
  simp only [ToLower, ← hab, List.map_append]

theorem groupMatches_mono (L1 L2 : String) (g : errorPattern) (h : L1.data <:+: L2.data)
    (hm : groupMatches L1 g) : groupMatches L2 g := by
  obtain ⟨p, hp, hi⟩ := hm
  exact ⟨p, hp, List.IsInfix.trans hi h⟩

theorem first_match_le (L : String) (gs : List errorPattern) (i : Nat) :
    ∀ g, gs[i]? = some g → groupMatches L g →
      ∃ j g', j ≤ i ∧ gs[j]? = some g' ∧ groupMatches L g' ∧
        ∀ (k : Nat) (g'' : errorPattern), k < j → gs[k]? = some g'' → ¬ groupMatches L g'' := by
  induction i using Nat.strong_induction_on with
  | _ i ih =>
    intro g hg hm
    by_cases hex : ∃ k g'', k < i ∧ gs[k]? = some g'' ∧ groupMatches L g''
    · obtain ⟨k, g'', hk, hg'', hm''⟩ := hex
      obtain ⟨j, g', hj, hgj, hmj, hfirst⟩ := ih k hk g'' hg'' hm''
      exact ⟨j, g', by omega, hgj, hmj, hfirst⟩
    · refine ⟨i, g, le_refl i, hg, hm, ?_⟩
      intro k g'' hk hg'' hm''
      exact hex ⟨k, g'', hk, hg'', hm''⟩

theorem group_pair_ne_default (g : errorPattern) (hg : g ∈ errorPatterns) :
    (g.errorType, g.code) ≠ (ErrorTypeInternal, CodeInternalError) := by
  simp only [errorPatterns, List.mem_cons, List.mem_singleton, List.not_mem_nil, or_false] at hg
  rcases hg with h | h | h | h | h | h | h | h | h | h | h | h | h | h | h | h | h | h <;>
    subst h <;> decide

/-- C36: when the group at index `i` decides the message `t`, the message
`pre + t + post` is decided by a group at an index `j ≤ i`, and its pair is that of
the group `j`, never the default `(INTERNAL, INTERNAL_ERROR)`. -/
theorem detect_monotone (u : Char → Char) (pre t post : String) (i : Nat)
    (h : decidedAt (ToLower u t) i) :
    (∃ gi, errorPatterns[i]? = some gi ∧
        detectFromErrorMessage u t = (gi.errorType, gi.code)) ∧
      ∃ j g, j ≤ i ∧ decidedAt (ToLower u (pre ++ t ++ post)) j ∧
        errorPatterns[j]? = some g ∧
        detectFromErrorMessage u (pre ++ t ++ post) = (g.errorType, g.code) ∧
        detectFromErrorMessage u (pre ++ t ++ post) ≠ ("INTERNAL", "INTERNAL_ERROR") := by
  obtain ⟨gi, hgi, hmi, hfirst⟩ := h
  constructor
  · exact ⟨gi, hgi, detectInGroups_first _ _ i gi hgi hmi hfirst⟩
  · have hinf : (ToLower u t).data <:+: (ToLower u (pre ++ t ++ post)).data :=
      ToLower_infix u t (pre ++ t ++ post) ⟨pre.data, post.data, by simp [String.data_append]⟩
    have hm' := groupMatches_mono _ _ gi hinf hmi
    obtain ⟨j, g, hj, hgj, hmj, hfj⟩ :=
      first_match_le (ToLower u (pre ++ t ++ post)) errorPatterns i gi hgi hm'
    have hd : detectFromErrorMessage u (pre ++ t ++ post) = (g.errorType, g.code) :=
      detectInGroups_first _ _ j g hgj hmj hfj
    refine ⟨j, g, hj, ⟨g, hgj, hmj, hfj⟩, hgj, hd, ?_⟩
    rw [hd]
    exact group_pair_ne_default g (List.mem_iff_getElem?.mpr ⟨j, hgj⟩)

theorem decidedAt_of_eval (L : String) (i : Nat) (g : errorPattern)
    (hg : errorPatterns[i]? = some g) (hm : matchesAnyPattern L g.patterns = true)
    (hpre : ∀ g' ∈ errorPatterns.take i, matchesAnyPattern L g'.patterns = false) :
    decidedAt L i := by
  refine ⟨g, hg, (matchesAnyPattern_iff _ _).mp hm, ?_⟩
  intro j g' hj hg' hm'
  have hmem : g' ∈ errorPatterns.take i := by
    rw [List.mem_iff_getElem?]
    exact ⟨j, by rw [List.getElem?_take_of_lt hj]; exact hg'⟩
  have := hpre g' hmem
  rw [(matchesAnyPattern_iff _ _).mpr hm'] at this
  cases this

/-- C36, at the message "timeout", decided by the group at index 14: "gateway
timeout" is decided at an index `j ≤ 14`. -/
theorem detect_monotone_witness :
    decidedAt (ToLower (fun c => c) "timeout") 14 ∧
      ∃ j g, j ≤ 14 ∧ decidedAt (ToLower (fun c => c) ("gateway " ++ "timeout" ++ "")) j ∧
        errorPatterns[j]? = some g ∧
        detectFromErrorMessage (fun c => c) ("gateway " ++ "timeout" ++ "") =
          (g.errorType, g.code) ∧
        detectFromErrorMessage (fun c => c) ("gateway " ++ "timeout" ++ "") ≠
          ("INTERNAL", "INTERNAL_ERROR") :=
  have hd : decidedAt (ToLower (fun c => c) "timeout") 14 :=
    decidedAt_of_eval _ 14 ⟨["timeout", "deadline exceeded"], ErrorTypeExternal,
      CodeExternalTimeout⟩ rfl rfl (by
        intro g' hg'
        simp only [errorPatterns, List.take, List.mem_cons, List.mem_singleton,
          List.not_mem_nil, or_false] at hg'
        rcases hg' with h | h | h | h | h | h | h | h | h | h | h | h | h | h <;>
          subst h <;> rfl)
  ⟨hd, (detect_monotone (fun c => c) "gateway " "timeout" "" 14 hd).2⟩

/-! ## The first group -/

theorem toLowerRune_ne_capital (u : Char → Char) (c : Char)
    (hu : ∀ x : Char, 128 ≤ x.toNat → ¬ (65 ≤ (u x).toNat ∧ (u x).toNat ≤ 90)) :
    ¬ (65 ≤ (toLowerRune u c).toNat ∧ (toLowerRune u c).toNat ≤ 90) := by
  unfold toLowerRune
  by_cases h1 : c.toNat < 128
  · rw [if_pos h1]
    by_cases h2 : 65 ≤ c.toNat ∧ c.toNat ≤ 90
    · rw [if_pos h2]
      obtain ⟨ha, hb⟩ := h2
      generalize c.toNat = n at ha hb
      interval_cases n <;> decide
    · rw [if_neg h2]
      exact h2
  · rw [if_neg h1]
    exact hu c (by omega)

theorem first_group_wins (L : String) (p : String)
    (hp : p ∈ ["json", "unmarshal", "parse", "invalid character", "looking for beginning",
      "unexpected end of JSON input"])
    (h : p.data <:+: L.data) :
    detectInGroups L errorPatterns = (ErrorTypeValidation, CodeInvalidFormat) :=
  detectInGroups_first L errorPatterns 0
    ⟨["json", "unmarshal", "parse", "invalid character", "looking for beginning",
      "unexpected end of JSON input"], ErrorTypeValidation, CodeInvalidFormat⟩ rfl
    ⟨p, hp, h⟩ (fun j _ hj => absurd hj (Nat.not_lt_zero j))

/-- C37: a message whose lower-cased text contains "json", "unmarshal", "parse",
"invalid character" or "looking for beginning" is classified
`(VALIDATION, INVALID_FORMAT)`. When the lower-case mapping gives no ASCII capital,
the pattern "unexpected end of JSON input" occurs in no lower-cased message; yet every
message containing a phrase whose lower-cased text is "unexpected end of json input"
is classified `(VALIDATION, INVALID_FORMAT)`. -/
theorem first_group_unconditional (u : Char → Char) (s : String) :
    ((∃ p ∈ ["json", "unmarshal", "parse", "invalid character", "looking for beginning"],
          p.data <:+: (ToLower u s).data) →
        detectFromErrorMessage u s = ("VALIDATION", "INVALID_FORMAT")) ∧
      ((∀ x : Char, 128 ≤ x.toNat → ¬ (65 ≤ (u x).toNat ∧ (u x).toNat ≤ 90)) →
        ¬ "unexpected end of JSON input".data <:+: (ToLower u s).data) ∧
      (∀ phrase : String, phrase.data <:+: s.data →
        ToLower u phrase = "unexpected end of json input" →
        detectFromErrorMessage u s = ("VALIDATION", "INVALID_FORMAT")) := by
  refine ⟨?_, ?_, ?_⟩
  · rintro ⟨p, hp, hi⟩
    apply first_group_wins (ToLower u s) p _ hi
    simp only [List.mem_cons, List.mem_singleton, List.not_mem_nil, or_false] at hp ⊢
    rcases hp with h | h | h | h | h <;> simp [h]
  · intro hu hi
    have hJ : 'J' ∈ "unexpected end of JSON input".data := by decide
    have hmem : 'J' ∈ (ToLower u s).data := hi.subset hJ
    simp only [ToLower, List.mem_map] at hmem
    obtain ⟨c, _, hc⟩ := hmem
    have := toLowerRune_ne_capital u c hu
    rw [hc] at this
    exact this (by decide)
  · intro phrase hi hl
    have h1 := ToLower_infix u phrase s hi
    rw [hl] at h1
    have h2 : "json".data <:+: (ToLower u s).data :=
      List.IsInfix.trans ⟨"unexpected end of ".data, " input".data, rfl⟩ h1
    exact first_group_wins (ToLower u s) "json" (by simp) h2

/-- C37, at messages of the JSON decoder: "unexpected end of JSON input" itself, an
upper-case form of it, and "Failed to PARSE body: connection refused". -/
theorem first_group_unconditional_witness :
    detectFromErrorMessage (fun c => c) "Failed to PARSE body: connection refused" =
        ("VALIDATION", "INVALID_FORMAT") ∧
      ¬ "unexpected end of JSON input".data <:+:
        (ToLower (fun c => c) "unexpected end of JSON input").data ∧
      detectFromErrorMessage (fun c => c) "decode: UNEXPECTED END OF JSON INPUT" =
        ("VALIDATION", "INVALID_FORMAT") :=
  ⟨(first_group_unconditional (fun c => c) "Failed to PARSE body: connection refused").1
      ⟨"parse", by simp, ⟨"failed to ".data, " body: connection refused".data, rfl⟩⟩,
    (first_group_unconditional (fun c => c) "unexpected end of JSON input").2.1
      (fun x hx => by omega),
    (first_group_unconditional (fun c => c) "decode: UNEXPECTED END OF JSON INPUT").2.2
      "UNEXPECTED END OF JSON INPUT" ⟨"decode: ".data, [], rfl⟩ rfl⟩

/-! ## Stack-trace lines -/

theorem trimRight_getLast (l : List Char) (x : Char)
    (h : (trimRight l).getLast? = some x) : isSpace x = false := by
  induction l with
  | nil => simp [trimRight] at h
  | cons c cs ih =>
    cases hr : trimRight cs with
    | nil =>
      simp only [trimRight, hr] at h
      by_cases hc : isSpace c = true
      · simp [hc] at h
      · simp only [hc, Bool.false_eq_true, if_false, List.getLast?_singleton,
          Option.some.injEq] at h
        subst h
        simpa using hc
    | cons r rs =>
      simp only [trimRight, hr] at h
      rw [List.getLast?_cons_cons] at h
      rw [hr] at ih
      exact ih h

theorem trimRight_head (l : List Char) (x : Char) (h : (trimRight l).head? = some x) :
    l.head? = some x := by
  cases l with
  | nil => simp [trimRight] at h
  | cons c cs =>
    cases hr : trimRight cs with
    | nil =>
      simp only [trimRight, hr] at h
      by_cases hc : isSpace c = true
      · simp [hc] at h
      · simpa [hc] using h
    | cons r rs =>
      simp only [trimRight, hr] at h
      simpa using h

theorem TrimSpace_head (s : String) (x : Char) (h : (TrimSpace s).data.head? = some x) :
    isSpace x = false := by
  have h1 := trimRight_head _ x h
  have h2 := List.head?_dropWhile_not isSpace s.data
  rw [h1] at h2
  simpa using h2

theorem TrimSpace_getLast (s : String) (x : Char)
    (h : (TrimSpace s).data.getLast? = some x) : isSpace x = false :=
  trimRight_getLast _ x h

theorem filter_head_of_kept (q : Char → Bool) (l : List Char) (x : Char)
    (hne : l ≠ []) (hkeep : ∀ y, l.head? = some y → q y = true)
    (h : (l.filter q).head? = some x) : l.head? = some x := by
  cases l with
  | nil => exact absurd rfl hne
  | cons c cs =>
    have hq : q c = true := hkeep c rfl
    simpa [List.filter_cons, hq] using h

theorem filter_getLast_of_kept (q : Char → Bool) (l : List Char) (x : Char)
    (hne : l ≠ []) (hkeep : ∀ y, l.getLast? = some y → q y = true)
    (h : (l.filter q).getLast? = some x) : l.getLast? = some x := by
  obtain ⟨z, hz⟩ : ∃ z, l.getLast? = some z := by
    cases hl : l.getLast? with
    | none => exact absurd (List.getLast?_eq_none_iff.mp hl) hne
    | some z => exact ⟨z, rfl⟩
  obtain ⟨ys, hys⟩ := List.getLast?_eq_some_iff.mp hz
  have hq : q z = true := hkeep z hz
  rw [hys, List.filter_append] at h
  simp [List.filter_cons, hq] at h
  rw [hz, h]

theorem tab_and_cr_are_space : isSpace '\t' = true ∧ isSpace '\r' = true :=
  ⟨by decide, by decide⟩

/-- One line of the trace after the three cleaning steps of `GetStackTraceLines`. -/
theorem cleaned_line_props (l : List Char) (x : Char) :
    let cleaned := removeRune (removeRune (TrimSpace ⟨l⟩) '\t') '\r'
    (cleaned.data.head? = some x → isSpace x = false) ∧
      (cleaned.data.getLast? = some x → isSpace x = false) ∧
      '\t' ∉ cleaned.data ∧ '\r' ∉ cleaned.data := by
  intro cleaned
  have hkeepT : ∀ y : Char, isSpace y = false → (decide (y ≠ '\t')) = true := by
    intro y hy
    simp only [ne_eq, decide_eq_true_eq]
    intro h
    rw [h, tab_and_cr_are_space.1] at hy
    cases hy
  have hkeepR : ∀ y : Char, isSpace y = false → (decide (y ≠ '\r')) = true := by
    intro y hy
    simp only [ne_eq, decide_eq_true_eq]
    intro h
    rw [h, tab_and_cr_are_space.2] at hy
    cases hy
  have hdata : cleaned.data =
      ((TrimSpace ⟨l⟩).data.filter (fun c => decide (c ≠ '\t'))).filter
        (fun c => decide (c ≠ '\r')) := rfl
  refine ⟨?_, ?_, ?_, ?_⟩
  · intro h
    rw [hdata] at h
    by_cases hT : (TrimSpace ⟨l⟩).data = []
    · rw [hT] at h
      simp at h
    · by_cases hF : (TrimSpace ⟨l⟩).data.filter (fun c => decide (c ≠ '\t')) = []
      · rw [hF] at h
        simp at h
      · have h1 := filter_head_of_kept _ _ x hF
            (fun y hy => hkeepR y (TrimSpace_head _ y
              (filter_head_of_kept _ _ y hT (fun z hz => hkeepT z (TrimSpace_head _ z hz))
                hy))) h
        exact TrimSpace_head _ x
          (filter_head_of_kept _ _ x hT (fun z hz => hkeepT z (TrimSpace_head _ z hz)) h1)
  · intro h
    rw [hdata] at h
    by_cases hT : (TrimSpace ⟨l⟩).data = []
    · rw [hT] at h
      simp at h
    · by_cases hF : (TrimSpace ⟨l⟩).data.filter (fun c => decide (c ≠ '\t')) = []
      · rw [hF] at h
        simp at h
      · have h1 := filter_getLast_of_kept _ _ x hF
            (fun y hy => hkeepR y (TrimSpace_getLast _ y
              (filter_getLast_of_kept _ _ y hT
                (fun z hz => hkeepT z (TrimSpace_getLast _ z hz)) hy))) h
        exact TrimSpace_getLast _ x
          (filter_getLast_of_kept _ _ x hT
            (fun z hz => hkeepT z (TrimSpace_getLast _ z hz)) h1)
  · rw [hdata]
    simp [List.mem_filter]
  · rw [hdata]
    simp [List.mem_filter]

theorem cleanLines_eq (ls : List (List Char)) :
    cleanLines ls =
      (ls.map (fun l => removeRune (removeRune (TrimSpace ⟨l⟩) '\t') '\r')).filter
        (fun x => decide (x ≠ "")) := by
  induction ls with
  | nil => rfl
  | cons l rest ih =>
    by_cases h : removeRune (removeRune (TrimSpace ⟨l⟩) '\t') '\r' = ""
    · simp [cleanLines, h, ih]
    · simp [cleanLines, h, ih]

theorem splitNewline_ne_nil (l : List Char) : splitNewline l ≠ [] := by
  cases l with
  | nil => simp [splitNewline]
  | cons c cs =>
    by_cases h : c = '\n'
    · simp [splitNewline, h]
    · cases hs : splitNewline cs <;> simp [splitNewline, h, hs]

theorem splitNewline_spec (l : List Char) :
    List.intercalate ['\n'] (splitNewline l) = l ∧ ∀ piece ∈ splitNewline l, '\n' ∉ piece := by
  induction l with
  | nil => simp [splitNewline, List.intercalate]
  | cons c cs ih =>
    obtain ⟨h1, h2⟩ := ih
    by_cases h : c = '\n'
    · subst h
      have hne := splitNewline_ne_nil cs
      cases hs : splitNewline cs with
      | nil => exact absurd hs hne
      | cons p ps =>
        rw [hs] at h1 h2
        constructor
        · simp only [splitNewline, if_true, hs]
          simp only [List.intercalate, List.intersperse, List.flatten] at h1 ⊢
          simpa using h1
        · intro piece hp
          simp only [splitNewline, if_true, hs, List.mem_cons] at hp
          rcases hp with hp | hp
          · subst hp
            simp
          · exact h2 piece (by simpa using hp)
    · have hne := splitNewline_ne_nil cs
      cases hs : splitNewline cs with
      | nil => exact absurd hs hne
      | cons p ps =>
        rw [hs] at h1 h2
        constructor
        · simp only [splitNewline, h, if_false, hs]
          cases ps with
          | nil =>
            simp only [List.intercalate, List.intersperse, List.flatten] at h1 ⊢
            simpa using h1
          | cons q qs =>
            simp only [List.intercalate, List.intersperse, List.flatten] at h1 ⊢
            simpa using h1
        · intro piece hp
          simp only [splitNewline, h, if_false, hs, List.mem_cons] at hp
          rcases hp with hp | hp
          · subst hp
            have hp' := h2 p (by simp)
            simp only [List.mem_cons, not_or]
            exact ⟨fun hc => h hc.symm, hp'⟩
          · exact h2 piece (by simp [hp])


/-- C31: on a nil receiver and on a receiver with no cause, `GetStackTrace` is "no
stack trace available" and `GetStackTraceLines` is the list of that one text. With a
cause `c`, the lines are those of the rendered trace, split at the newlines, each
trimmed and freed of tabs and carriage returns, the empty ones dropped and the order
kept; every returned line is non-empty, starts and ends with a rune that is not white
space, and holds no tab and no carriage return. -/
theorem GetStackTraceLines_clean (verbose : GoError → String) (e : AppError) (c : GoError)
    (hc : e.cause = some c) :
    AppError.GetStackTrace verbose none = "no stack trace available" ∧
      AppError.GetStackTraceLines verbose none = ["no stack trace available"] ∧
      AppError.GetStackTrace verbose (some { e with cause := none }) =
        "no stack trace available" ∧
      AppError.GetStackTraceLines verbose (some { e with cause := none }) =
        ["no stack trace available"] ∧
      AppError.GetStackTrace verbose (some e) = verbose c ∧
      AppError.GetStackTraceLines verbose (some e) =
        ((splitNewline (verbose c).data).map
          (fun l => removeRune (removeRune (TrimSpace ⟨l⟩) '\t') '\r')).filter
          (fun x => decide (x ≠ "")) ∧
      List.intercalate ['\n'] (splitNewline (verbose c).data) = (verbose c).data ∧
      (∀ piece ∈ splitNewline (verbose c).data, '\n' ∉ piece) ∧
      ∀ line ∈ AppError.GetStackTraceLines verbose (some e),
        line ≠ "" ∧
          (∀ x, line.data.head? = some x → isSpace x = false) ∧
          (∀ x, line.data.getLast? = some x → isSpace x = false) ∧
          '\t' ∉ line.data ∧ '\r' ∉ line.data := by
  have hlines : AppError.GetStackTraceLines verbose (some e) =
      ((splitNewline (verbose c).data).map
        (fun l => removeRune (removeRune (TrimSpace ⟨l⟩) '\t') '\r')).filter
        (fun x => decide (x ≠ "")) := by
    simp only [AppError.GetStackTraceLines, hc, cleanLines_eq]
  refine ⟨rfl, rfl, rfl, rfl, ?_, hlines, (splitNewline_spec _).1, (splitNewline_spec _).2, ?_⟩
  · simp only [AppError.GetStackTrace, hc]
  · intro line hline
    rw [hlines, List.mem_filter, List.mem_map] at hline
    obtain ⟨⟨l, _, hl⟩, hne⟩ := hline
    have hp := fun x => cleaned_line_props l x
    simp only [hl] at hp
    refine ⟨by simpa using hne, fun x => (hp x).1, fun x => (hp x).2.1, (hp ' ').2.2.1,
      (hp ' ').2.2.2⟩

/-- C31, at a trace of five lines, two of them blank, with tabs and a carriage
return. -/
theorem GetStackTraceLines_clean_witness :
    AppError.GetStackTraceLines
        (fun _ => "An error occurred\n  (1) attached stack trace\r\n\n\t| main.main\n \t ")
        (some (New "An error occurred")) =
        ["An error occurred", "(1) attached stack trace", "| main.main"] ∧
      ∀ line ∈ AppError.GetStackTraceLines
          (fun _ => "An error occurred\n  (1) attached stack trace\r\n\n\t| main.main\n \t ")
          (some (New "An error occurred")),
        line ≠ "" ∧
          (∀ x, line.data.head? = some x → isSpace x = false) ∧
          (∀ x, line.data.getLast? = some x → isSpace x = false) ∧
          '\t' ∉ line.data ∧ '\r' ∉ line.data :=
  ⟨by decide,
    (GetStackTraceLines_clean
      (fun _ => "An error occurred\n  (1) attached stack trace\r\n\n\t| main.main\n \t ")
      (New "An error occurred") (.withStack (.leaf "An error occurred")) rfl).2.2.2.2.2.2.2.2⟩

end Xerrs
